import Mathlib

/-!
# NetworkReplication-UE5: a shallow embedding of the replication component and subsystem

The development embeds `UNetworkReplicationComponent` (NetworkReplicationComponent.cpp) and
`UNetworkReplicationSubsystem` (NetworkReplicationSubsystem.cpp) as pure functions.

Conventions of the embedding.

* A `UObject*` (and a `TSubclassOf<...>`) is an `Option Nat`: `none` is `nullptr`, `some i` is the
  object with identity `i`. Every non-null pointer refers to a live object.
* `float` and `double` values are rationals. A conversion to `float` (`roundToFloat`) and the
  `double` operations of `FVector::Dist` round to the nearest value of the format, ties to even;
  so do the `float` additions and the division of `GetAverageLatency`. The remaining `float`
  products and quotients are computed exactly. Infinities and NaN are outside the model: a
  rounded value above the largest finite value of its format stands for an infinity.
* `int32` values are integers; `++` and `+=` wrap modulo `2 ^ 32` (two's complement).
* A call of a `Server*` / `NetMulticast*` RPC stub is recorded as an `RpcCall`; delivering the call
  and running the `*_Implementation` handler on the receiving machines is the engine's work.
* `UE_LOG` appends a `LogLine` (verbosity, format string, unrendered arguments) to a log.
* `Delegate.Broadcast(args)` is recorded as a `DelegateEvent`; the repository itself binds no
  listener to any delegate.
* A call into the engine made by an RPC handler (playing a montage or a sound, spawning,
  attaching) is recorded as an `EngineCall`; what the handler reads from the engine is an
  `Engine` value. Dereferencing a null pointer is outside the model.
-/

namespace NetworkReplication

/-! ## Engine value types -/

/-- The C++ `float` type (IEEE 754 binary32): the rational value of the number. -/
abbrev float := ℚ

/-- The C++ `double` type (IEEE 754 binary64): the rational value of the number. -/
abbrev double := ℚ

/-- The C++ `int32` type; arithmetic results are wrapped by `wrapInt32`. -/
abbrev int32 := Int

/-- An object pointer: `none` is `nullptr`. -/
abbrev Ptr := Option Nat

/-- An `FString`. -/
abbrev FString := String

/-- An `FName`. -/
abbrev FName := String

/-- The engine constant `NAME_None`. -/
def NAME_None : FName := "None"

/-- Two's-complement wrap of an integer into the `int32` range. -/
def wrapInt32 (x : Int) : int32 := (x + 2147483648) % 4294967296 - 2147483648

/-- The engine's `FVector` (`UE::Math::TVector<double>`). -/
structure FVector where
  X : double
  Y : double
  Z : double
deriving DecidableEq

/-- The engine's `FRotator`. -/
structure FRotator where
  Pitch : float
  Yaw : float
  Roll : float
deriving DecidableEq

/-- Componentwise sum of two `FVector`s (`operator+`). -/
def FVector.add (a b : FVector) : FVector := ⟨a.X + b.X, a.Y + b.Y, a.Z + b.Z⟩

/-- Componentwise sum of two `FRotator`s (`operator+`). -/
def FRotator.add (a b : FRotator) : FRotator :=
  ⟨a.Pitch + b.Pitch, a.Yaw + b.Yaw, a.Roll + b.Roll⟩

/-! ## Binary floating point -/

/-- Round a rational to the nearest integer, ties to even. -/
def roundHalfEven (q : ℚ) : Int :=
  let f := Int.floor q
  let r := q - f
  if r < 1 / 2 then f
  else if 1 / 2 < r then f + 1
  else if f % 2 = 0 then f else f + 1

/-- Round a rational to the nearest value of the binary format with `p` significant bits and
least normal exponent `emin`, ties to even (the IEEE 754 default rounding). With `e` the binary
exponent of `q`, not below `emin`, the values of the format near `q` are the multiples of
`2 ^ (e - (p - 1))`. -/
def roundBinary (p : Nat) (emin : Int) (q : ℚ) : ℚ :=
  let e := max (Int.log 2 |q|) emin
  let ulp : ℚ := 2 ^ (e - (p - 1))
  roundHalfEven (q / ulp) * ulp

/-- The conversion to `float`, as in `float x = d;` for a `double d`, and the rounding of the
exact result of a `float` operation: 24 significant bits, least normal exponent -126. -/
def roundToFloat (q : ℚ) : float := roundBinary 24 (-126) q

/-- The constant `FLT_MAX`, the largest finite `float`: `(2 ^ 24 - 1) * 2 ^ 104`. -/
def FLT_MAX : float := 2 ^ 128 - 2 ^ 104

/-- The rounding of the exact result of a `double` operation: 53 significant bits, least normal
exponent -1022. -/
def roundToDouble (q : ℚ) : double := roundBinary 53 (-1022) q

/-- The nearest integer to the square root of a non-negative rational, ties to even: with
`n = floor (sqrt x)`, the result is `n` or `n + 1` as `x` lies below or above
`(n + 1/2) ^ 2`. -/
def roundSqrt (x : ℚ) : Int :=
  let n : Int := Nat.sqrt (Int.toNat (Int.floor x))
  let m : ℚ := (n + 1 / 2) ^ 2
  if x < m then n else if m < x then n + 1 else if n % 2 = 0 then n else n + 1

/-- The square root of a non-negative rational rounded to the nearest value of the binary
format with `p` significant bits and least normal exponent `emin`. The binary exponent of the
root is half that of `s`, rounded down. -/
def sqrtBinary (p : Nat) (emin : Int) (s : ℚ) : ℚ :=
  let e := max (Int.log 2 s / 2) emin
  let ulp : ℚ := 2 ^ (e - (p - 1))
  roundSqrt (s / ulp ^ 2) * ulp

/-- Engine routine `FMath::Square` on `double`. -/
def FMath.Square (A : double) : double := roundToDouble (A * A)

/-- Engine routine `FMath::Sqrt` on `double` (correctly rounded, as IEEE 754 requires). -/
def FMath.Sqrt (A : double) : double := sqrtBinary 53 (-1022) A

/-- Engine routine `FVector::DistSquared(V1, V2)`:
`Square(V2.X - V1.X) + Square(V2.Y - V1.Y) + Square(V2.Z - V1.Z)` in `double` arithmetic. -/
def FVector.DistSquared (V1 V2 : FVector) : double :=
  roundToDouble
    (roundToDouble (FMath.Square (roundToDouble (V2.X - V1.X)) +
      FMath.Square (roundToDouble (V2.Y - V1.Y))) +
     FMath.Square (roundToDouble (V2.Z - V1.Z)))

/-- Engine routine `FVector::Dist(V1, V2)`: `FMath::Sqrt(FVector::DistSquared(V1, V2))`. -/
def FVector.Dist (V1 V2 : FVector) : double := FMath.Sqrt (FVector.DistSquared V1 V2)

/-! ## Text formatting used for replicated values -/

/-- Left-pad a digit string with zeros to the given width. -/
def padZeros (width : Nat) (s : String) : String :=
  String.mk (List.replicate (width - s.length) '0') ++ s

/-- The text of `printf("%.Nf", x)` with `N = digits`. -/
def printfFixed (digits : Nat) (x : float) : FString :=
  let scaled := (roundHalfEven (|x| * (10 : ℚ) ^ digits)).toNat
  let whole := scaled / 10 ^ digits
  let frac := scaled % 10 ^ digits
  (if x < 0 then "-" else "") ++ toString whole ++
    (if digits = 0 then "" else "." ++ padZeros digits (toString frac))

/-- The text of `printf("%d", n)`. -/
def printfInt (n : int32) : FString := toString n

/-- Engine routine `FVector::ToString()`, format `X=%3.3f Y=%3.3f Z=%3.3f`. -/
def FVector.ToString (v : FVector) : FString :=
  "X=" ++ printfFixed 3 v.X ++ " Y=" ++ printfFixed 3 v.Y ++ " Z=" ++ printfFixed 3 v.Z

/-- Engine routine `FRotator::ToString()`, format `P=%f Y=%f R=%f`. -/
def FRotator.ToString (r : FRotator) : FString :=
  "P=" ++ printfFixed 6 r.Pitch ++ " Y=" ++ printfFixed 6 r.Yaw ++ " R=" ++ printfFixed 6 r.Roll

/-! ## Logging and delegates -/

/-- Verbosity of a `UE_LOG` line. -/
inductive ELogVerbosity where
  | Log
  | Warning
deriving DecidableEq

/-- An argument of a format string, kept unrendered. -/
inductive FormatArg where
  | str (s : FString)
  | flt (x : float)
  | int (n : int32)
  | objectName (Object : Nat)
  | ownerName (Component : Nat)
  | projectLogFile (FileName : FString)
deriving DecidableEq

/-- One `FString::Printf(Format, Args...)` piece, kept unrendered. -/
structure Formatted where
  Format : String
  Args : List FormatArg
deriving DecidableEq

/-- One `UE_LOG(LogTemp, Verbosity, Format, Args...)` line. -/
structure LogLine where
  Verbosity : ELogVerbosity
  Format : String
  Args : List FormatArg
deriving DecidableEq

/-- The name argument of `Object->GetName()`. Dereferencing a null pointer is undefined
behaviour and is not modelled as a failure: the argument is then the empty text. -/
def nameOf (Object : Ptr) : FormatArg :=
  match Object with
  | some o => .objectName o
  | none => .str ""

/-! ## Delegates -/

/-- A `Broadcast` on one of the component's dynamic multicast delegates, with its arguments. -/
inductive DelegateEvent where
  | OnAnimationReplicated (Montage : Ptr)
  | OnSoundReplicated (Sound : Ptr)
  | OnActorSpawned (SpawnedActor : Ptr)
  | OnNiagaraEffectReplicated (Effect : Ptr)
  | OnComponentDestroyed (Component : Ptr)
  | OnVariableReplicated (VariableName : FName) (VariableValue : FString)
  | OnCustomEventReplicated (EventName : FName) (EventData : FString)
  | OnMotionMatchingReplicated (Database : Ptr)
  | OnTrajectoryReplicated (Position : FVector) (Rotation : FRotator)
  | OnPoseSearchReplicated (Schema : Ptr)
deriving DecidableEq

/-! ## RPC calls of the component -/

/-- A call of one of the component's `UFUNCTION(Server, Reliable)` or
`UFUNCTION(NetMulticast, Reliable)` stubs, with its arguments. -/
inductive RpcCall where
  | ServerPlayMontage (Montage : Ptr) (PlayRate StartingPosition : float)
  | ServerStopMontage (Montage : Ptr)
  | ServerPlaySound (Sound : Ptr) (VolumeMultiplier PitchMultiplier StartTime : float)
  | ServerPlaySoundAtLocation (Sound : Ptr) (Location : FVector)
      (VolumeMultiplier PitchMultiplier StartTime : float)
  | ServerSpawnActor (ActorClass : Ptr) (Location : FVector) (Rotation : FRotator)
      (bAttachToOwner : Bool)
  | ServerSpawnActorAttached (ActorClass : Ptr) (AttachSocketName : FName)
      (LocationOffset : FVector) (RotationOffset : FRotator)
  | ServerSpawnNiagaraEffect (Effect : Ptr) (Location : FVector) (Rotation : FRotator)
      (bAttachToOwner : Bool) (AttachSocketName : FName)
  | ServerReplicateVariable (VariableName : FName) (Value : FString) (VariableType : int32)
  | ServerReplicateCustomEvent (EventName : FName) (EventData : FString)
  | ServerReplicateMotionMatchingDatabase (Database : Ptr)
  | ServerReplicatePoseSearchSchema (Schema : Ptr)
  | ServerReplicateTrajectoryData (Position : FVector) (Rotation : FRotator)
  | MulticastPlayMontage (Montage : Ptr) (PlayRate StartingPosition : float)
  | MulticastStopMontage (Montage : Ptr)
  | MulticastPlaySound (Sound : Ptr) (VolumeMultiplier PitchMultiplier StartTime : float)
  | MulticastPlaySoundAtLocation (Sound : Ptr) (Location : FVector)
      (VolumeMultiplier PitchMultiplier StartTime : float)
  | MulticastSpawnActor (ActorClass : Ptr) (Location : FVector) (Rotation : FRotator)
      (bAttachToOwner : Bool)
  | MulticastSpawnActorAttached (ActorClass : Ptr) (AttachSocketName : FName)
      (LocationOffset : FVector) (RotationOffset : FRotator)
  | MulticastSpawnNiagaraEffect (Effect : Ptr) (Location : FVector) (Rotation : FRotator)
      (bAttachToOwner : Bool) (AttachSocketName : FName)
  | MulticastReplicateVariable (VariableName : FName) (Value : FString) (VariableType : int32)
  | MulticastReplicateCustomEvent (EventName : FName) (EventData : FString)
  | MulticastReplicateMotionMatchingDatabase (Database : Ptr)
  | MulticastReplicatePoseSearchSchema (Schema : Ptr)
  | MulticastReplicateTrajectoryData (Position : FVector) (Rotation : FRotator)
deriving DecidableEq

/-- Whether the call is one of the `Server*` stubs (a request forwarded to the authority). -/
def RpcCall.isServer : RpcCall → Bool
  | .ServerPlayMontage .. => true
  | .ServerStopMontage .. => true
  | .ServerPlaySound .. => true
  | .ServerPlaySoundAtLocation .. => true
  | .ServerSpawnActor .. => true
  | .ServerSpawnActorAttached .. => true
  | .ServerSpawnNiagaraEffect .. => true
  | .ServerReplicateVariable .. => true
  | .ServerReplicateCustomEvent .. => true
  | .ServerReplicateMotionMatchingDatabase .. => true
  | .ServerReplicatePoseSearchSchema .. => true
  | .ServerReplicateTrajectoryData .. => true
  | _ => false

/-- Whether the call is one of the `Multicast*` stubs (a broadcast to every observer). -/
def RpcCall.isMulticast : RpcCall → Bool
  | .MulticastPlayMontage .. => true
  | .MulticastStopMontage .. => true
  | .MulticastPlaySound .. => true
  | .MulticastPlaySoundAtLocation .. => true
  | .MulticastSpawnActor .. => true
  | .MulticastSpawnActorAttached .. => true
  | .MulticastSpawnNiagaraEffect .. => true
  | .MulticastReplicateVariable .. => true
  | .MulticastReplicateCustomEvent .. => true
  | .MulticastReplicateMotionMatchingDatabase .. => true
  | .MulticastReplicatePoseSearchSchema .. => true
  | .MulticastReplicateTrajectoryData .. => true
  | _ => false

/-! ## The replication component -/

/-- The data members of `UNetworkReplicationComponent` that its code reads or writes
(NetworkReplicationComponent.h, "DEBUGGING PROPERTIES"). -/
structure UNetworkReplicationComponent where
  bDebugMode : Bool
  TotalReplications : int32
  LastReplicationTime : float
deriving DecidableEq

/-- What a component call reads from the engine: `GetOwner()->HasAuthority()` and
`GetWorld()->GetTimeSeconds()`. The component is attached to an actor that lives in a world. -/
structure Env where
  HasAuthority : Bool
  TimeSeconds : double
deriving DecidableEq

/-- What an RPC handler reads from the engine on the machine where it runs: the owner's
skeletal mesh component (`FindComponentByClass<USkeletalMeshComponent>()`) and its anim
instance, the owner's audio component, `GetWorld()`, the owner's location and rotation, and the
objects that `World->SpawnActor` and `NewObject<UNiagaraComponent>` return in this run. -/
structure Engine where
  SkeletalMeshComponent : Ptr
  MeshAnimInstance : Ptr
  AudioComponent : Ptr
  World : Ptr
  OwnerLocation : FVector
  OwnerRotation : FRotator
  SpawnedActor : Ptr
  NewNiagaraComponent : Ptr
deriving DecidableEq

/-- A call into the engine made by an RPC handler, with its arguments; `Socket = none` is the
overload without a socket name. -/
inductive EngineCall where
  | Montage_Play (AnimInstance Montage : Ptr) (PlayRate StartingPosition : float)
  | Montage_Stop (AnimInstance : Ptr) (InBlendOutTime : float) (Montage : Ptr)
  | SetSound (AudioComponent Sound : Ptr)
  | SetVolumeMultiplier (AudioComponent : Ptr) (VolumeMultiplier : float)
  | SetPitchMultiplier (AudioComponent : Ptr) (PitchMultiplier : float)
  | Play (AudioComponent : Ptr) (StartTime : float)
  | PlaySoundAtLocation (World Sound : Ptr) (Location : FVector)
      (VolumeMultiplier PitchMultiplier StartTime : float)
  | SpawnActor (World ActorClass : Ptr) (Location : FVector) (Rotation : FRotator)
  | AttachToActor (Actor : Ptr) (Socket : Option FName)
  | SetAsset (NiagaraComponent Effect : Ptr)
  | SetWorldLocationAndRotation (NiagaraComponent : Ptr) (Location : FVector)
      (Rotation : FRotator)
  | AttachToComponent (NiagaraComponent : Ptr) (Socket : Option FName)
  | Activate (NiagaraComponent : Ptr)
deriving DecidableEq

/-- The result of a component call: the component afterwards, the RPC stubs called, the lines
logged, the delegate broadcasts made and the engine calls made, each in program order. -/
structure Effects where
  self : UNetworkReplicationComponent
  rpcs : List RpcCall
  log : List LogLine
  events : List DelegateEvent := []
  engine : List EngineCall := []
deriving DecidableEq

namespace UNetworkReplicationComponent

/-- The component as its constructor and default member initialisers leave it. -/
def construct : UNetworkReplicationComponent :=
  { bDebugMode := false, TotalReplications := 0, LastReplicationTime := 0 }

/-- The two statements `TotalReplications++; LastReplicationTime = GetWorld()->GetTimeSeconds();`
that close the counting entry points. `GetTimeSeconds()` returns a `double` and
`LastReplicationTime` is a `float`, so the assignment converts. -/
def recordReplication (env : Env) (self : UNetworkReplicationComponent) :
    UNetworkReplicationComponent :=
  { self with
    TotalReplications := wrapInt32 (self.TotalReplications + 1)
    LastReplicationTime := roundToFloat env.TimeSeconds }

/-- The lines of `if (bDebugMode) { UE_LOG(LogTemp, Log, ...) }`. -/
def debugLog (self : UNetworkReplicationComponent) (Format : String) (Args : List FormatArg) :
    List LogLine :=
  if self.bDebugMode then [⟨.Log, Format, Args⟩] else []

/-- `UNetworkReplicationComponent::ReplicateAnimation` (NetworkReplicationComponent.cpp:47). -/
def ReplicateAnimation (env : Env) (self : UNetworkReplicationComponent)
    (Montage : Ptr) (PlayRate StartingPosition : float) : Effects :=
  if Montage = none then
    { self := self, rpcs := [], log := [⟨.Warning, "ReplicateAnimation: Montage is null", []⟩] }
  else if env.HasAuthority then
    { self := self, rpcs := [.MulticastPlayMontage Montage PlayRate StartingPosition], log := [] }
  else
    { self := self, rpcs := [.ServerPlayMontage Montage PlayRate StartingPosition], log := [] }

/-- `UNetworkReplicationComponent::ReplicateAnimationStop` (NetworkReplicationComponent.cpp:69). -/
def ReplicateAnimationStop (env : Env) (self : UNetworkReplicationComponent)
    (Montage : Ptr) : Effects :=
  if Montage = none then
    { self := self, rpcs := [],
      log := [⟨.Warning, "ReplicateAnimationStop: Montage is null", []⟩] }
  else if env.HasAuthority then
    { self := self, rpcs := [.MulticastStopMontage Montage], log := [] }
  else
    { self := self, rpcs := [.ServerStopMontage Montage], log := [] }

/-- `UNetworkReplicationComponent::ReplicateSound` (NetworkReplicationComponent.cpp:89). -/
def ReplicateSound (env : Env) (self : UNetworkReplicationComponent)
    (Sound : Ptr) (VolumeMultiplier PitchMultiplier StartTime : float) : Effects :=
  if Sound = none then
    { self := self, rpcs := [], log := [⟨.Warning, "ReplicateSound: Sound is null", []⟩] }
  else if env.HasAuthority then
    { self := self,
      rpcs := [.MulticastPlaySound Sound VolumeMultiplier PitchMultiplier StartTime], log := [] }
  else
    { self := self,
      rpcs := [.ServerPlaySound Sound VolumeMultiplier PitchMultiplier StartTime], log := [] }

/-- `UNetworkReplicationComponent::ReplicateSoundAtLocation`
(NetworkReplicationComponent.cpp:109). -/
def ReplicateSoundAtLocation (env : Env) (self : UNetworkReplicationComponent)
    (Sound : Ptr) (Location : FVector) (VolumeMultiplier PitchMultiplier StartTime : float) :
    Effects :=
  if Sound = none then
    { self := self, rpcs := [],
      log := [⟨.Warning, "ReplicateSoundAtLocation: Sound is null", []⟩] }
  else if env.HasAuthority then
    { self := self,
      rpcs := [.MulticastPlaySoundAtLocation Sound Location VolumeMultiplier PitchMultiplier
        StartTime],
      log := [] }
  else
    { self := self,
      rpcs := [.ServerPlaySoundAtLocation Sound Location VolumeMultiplier PitchMultiplier
        StartTime],
      log := [] }

/-- `UNetworkReplicationComponent::ReplicateActorSpawn` (NetworkReplicationComponent.cpp:129);
the first component is the returned `AActor*`. -/
def ReplicateActorSpawn (env : Env) (self : UNetworkReplicationComponent)
    (ActorClass : Ptr) (Location : FVector) (Rotation : FRotator) (bAttachToOwner : Bool) :
    Ptr × Effects :=
  if ActorClass = none then
    (none, { self := self, rpcs := [],
             log := [⟨.Warning, "ReplicateActorSpawn: ActorClass is null", []⟩] })
  else if env.HasAuthority then
    (none, { self := self,
             rpcs := [.MulticastSpawnActor ActorClass Location Rotation bAttachToOwner],
             log := [] })
  else
    (none, { self := self,
             rpcs := [.ServerSpawnActor ActorClass Location Rotation bAttachToOwner],
             log := [] })

/-- `UNetworkReplicationComponent::ReplicateActorSpawnAttached`
(NetworkReplicationComponent.cpp:151); the first component is the returned `AActor*`. -/
def ReplicateActorSpawnAttached (env : Env) (self : UNetworkReplicationComponent)
    (ActorClass : Ptr) (AttachSocketName : FName) (LocationOffset : FVector)
    (RotationOffset : FRotator) : Ptr × Effects :=
  if ActorClass = none then
    (none, { self := self, rpcs := [],
             log := [⟨.Warning, "ReplicateActorSpawnAttached: ActorClass is null", []⟩] })
  else if env.HasAuthority then
    (none, { self := self,
             rpcs := [.MulticastSpawnActorAttached ActorClass AttachSocketName LocationOffset
               RotationOffset],
             log := [] })
  else
    (none, { self := self,
             rpcs := [.ServerSpawnActorAttached ActorClass AttachSocketName LocationOffset
               RotationOffset],
             log := [] })

/-- `UNetworkReplicationComponent::ReplicateNiagaraEffect`
(NetworkReplicationComponent.cpp:173); the first component is the returned
`UNiagaraComponent*`. -/
def ReplicateNiagaraEffect (env : Env) (self : UNetworkReplicationComponent)
    (Effect : Ptr) (Location : FVector) (Rotation : FRotator) (bAttachToOwner : Bool)
    (AttachSocketName : FName) : Ptr × Effects :=
  if Effect = none then
    (none, { self := self, rpcs := [],
             log := [⟨.Warning, "ReplicateNiagaraEffect: Effect is null", []⟩] })
  else if env.HasAuthority then
    (none, { self := self,
             rpcs := [.MulticastSpawnNiagaraEffect Effect Location Rotation bAttachToOwner
               AttachSocketName],
             log := [] })
  else
    (none, { self := self,
             rpcs := [.ServerSpawnNiagaraEffect Effect Location Rotation bAttachToOwner
               AttachSocketName],
             log := [] })

/-- `UNetworkReplicationComponent::ReplicateStringVariable`
(NetworkReplicationComponent.cpp:379). -/
def ReplicateStringVariable (env : Env) (self : UNetworkReplicationComponent)
    (VariableName : FName) (Value : FString) : Effects :=
  { self := recordReplication env self
    rpcs :=
      if env.HasAuthority then [.MulticastReplicateVariable VariableName Value 0]
      else [.ServerReplicateVariable VariableName Value 0]
    log := debugLog self "Replicating String Variable: %s = %s" [.str VariableName, .str Value] }

/-- `UNetworkReplicationComponent::ReplicateFloatVariable`
(NetworkReplicationComponent.cpp:399). -/
def ReplicateFloatVariable (env : Env) (self : UNetworkReplicationComponent)
    (VariableName : FName) (Value : float) : Effects :=
  let StringValue : FString := printfFixed 6 Value
  { self := recordReplication env self
    rpcs :=
      if env.HasAuthority then [.MulticastReplicateVariable VariableName StringValue 1]
      else [.ServerReplicateVariable VariableName StringValue 1]
    log := debugLog self "Replicating Float Variable: %s = %f" [.str VariableName, .flt Value] }

/-- `UNetworkReplicationComponent::ReplicateIntVariable`
(NetworkReplicationComponent.cpp:421). -/
def ReplicateIntVariable (env : Env) (self : UNetworkReplicationComponent)
    (VariableName : FName) (Value : int32) : Effects :=
  let StringValue : FString := printfInt Value
  { self := recordReplication env self
    rpcs :=
      if env.HasAuthority then [.MulticastReplicateVariable VariableName StringValue 2]
      else [.ServerReplicateVariable VariableName StringValue 2]
    log := debugLog self "Replicating Int Variable: %s = %d" [.str VariableName, .int Value] }

/-- `UNetworkReplicationComponent::ReplicateBoolVariable`
(NetworkReplicationComponent.cpp:443). -/
def ReplicateBoolVariable (env : Env) (self : UNetworkReplicationComponent)
    (VariableName : FName) (Value : Bool) : Effects :=
  let StringValue : FString := if Value then "true" else "false"
  { self := recordReplication env self
    rpcs :=
      if env.HasAuthority then [.MulticastReplicateVariable VariableName StringValue 3]
      else [.ServerReplicateVariable VariableName StringValue 3]
    log := debugLog self "Replicating Bool Variable: %s = %s"
      [.str VariableName, .str StringValue] }

/-- `UNetworkReplicationComponent::ReplicateVectorVariable`
(NetworkReplicationComponent.cpp:465). -/
def ReplicateVectorVariable (env : Env) (self : UNetworkReplicationComponent)
    (VariableName : FName) (Value : FVector) : Effects :=
  let StringValue : FString := Value.ToString
  { self := recordReplication env self
    rpcs :=
      if env.HasAuthority then [.MulticastReplicateVariable VariableName StringValue 4]
      else [.ServerReplicateVariable VariableName StringValue 4]
    log := debugLog self "Replicating Vector Variable: %s = %s"
      [.str VariableName, .str StringValue] }

/-- `UNetworkReplicationComponent::ReplicateCustomEvent`
(NetworkReplicationComponent.cpp:488). -/
def ReplicateCustomEvent (env : Env) (self : UNetworkReplicationComponent)
    (EventName : FName) (EventData : FString) : Effects :=
  { self := recordReplication env self
    rpcs :=
      if env.HasAuthority then [.MulticastReplicateCustomEvent EventName EventData]
      else [.ServerReplicateCustomEvent EventName EventData]
    log := debugLog self "Replicating Custom Event: %s with data: %s"
      [.str EventName, .str EventData] }

/-- `UNetworkReplicationComponent::ReplicateMotionMatchingDatabase`
(NetworkReplicationComponent.cpp:577). -/
def ReplicateMotionMatchingDatabase (env : Env) (self : UNetworkReplicationComponent)
    (Database : Ptr) : Effects :=
  if Database = none then
    { self := self, rpcs := [],
      log := [⟨.Warning, "ReplicateMotionMatchingDatabase: Database is null", []⟩] }
  else
    { self := recordReplication env self
      rpcs :=
        if env.HasAuthority then [.MulticastReplicateMotionMatchingDatabase Database]
        else [.ServerReplicateMotionMatchingDatabase Database]
      log := debugLog self "Replicating Motion Matching Database: %s" [nameOf Database] }

/-- `UNetworkReplicationComponent::ReplicatePoseSearchSchema`
(NetworkReplicationComponent.cpp:609). -/
def ReplicatePoseSearchSchema (env : Env) (self : UNetworkReplicationComponent)
    (Schema : Ptr) : Effects :=
  if Schema = none then
    { self := self, rpcs := [],
      log := [⟨.Warning, "ReplicatePoseSearchSchema: Schema is null", []⟩] }
  else
    { self := recordReplication env self
      rpcs :=
        if env.HasAuthority then [.MulticastReplicatePoseSearchSchema Schema]
        else [.ServerReplicatePoseSearchSchema Schema]
      log := debugLog self "Replicating Pose Search Schema: %s" [nameOf Schema] }

/-- `UNetworkReplicationComponent::ReplicateTrajectoryData`
(NetworkReplicationComponent.cpp:635). -/
def ReplicateTrajectoryData (env : Env) (self : UNetworkReplicationComponent)
    (Position : FVector) (Rotation : FRotator) : Effects :=
  { self := recordReplication env self
    rpcs :=
      if env.HasAuthority then [.MulticastReplicateTrajectoryData Position Rotation]
      else [.ServerReplicateTrajectoryData Position Rotation]
    log := debugLog self "Replicating Trajectory Data: Position=%s, Rotation=%s"
      [.str Position.ToString, .str Rotation.ToString] }

/-- `UNetworkReplicationComponent::ServerPlayMontage_Implementation`
(NetworkReplicationComponent.cpp:196). -/
def ServerPlayMontage_Implementation (self : UNetworkReplicationComponent)
    (Montage : Ptr) (PlayRate StartingPosition : float) : Effects :=
  { self := self, rpcs := [.MulticastPlayMontage Montage PlayRate StartingPosition], log := [] }

/-- `UNetworkReplicationComponent::ServerStopMontage_Implementation`
(NetworkReplicationComponent.cpp:201). -/
def ServerStopMontage_Implementation (self : UNetworkReplicationComponent)
    (Montage : Ptr) : Effects :=
  { self := self, rpcs := [.MulticastStopMontage Montage], log := [] }

/-- `UNetworkReplicationComponent::ServerPlaySound_Implementation`
(NetworkReplicationComponent.cpp:206). -/
def ServerPlaySound_Implementation (self : UNetworkReplicationComponent)
    (Sound : Ptr) (VolumeMultiplier PitchMultiplier StartTime : float) : Effects :=
  { self := self
    rpcs := [.MulticastPlaySound Sound VolumeMultiplier PitchMultiplier StartTime]
    log := [] }

/-- `UNetworkReplicationComponent::ServerPlaySoundAtLocation_Implementation`
(NetworkReplicationComponent.cpp:211). -/
def ServerPlaySoundAtLocation_Implementation (self : UNetworkReplicationComponent)
    (Sound : Ptr) (Location : FVector) (VolumeMultiplier PitchMultiplier StartTime : float) :
    Effects :=
  { self := self
    rpcs := [.MulticastPlaySoundAtLocation Sound Location VolumeMultiplier PitchMultiplier
      StartTime]
    log := [] }

/-- `UNetworkReplicationComponent::ServerSpawnActor_Implementation`
(NetworkReplicationComponent.cpp:216). -/
def ServerSpawnActor_Implementation (self : UNetworkReplicationComponent)
    (ActorClass : Ptr) (Location : FVector) (Rotation : FRotator) (bAttachToOwner : Bool) :
    Effects :=
  { self := self
    rpcs := [.MulticastSpawnActor ActorClass Location Rotation bAttachToOwner]
    log := [] }

/-- `UNetworkReplicationComponent::ServerSpawnActorAttached_Implementation`
(NetworkReplicationComponent.cpp:221). -/
def ServerSpawnActorAttached_Implementation (self : UNetworkReplicationComponent)
    (ActorClass : Ptr) (AttachSocketName : FName) (LocationOffset : FVector)
    (RotationOffset : FRotator) : Effects :=
  { self := self
    rpcs := [.MulticastSpawnActorAttached ActorClass AttachSocketName LocationOffset
      RotationOffset]
    log := [] }

/-- `UNetworkReplicationComponent::ServerSpawnNiagaraEffect_Implementation`
(NetworkReplicationComponent.cpp:226). -/
def ServerSpawnNiagaraEffect_Implementation (self : UNetworkReplicationComponent)
    (Effect : Ptr) (Location : FVector) (Rotation : FRotator) (bAttachToOwner : Bool)
    (AttachSocketName : FName) : Effects :=
  { self := self
    rpcs := [.MulticastSpawnNiagaraEffect Effect Location Rotation bAttachToOwner
      AttachSocketName]
    log := [] }

/-- `UNetworkReplicationComponent::GetAnimInstance` (NetworkReplicationComponent.cpp:357). -/
def GetAnimInstance (engine : Engine) : Ptr :=
  if engine.SkeletalMeshComponent ≠ none then engine.MeshAnimInstance else none

/-- `UNetworkReplicationComponent::MulticastPlayMontage_Implementation`
(NetworkReplicationComponent.cpp:232). -/
def MulticastPlayMontage_Implementation (engine : Engine) (self : UNetworkReplicationComponent)
    (Montage : Ptr) (PlayRate StartingPosition : float) : Effects :=
  let AnimInstance := GetAnimInstance engine
  if AnimInstance ≠ none then
    { self := self, rpcs := [], log := []
      engine := [.Montage_Play AnimInstance Montage PlayRate StartingPosition]
      events := [.OnAnimationReplicated Montage] }
  else
    { self := self, rpcs := [], log := [] }

/-- `UNetworkReplicationComponent::MulticastStopMontage_Implementation`
(NetworkReplicationComponent.cpp:241). -/
def MulticastStopMontage_Implementation (engine : Engine) (self : UNetworkReplicationComponent)
    (Montage : Ptr) : Effects :=
  let AnimInstance := GetAnimInstance engine
  if AnimInstance ≠ none then
    { self := self, rpcs := [], log := []
      engine := [.Montage_Stop AnimInstance (2 / 10) Montage] }
  else
    { self := self, rpcs := [], log := [] }

/-- `UNetworkReplicationComponent::MulticastPlaySound_Implementation`
(NetworkReplicationComponent.cpp:249). -/
def MulticastPlaySound_Implementation (engine : Engine) (self : UNetworkReplicationComponent)
    (Sound : Ptr) (VolumeMultiplier PitchMultiplier StartTime : float) : Effects :=
  let AudioComponent := engine.AudioComponent
  if AudioComponent ≠ none then
    { self := self, rpcs := [], log := []
      engine :=
        [.SetSound AudioComponent Sound,
         .SetVolumeMultiplier AudioComponent VolumeMultiplier,
         .SetPitchMultiplier AudioComponent PitchMultiplier,
         .Play AudioComponent StartTime]
      events := [.OnSoundReplicated Sound] }
  else
    { self := self, rpcs := [], log := []
      engine :=
        [.PlaySoundAtLocation engine.World Sound engine.OwnerLocation VolumeMultiplier
          PitchMultiplier StartTime]
      events := [.OnSoundReplicated Sound] }

/-- `UNetworkReplicationComponent::MulticastPlaySoundAtLocation_Implementation`
(NetworkReplicationComponent.cpp:267). -/
def MulticastPlaySoundAtLocation_Implementation (engine : Engine)
    (self : UNetworkReplicationComponent) (Sound : Ptr) (Location : FVector)
    (VolumeMultiplier PitchMultiplier StartTime : float) : Effects :=
  { self := self, rpcs := [], log := []
    engine :=
      [.PlaySoundAtLocation engine.World Sound Location VolumeMultiplier PitchMultiplier
        StartTime]
    events := [.OnSoundReplicated Sound] }

/-- `UNetworkReplicationComponent::MulticastSpawnActor_Implementation`
(NetworkReplicationComponent.cpp:273). -/
def MulticastSpawnActor_Implementation (engine : Engine) (self : UNetworkReplicationComponent)
    (ActorClass : Ptr) (Location : FVector) (Rotation : FRotator) (bAttachToOwner : Bool) :
    Effects :=
  let World := engine.World
  if World = none then
    { self := self, rpcs := [], log := [] }
  else
    let SpawnedActor := engine.SpawnedActor
    { self := self, rpcs := [], log := []
      engine :=
        [.SpawnActor World ActorClass Location Rotation] ++
        (if SpawnedActor ≠ none ∧ bAttachToOwner = true then
          [.AttachToActor SpawnedActor none] else [])
      events := if SpawnedActor ≠ none then [.OnActorSpawned SpawnedActor] else [] }

/-- `UNetworkReplicationComponent::MulticastSpawnActorAttached_Implementation`
(NetworkReplicationComponent.cpp:293). -/
def MulticastSpawnActorAttached_Implementation (engine : Engine)
    (self : UNetworkReplicationComponent) (ActorClass : Ptr) (AttachSocketName : FName)
    (LocationOffset : FVector) (RotationOffset : FRotator) : Effects :=
  let World := engine.World
  if World = none then
    { self := self, rpcs := [], log := [] }
  else
    let SpawnLocation := engine.OwnerLocation.add LocationOffset
    let SpawnRotation := engine.OwnerRotation.add RotationOffset
    let SpawnedActor := engine.SpawnedActor
    if SpawnedActor ≠ none then
      { self := self, rpcs := [], log := []
        engine :=
          [.SpawnActor World ActorClass SpawnLocation SpawnRotation,
           if AttachSocketName ≠ NAME_None then
             .AttachToActor SpawnedActor (some AttachSocketName)
           else .AttachToActor SpawnedActor none]
        events := [.OnActorSpawned SpawnedActor] }
    else
      { self := self, rpcs := [], log := []
        engine := [.SpawnActor World ActorClass SpawnLocation SpawnRotation] }

/-- `UNetworkReplicationComponent::MulticastSpawnNiagaraEffect_Implementation`
(NetworkReplicationComponent.cpp:319). -/
def MulticastSpawnNiagaraEffect_Implementation (engine : Engine)
    (self : UNetworkReplicationComponent) (Effect : Ptr) (Location : FVector)
    (Rotation : FRotator) (bAttachToOwner : Bool) (AttachSocketName : FName) : Effects :=
  let World := engine.World
  if World = none then
    { self := self, rpcs := [], log := [] }
  else
    let NiagaraComponent := engine.NewNiagaraComponent
    if NiagaraComponent ≠ none then
      { self := self, rpcs := [], log := []
        engine :=
          [.SetAsset NiagaraComponent Effect,
           .SetWorldLocationAndRotation NiagaraComponent Location Rotation] ++
          (if bAttachToOwner then
            [if AttachSocketName ≠ NAME_None then
               .AttachToComponent NiagaraComponent (some AttachSocketName)
             else .AttachToComponent NiagaraComponent none]
           else []) ++
          [.Activate NiagaraComponent]
        events := [.OnNiagaraEffectReplicated Effect] }
    else
      { self := self, rpcs := [], log := [] }

/-- `UNetworkReplicationComponent::ServerReplicateVariable_Implementation`
(NetworkReplicationComponent.cpp:538). -/
def ServerReplicateVariable_Implementation (self : UNetworkReplicationComponent)
    (VariableName : FName) (Value : FString) (VariableType : int32) : Effects :=
  { self := self
    rpcs := [.MulticastReplicateVariable VariableName Value VariableType]
    log := [] }

/-- `UNetworkReplicationComponent::ServerReplicateCustomEvent_Implementation`
(NetworkReplicationComponent.cpp:543). -/
def ServerReplicateCustomEvent_Implementation (self : UNetworkReplicationComponent)
    (EventName : FName) (EventData : FString) : Effects :=
  { self := self, rpcs := [.MulticastReplicateCustomEvent EventName EventData], log := [] }

/-- `UNetworkReplicationComponent::MulticastReplicateVariable_Implementation`
(NetworkReplicationComponent.cpp:549). -/
def MulticastReplicateVariable_Implementation (self : UNetworkReplicationComponent)
    (VariableName : FName) (Value : FString) (VariableType : int32) : Effects :=
  { self := self, rpcs := []
    events := [.OnVariableReplicated VariableName Value]
    log := debugLog self "Variable Replicated: %s = %s (Type: %d)"
      [.str VariableName, .str Value, .int VariableType] }

/-- `UNetworkReplicationComponent::MulticastReplicateCustomEvent_Implementation`
(NetworkReplicationComponent.cpp:560). -/
def MulticastReplicateCustomEvent_Implementation (self : UNetworkReplicationComponent)
    (EventName : FName) (EventData : FString) : Effects :=
  { self := self, rpcs := []
    events := [.OnCustomEventReplicated EventName EventData]
    log := debugLog self "Custom Event Replicated: %s with data: %s"
      [.str EventName, .str EventData] }

/-- `UNetworkReplicationComponent::ServerReplicateMotionMatchingDatabase_Implementation`
(NetworkReplicationComponent.cpp:657). -/
def ServerReplicateMotionMatchingDatabase_Implementation
    (self : UNetworkReplicationComponent) (Database : Ptr) : Effects :=
  { self := self, rpcs := [.MulticastReplicateMotionMatchingDatabase Database], log := [] }

/-- `UNetworkReplicationComponent::ServerReplicatePoseSearchSchema_Implementation`
(NetworkReplicationComponent.cpp:662). -/
def ServerReplicatePoseSearchSchema_Implementation (self : UNetworkReplicationComponent)
    (Schema : Ptr) : Effects :=
  { self := self, rpcs := [.MulticastReplicatePoseSearchSchema Schema], log := [] }

/-- `UNetworkReplicationComponent::ServerReplicateTrajectoryData_Implementation`
(NetworkReplicationComponent.cpp:667). -/
def ServerReplicateTrajectoryData_Implementation (self : UNetworkReplicationComponent)
    (Position : FVector) (Rotation : FRotator) : Effects :=
  { self := self, rpcs := [.MulticastReplicateTrajectoryData Position Rotation], log := [] }

/-- `UNetworkReplicationComponent::MulticastReplicateMotionMatchingDatabase_Implementation`
(NetworkReplicationComponent.cpp:673). -/
def MulticastReplicateMotionMatchingDatabase_Implementation
    (self : UNetworkReplicationComponent) (Database : Ptr) : Effects :=
  { self := self, rpcs := []
    events := [.OnMotionMatchingReplicated Database]
    log := debugLog self "Motion Matching Database Replicated: %s" [nameOf Database] }

/-- `UNetworkReplicationComponent::MulticastReplicatePoseSearchSchema_Implementation`
(NetworkReplicationComponent.cpp:683). -/
def MulticastReplicatePoseSearchSchema_Implementation (self : UNetworkReplicationComponent)
    (Schema : Ptr) : Effects :=
  { self := self, rpcs := []
    events := [.OnPoseSearchReplicated Schema]
    log := debugLog self "Pose Search Schema Replicated: %s" [nameOf Schema] }

/-- `UNetworkReplicationComponent::MulticastReplicateTrajectoryData_Implementation`
(NetworkReplicationComponent.cpp:693). -/
def MulticastReplicateTrajectoryData_Implementation (self : UNetworkReplicationComponent)
    (Position : FVector) (Rotation : FRotator) : Effects :=
  { self := self, rpcs := []
    events := [.OnTrajectoryReplicated Position Rotation]
    log := debugLog self "Trajectory Data Replicated: Position=%s, Rotation=%s"
      [.str Position.ToString, .str Rotation.ToString] }

/-- `UNetworkReplicationComponent::EnableDebugLogging` (NetworkReplicationComponent.cpp:509). -/
def EnableDebugLogging (self : UNetworkReplicationComponent) (bEnabled : Bool) : Effects :=
  { self := { self with bDebugMode := bEnabled }
    rpcs := []
    log :=
      if bEnabled then [⟨.Log, "NetworkReplicationComponent: Debug mode enabled", []⟩]
      else [⟨.Log, "NetworkReplicationComponent: Debug mode disabled", []⟩] }

/-- `UNetworkReplicationComponent::LogReplicationEvent` (NetworkReplicationComponent.cpp:523). -/
def LogReplicationEvent (self : UNetworkReplicationComponent) (EventName : FString) : Effects :=
  { self := self, rpcs := [], log := debugLog self "Replication Event: %s" [.str EventName] }

/-- `UNetworkReplicationComponent::GetReplicationStats` (NetworkReplicationComponent.cpp:531). -/
def GetReplicationStats (self : UNetworkReplicationComponent) : Formatted :=
  ⟨"Total Replications: %d, Last: %.2f",
    [.int self.TotalReplications, .flt self.LastReplicationTime]⟩

end UNetworkReplicationComponent

/-! ## The Blueprint-callable entry points as one type -/

/-- A call of one of the sixteen `Replicate*` entry points, with its arguments. -/
inductive ReplicateCall where
  | ReplicateAnimation (Montage : Ptr) (PlayRate StartingPosition : float)
  | ReplicateAnimationStop (Montage : Ptr)
  | ReplicateSound (Sound : Ptr) (VolumeMultiplier PitchMultiplier StartTime : float)
  | ReplicateSoundAtLocation (Sound : Ptr) (Location : FVector)
      (VolumeMultiplier PitchMultiplier StartTime : float)
  | ReplicateActorSpawn (ActorClass : Ptr) (Location : FVector) (Rotation : FRotator)
      (bAttachToOwner : Bool)
  | ReplicateActorSpawnAttached (ActorClass : Ptr) (AttachSocketName : FName)
      (LocationOffset : FVector) (RotationOffset : FRotator)
  | ReplicateNiagaraEffect (Effect : Ptr) (Location : FVector) (Rotation : FRotator)
      (bAttachToOwner : Bool) (AttachSocketName : FName)
  | ReplicateStringVariable (VariableName : FName) (Value : FString)
  | ReplicateFloatVariable (VariableName : FName) (Value : float)
  | ReplicateIntVariable (VariableName : FName) (Value : int32)
  | ReplicateBoolVariable (VariableName : FName) (Value : Bool)
  | ReplicateVectorVariable (VariableName : FName) (Value : FVector)
  | ReplicateCustomEvent (EventName : FName) (EventData : FString)
  | ReplicateMotionMatchingDatabase (Database : Ptr)
  | ReplicatePoseSearchSchema (Schema : Ptr)
  | ReplicateTrajectoryData (Position : FVector) (Rotation : FRotator)
deriving DecidableEq

/-- Run the entry point named by the call on the component. -/
def ReplicateCall.run (env : Env) (self : UNetworkReplicationComponent) :
    ReplicateCall → Effects
  | .ReplicateAnimation Montage PlayRate StartingPosition =>
    self.ReplicateAnimation env Montage PlayRate StartingPosition
  | .ReplicateAnimationStop Montage => self.ReplicateAnimationStop env Montage
  | .ReplicateSound Sound VolumeMultiplier PitchMultiplier StartTime =>
    self.ReplicateSound env Sound VolumeMultiplier PitchMultiplier StartTime
  | .ReplicateSoundAtLocation Sound Location VolumeMultiplier PitchMultiplier StartTime =>
    self.ReplicateSoundAtLocation env Sound Location VolumeMultiplier PitchMultiplier StartTime
  | .ReplicateActorSpawn ActorClass Location Rotation bAttachToOwner =>
    (self.ReplicateActorSpawn env ActorClass Location Rotation bAttachToOwner).2
  | .ReplicateActorSpawnAttached ActorClass AttachSocketName LocationOffset RotationOffset =>
    (self.ReplicateActorSpawnAttached env ActorClass AttachSocketName LocationOffset
      RotationOffset).2
  | .ReplicateNiagaraEffect Effect Location Rotation bAttachToOwner AttachSocketName =>
    (self.ReplicateNiagaraEffect env Effect Location Rotation bAttachToOwner
      AttachSocketName).2
  | .ReplicateStringVariable VariableName Value =>
    self.ReplicateStringVariable env VariableName Value
  | .ReplicateFloatVariable VariableName Value =>
    self.ReplicateFloatVariable env VariableName Value
  | .ReplicateIntVariable VariableName Value => self.ReplicateIntVariable env VariableName Value
  | .ReplicateBoolVariable VariableName Value =>
    self.ReplicateBoolVariable env VariableName Value
  | .ReplicateVectorVariable VariableName Value =>
    self.ReplicateVectorVariable env VariableName Value
  | .ReplicateCustomEvent EventName EventData =>
    self.ReplicateCustomEvent env EventName EventData
  | .ReplicateMotionMatchingDatabase Database =>
    self.ReplicateMotionMatchingDatabase env Database
  | .ReplicatePoseSearchSchema Schema => self.ReplicatePoseSearchSchema env Schema
  | .ReplicateTrajectoryData Position Rotation =>
    self.ReplicateTrajectoryData env Position Rotation

/-- The validation guard that opens an entry point (`if (!Montage)`, `if (!Sound)`,
`if (!ActorClass)`, `if (!Effect)`, `if (!Database)`, `if (!Schema)`): whether it fires. The
variable, custom-event and trajectory entry points open with no guard. -/
def ReplicateCall.rejected : ReplicateCall → Bool
  | .ReplicateAnimation Montage _ _ => Montage.isNone
  | .ReplicateAnimationStop Montage => Montage.isNone
  | .ReplicateSound Sound _ _ _ => Sound.isNone
  | .ReplicateSoundAtLocation Sound _ _ _ _ => Sound.isNone
  | .ReplicateActorSpawn ActorClass _ _ _ => ActorClass.isNone
  | .ReplicateActorSpawnAttached ActorClass _ _ _ => ActorClass.isNone
  | .ReplicateNiagaraEffect Effect _ _ _ _ => Effect.isNone
  | .ReplicateMotionMatchingDatabase Database => Database.isNone
  | .ReplicatePoseSearchSchema Schema => Schema.isNone
  | _ => false

/-- Whether the entry point opens with a validation guard at all: the nine entry points that
take an object or class pointer do, the variable, custom-event and trajectory ones do not. -/
def ReplicateCall.hasGuard : ReplicateCall → Bool
  | .ReplicateAnimation .. => true
  | .ReplicateAnimationStop .. => true
  | .ReplicateSound .. => true
  | .ReplicateSoundAtLocation .. => true
  | .ReplicateActorSpawn .. => true
  | .ReplicateActorSpawnAttached .. => true
  | .ReplicateNiagaraEffect .. => true
  | .ReplicateMotionMatchingDatabase .. => true
  | .ReplicatePoseSearchSchema .. => true
  | _ => false

/-- The name carried by a call of one of the five variable entry points or of the custom-event
entry point (its primary payload); `none` for the other entry points. -/
def ReplicateCall.payloadName : ReplicateCall → Option FName
  | .ReplicateStringVariable VariableName _ => some VariableName
  | .ReplicateFloatVariable VariableName _ => some VariableName
  | .ReplicateIntVariable VariableName _ => some VariableName
  | .ReplicateBoolVariable VariableName _ => some VariableName
  | .ReplicateVectorVariable VariableName _ => some VariableName
  | .ReplicateCustomEvent EventName _ => some EventName
  | _ => none

/-- Whether the call is one of the five variable entry points. -/
def ReplicateCall.isVariable : ReplicateCall → Bool
  | .ReplicateStringVariable .. => true
  | .ReplicateFloatVariable .. => true
  | .ReplicateIntVariable .. => true
  | .ReplicateBoolVariable .. => true
  | .ReplicateVectorVariable .. => true
  | _ => false

/-- Whether the entry point ends with the counting statements `TotalReplications++;
LastReplicationTime = GetWorld()->GetTimeSeconds();`: the variable, custom-event,
motion-matching, pose-search and trajectory entry points do. -/
def ReplicateCall.counts : ReplicateCall → Bool
  | .ReplicateStringVariable .. => true
  | .ReplicateFloatVariable .. => true
  | .ReplicateIntVariable .. => true
  | .ReplicateBoolVariable .. => true
  | .ReplicateVectorVariable .. => true
  | .ReplicateCustomEvent .. => true
  | .ReplicateMotionMatchingDatabase .. => true
  | .ReplicatePoseSearchSchema .. => true
  | .ReplicateTrajectoryData .. => true
  | _ => false

/-! ## The RPC handlers as one function -/

/-- Run the `*_Implementation` handler of the RPC on the component of the receiving machine:
a `Server*` call runs on the authority, a `Multicast*` call on every observer, the authority
included. -/
def RpcCall.Implementation (engine : Engine) (self : UNetworkReplicationComponent) :
    RpcCall → Effects
  | .ServerPlayMontage Montage PlayRate StartingPosition =>
    self.ServerPlayMontage_Implementation Montage PlayRate StartingPosition
  | .ServerStopMontage Montage => self.ServerStopMontage_Implementation Montage
  | .ServerPlaySound Sound VolumeMultiplier PitchMultiplier StartTime =>
    self.ServerPlaySound_Implementation Sound VolumeMultiplier PitchMultiplier StartTime
  | .ServerPlaySoundAtLocation Sound Location VolumeMultiplier PitchMultiplier StartTime =>
    self.ServerPlaySoundAtLocation_Implementation Sound Location VolumeMultiplier
      PitchMultiplier StartTime
  | .ServerSpawnActor ActorClass Location Rotation bAttachToOwner =>
    self.ServerSpawnActor_Implementation ActorClass Location Rotation bAttachToOwner
  | .ServerSpawnActorAttached ActorClass AttachSocketName LocationOffset RotationOffset =>
    self.ServerSpawnActorAttached_Implementation ActorClass AttachSocketName LocationOffset
      RotationOffset
  | .ServerSpawnNiagaraEffect Effect Location Rotation bAttachToOwner AttachSocketName =>
    self.ServerSpawnNiagaraEffect_Implementation Effect Location Rotation bAttachToOwner
      AttachSocketName
  | .ServerReplicateVariable VariableName Value VariableType =>
    self.ServerReplicateVariable_Implementation VariableName Value VariableType
  | .ServerReplicateCustomEvent EventName EventData =>
    self.ServerReplicateCustomEvent_Implementation EventName EventData
  | .ServerReplicateMotionMatchingDatabase Database =>
    self.ServerReplicateMotionMatchingDatabase_Implementation Database
  | .ServerReplicatePoseSearchSchema Schema =>
    self.ServerReplicatePoseSearchSchema_Implementation Schema
  | .ServerReplicateTrajectoryData Position Rotation =>
    self.ServerReplicateTrajectoryData_Implementation Position Rotation
  | .MulticastPlayMontage Montage PlayRate StartingPosition =>
    self.MulticastPlayMontage_Implementation engine Montage PlayRate StartingPosition
  | .MulticastStopMontage Montage => self.MulticastStopMontage_Implementation engine Montage
  | .MulticastPlaySound Sound VolumeMultiplier PitchMultiplier StartTime =>
    self.MulticastPlaySound_Implementation engine Sound VolumeMultiplier PitchMultiplier
      StartTime
  | .MulticastPlaySoundAtLocation Sound Location VolumeMultiplier PitchMultiplier StartTime =>
    self.MulticastPlaySoundAtLocation_Implementation engine Sound Location VolumeMultiplier
      PitchMultiplier StartTime
  | .MulticastSpawnActor ActorClass Location Rotation bAttachToOwner =>
    self.MulticastSpawnActor_Implementation engine ActorClass Location Rotation bAttachToOwner
  | .MulticastSpawnActorAttached ActorClass AttachSocketName LocationOffset RotationOffset =>
    self.MulticastSpawnActorAttached_Implementation engine ActorClass AttachSocketName
      LocationOffset RotationOffset
  | .MulticastSpawnNiagaraEffect Effect Location Rotation bAttachToOwner AttachSocketName =>
    self.MulticastSpawnNiagaraEffect_Implementation engine Effect Location Rotation
      bAttachToOwner AttachSocketName
  | .MulticastReplicateVariable VariableName Value VariableType =>
    self.MulticastReplicateVariable_Implementation VariableName Value VariableType
  | .MulticastReplicateCustomEvent EventName EventData =>
    self.MulticastReplicateCustomEvent_Implementation EventName EventData
  | .MulticastReplicateMotionMatchingDatabase Database =>
    self.MulticastReplicateMotionMatchingDatabase_Implementation Database
  | .MulticastReplicatePoseSearchSchema Schema =>
    self.MulticastReplicatePoseSearchSchema_Implementation Schema
  | .MulticastReplicateTrajectoryData Position Rotation =>
    self.MulticastReplicateTrajectoryData_Implementation Position Rotation

/-- The broadcasts that follow from the RPC stubs a machine has called: a `Multicast*` call is
a broadcast itself, a `Server*` call reaches the authority's component `server`, whose handler
issues the broadcast. -/
def broadcastsOf (engine : Engine) (server : UNetworkReplicationComponent)
    (rpcs : List RpcCall) : List RpcCall :=
  rpcs.flatMap (fun r => if r.isServer then (r.Implementation engine server).rpcs else [r])

/-- The delegate broadcasts that the component `observer` of one machine makes when the given
`Multicast*` calls reach it, in order. -/
def observerEvents (engine : Engine) (observer : UNetworkReplicationComponent)
    (broadcasts : List RpcCall) : List DelegateEvent :=
  broadcasts.flatMap (fun r => (r.Implementation engine observer).events)

/-! ## The engine's `TArray` -/

namespace TArray

/-- `TArray::Num`. -/
def Num {α : Type} (A : List α) : int32 := (A.length : Int)

/-- `TArray::Contains`. -/
def Contains {α : Type} [DecidableEq α] (A : List α) (Item : α) : Bool := decide (Item ∈ A)

/-- `TArray::Add`: append at the end. -/
def Add {α : Type} (A : List α) (Item : α) : List α := A ++ [Item]

/-- `TArray::AddUnique`: append unless an equal element is already present. -/
def AddUnique {α : Type} [DecidableEq α] (A : List α) (Item : α) : List α :=
  if Item ∈ A then A else A ++ [Item]

/-- `TArray::Remove`: remove every element equal to the item, keeping the order of the rest. -/
def Remove {α : Type} [DecidableEq α] (A : List α) (Item : α) : List α :=
  A.filter (fun x => decide (x ≠ Item))

/-- `TArray::Empty`. -/
def Empty {α : Type} (_A : List α) : List α := []

end TArray

/-! ## The replication subsystem -/

/-- The struct `FNetworkReplicationSettings` (NetworkReplicationSubsystem.h:21). -/
structure FNetworkReplicationSettings where
  ReplicationInterval : float
  MaxReplicationDistance : float
  bEnableCompression : Bool
  bEnableClientPrediction : Bool
  bEnableInterestManagement : Bool
  PredictionTolerance : float
  MaxReplicationFrequency : int32
  bEnableRelevancy : Bool
  BandwidthLimitKB : float
deriving DecidableEq

/-- The default constructor of `FNetworkReplicationSettings`. -/
def FNetworkReplicationSettings.construct : FNetworkReplicationSettings :=
  { ReplicationInterval := 5 / 100
    MaxReplicationDistance := 15000
    bEnableCompression := true
    bEnableClientPrediction := true
    bEnableInterestManagement := true
    PredictionTolerance := 1 / 10
    MaxReplicationFrequency := 60
    bEnableRelevancy := true
    BandwidthLimitKB := 100 }

/-- The data members of `UNetworkReplicationSubsystem` (NetworkReplicationSubsystem.h:228);
the never-assigned `ConsoleCommandHandle` is left out. -/
structure UNetworkReplicationSubsystem where
  RegisteredComponents : List Ptr
  CurrentSettings : FNetworkReplicationSettings
  InterestActors : List Ptr
  bNetworkProfilingActive : Bool
  bNetworkSimulationActive : Bool
  SimulatedLatency : float
  SimulatedPacketLoss : float
  SimulatedBandwidthLimit : float
  bPerformanceMonitoringActive : Bool
  bLatencyMeasurementActive : Bool
  bBandwidthMonitoringActive : Bool
  MaxLatencyThreshold : float
  MaxBandwidthThreshold : float
  MaxReplicationsThreshold : int32
  LatencyHistory : List float
  CurrentLatency : float
  LatencyMeasurementStartTime : float
  BandwidthHistory : List float
  CurrentBandwidthUsage : float
  BandwidthMeasurementStartTime : float
  PerformanceData : List float
  PerformanceMeasurementStartTime : float
deriving DecidableEq

/-- The subsystem object as the engine allocates it: zeroed memory, empty arrays and
default-constructed settings. -/
def UNetworkReplicationSubsystem.construct : UNetworkReplicationSubsystem :=
  { RegisteredComponents := []
    CurrentSettings := FNetworkReplicationSettings.construct
    InterestActors := []
    bNetworkProfilingActive := false
    bNetworkSimulationActive := false
    SimulatedLatency := 0
    SimulatedPacketLoss := 0
    SimulatedBandwidthLimit := 0
    bPerformanceMonitoringActive := false
    bLatencyMeasurementActive := false
    bBandwidthMonitoringActive := false
    MaxLatencyThreshold := 0
    MaxBandwidthThreshold := 0
    MaxReplicationsThreshold := 0
    LatencyHistory := []
    CurrentLatency := 0
    LatencyMeasurementStartTime := 0
    BandwidthHistory := []
    CurrentBandwidthUsage := 0
    BandwidthMeasurementStartTime := 0
    PerformanceData := []
    PerformanceMeasurementStartTime := 0 }

/-- The state of one game process: the subsystem of its game instance, the component objects
(by identity), actor locations, and the outputs produced so far (log, RPC stubs called per
component, delegate broadcasts, files saved, console commands registered). -/
structure Process where
  Subsystem : UNetworkReplicationSubsystem
  Components : Nat → UNetworkReplicationComponent
  ActorLocation : Nat → FVector
  Log : List LogLine
  Sent : List (Nat × RpcCall)
  Events : List (Nat × DelegateEvent)
  SavedFiles : List (FormatArg × List Formatted)
  ConsoleCommands : List String

/-- A process whose subsystem object has just been allocated and whose components are as
constructed; nothing has been output. -/
def Process.fresh : Process :=
  { Subsystem := UNetworkReplicationSubsystem.construct
    Components := fun _ => UNetworkReplicationComponent.construct
    ActorLocation := fun _ => ⟨0, 0, 0⟩
    Log := []
    Sent := []
    Events := []
    SavedFiles := []
    ConsoleCommands := [] }

/-- `UE_LOG(LogTemp, Verbosity, Format, Args...)`. -/
def Process.UE_LOG (P : Process) (Verbosity : ELogVerbosity) (Format : String)
    (Args : List FormatArg) : Process :=
  { P with Log := P.Log ++ [⟨Verbosity, Format, Args⟩] }

/-- The name argument of `Component->GetOwner()->GetName()`. -/
def ownerNameOf (Component : Ptr) : FormatArg :=
  match Component with
  | some c => .ownerName c
  | none => .str ""

/-- The text argument `b ? TEXT(yes) : TEXT(no)`. -/
def selectText (b : Bool) (yes no : String) : FormatArg := .str (if b then yes else no)

namespace UNetworkReplicationSubsystem

/-- `UNetworkReplicationSubsystem::Initialize` (NetworkReplicationSubsystem.cpp:18). -/
def Initialize (P : Process) : Process :=
  { P with
    Subsystem :=
      { P.Subsystem with
        bNetworkProfilingActive := false
        bNetworkSimulationActive := false
        SimulatedLatency := 0
        SimulatedPacketLoss := 0
        SimulatedBandwidthLimit := 0
        bPerformanceMonitoringActive := false
        bLatencyMeasurementActive := false
        bBandwidthMonitoringActive := false
        MaxLatencyThreshold := 100
        MaxBandwidthThreshold := 100
        MaxReplicationsThreshold := 1000
        CurrentLatency := 0
        CurrentBandwidthUsage := 0
        LatencyMeasurementStartTime := 0
        BandwidthMeasurementStartTime := 0
        PerformanceMeasurementStartTime := 0 } }.UE_LOG
    .Log "NetworkReplicationSubsystem initialized" []

/-- `UNetworkReplicationSubsystem::Deinitialize` (NetworkReplicationSubsystem.cpp:46). -/
def Deinitialize (P : Process) : Process :=
  { P with
    Subsystem :=
      { P.Subsystem with
        RegisteredComponents := TArray.Empty P.Subsystem.RegisteredComponents } }.UE_LOG
    .Log "NetworkReplicationSubsystem deinitialized" []

/-- `UNetworkReplicationSubsystem::RegisterReplicationComponent`
(NetworkReplicationSubsystem.cpp:55). -/
def RegisterReplicationComponent (P : Process) (Component : Ptr) : Process :=
  if Component = none then
    P.UE_LOG .Warning "Attempted to register null replication component" []
  else
    { P with
      Subsystem :=
        { P.Subsystem with
          RegisteredComponents :=
            TArray.AddUnique P.Subsystem.RegisteredComponents Component } }.UE_LOG
      .Log "Registered replication component for actor %s" [ownerNameOf Component]

/-- `UNetworkReplicationSubsystem::UnregisterReplicationComponent`
(NetworkReplicationSubsystem.cpp:68). -/
def UnregisterReplicationComponent (P : Process) (Component : Ptr) : Process :=
  if Component = none then
    P
  else
    { P with
      Subsystem :=
        { P.Subsystem with
          RegisteredComponents :=
            TArray.Remove P.Subsystem.RegisteredComponents Component } }.UE_LOG
      .Log "Unregistered replication component for actor %s" [ownerNameOf Component]

/-- `UNetworkReplicationSubsystem::SetReplicationSettings`
(NetworkReplicationSubsystem.cpp:80). -/
def SetReplicationSettings (P : Process) (Settings : FNetworkReplicationSettings) : Process :=
  { P with Subsystem := { P.Subsystem with CurrentSettings := Settings } }.UE_LOG
    .Log "Replication settings updated" []

/-- `UNetworkReplicationSubsystem::GetReplicationSettings`
(NetworkReplicationSubsystem.cpp:86). -/
def GetReplicationSettings (P : Process) : FNetworkReplicationSettings :=
  P.Subsystem.CurrentSettings

/-- `UNetworkReplicationSubsystem::OptimizeReplication` (NetworkReplicationSubsystem.cpp:91). -/
def OptimizeReplication (P : Process) : Process :=
  P.UE_LOG .Log "Replication optimization performed" []

/-- `UNetworkReplicationSubsystem::GetActiveReplicationCount`
(NetworkReplicationSubsystem.cpp:97). -/
def GetActiveReplicationCount (P : Process) : int32 :=
  TArray.Num P.Subsystem.RegisteredComponents

/-- `UNetworkReplicationSubsystem::GetReplicationBandwidth`
(NetworkReplicationSubsystem.cpp:102): `Num() * 0.1f`. -/
def GetReplicationBandwidth (P : Process) : float :=
  (TArray.Num P.Subsystem.RegisteredComponents : ℚ) * (1 / 10)

/-- `UNetworkReplicationSubsystem::OnComponentDestroyed`
(NetworkReplicationSubsystem.cpp:108). -/
def OnComponentDestroyed (P : Process) (Component : Ptr) : Process :=
  if Component ≠ none then UnregisterReplicationComponent P Component else P

/-- The loop body `if (Component) { Total += Component->TotalReplications; }`. -/
def totalStep (Components : Nat → UNetworkReplicationComponent) (Total : int32)
    (Component : Ptr) : int32 :=
  match Component with
  | some c => wrapInt32 (Total + (Components c).TotalReplications)
  | none => Total

/-- The loop `for (Component : RegisteredComponents)` over `totalStep`, from `Total = 0`;
shared by `ShowNetworkStats` and `GetTotalReplications`. -/
def sumTotalReplications (Components : Nat → UNetworkReplicationComponent)
    (Registered : List Ptr) : int32 :=
  Registered.foldl (totalStep Components) 0

/-- `UNetworkReplicationSubsystem::ShowNetworkStats` (NetworkReplicationSubsystem.cpp:118). -/
def ShowNetworkStats (P : Process) : Process :=
  let TotalComponents := TArray.Num P.Subsystem.RegisteredComponents
  let TotalReplications := sumTotalReplications P.Components P.Subsystem.RegisteredComponents
  P.UE_LOG .Log "Network Stats - Components: %d, Total Replications: %d"
    [.int TotalComponents, .int TotalReplications]

/-- `UNetworkReplicationSubsystem::ExportReplicationData`
(NetworkReplicationSubsystem.cpp:135); the file lands in `FPaths::ProjectLogDir()`. -/
def ExportReplicationData (P : Process) : Process :=
  let Data : List Formatted :=
    [⟨"Network Replication Data Export\n", []⟩,
     ⟨"Components: %d\n", [.int (TArray.Num P.Subsystem.RegisteredComponents)]⟩] ++
    P.Subsystem.RegisteredComponents.filterMap
      (fun Component =>
        match Component with
        | some c =>
          some ⟨"Component: %s - Replications: %d\n",
            [.ownerName c, .int (P.Components c).TotalReplications]⟩
        | none => none)
  let FilePath := FormatArg.projectLogFile "NetworkReplicationData.txt"
  { P with SavedFiles := P.SavedFiles ++ [(FilePath, Data)] }.UE_LOG
    .Log "Replication data exported to: %s" [FilePath]

/-- The loop body `if (Component) { Component->TotalReplications = 0;
Component->LastReplicationTime = 0.0f; }` of `ResetReplicationStats`. -/
def resetStep (Components : Nat → UNetworkReplicationComponent) (Component : Ptr) :
    Nat → UNetworkReplicationComponent :=
  match Component with
  | some c =>
    Function.update Components c
      { Components c with TotalReplications := 0, LastReplicationTime := 0 }
  | none => Components

/-- `UNetworkReplicationSubsystem::ResetReplicationStats`
(NetworkReplicationSubsystem.cpp:155). -/
def ResetReplicationStats (P : Process) : Process :=
  { P with
    Components := P.Subsystem.RegisteredComponents.foldl resetStep P.Components }.UE_LOG
    .Log "Replication stats reset" []

/-- `UNetworkReplicationSubsystem::GetTotalReplications`
(NetworkReplicationSubsystem.cpp:171). -/
def GetTotalReplications (P : Process) : int32 :=
  sumTotalReplications P.Components P.Subsystem.RegisteredComponents

/-- The loop body `if (Component && Component->LastReplicationTime > 0.0f) { TotalLatency +=
Component->LastReplicationTime; Count++; }` on the pair `(TotalLatency, Count)`; the sum is a
`float` addition. -/
def latencyStep (Components : Nat → UNetworkReplicationComponent) (acc : float × int32)
    (Component : Ptr) : float × int32 :=
  match Component with
  | some c =>
    if (Components c).LastReplicationTime > 0 then
      (roundToFloat (acc.1 + (Components c).LastReplicationTime), wrapInt32 (acc.2 + 1))
    else acc
  | none => acc

/-- The loop of `GetAverageLatency`: the pair `(TotalLatency, Count)` after the iteration. -/
def sumLatency (Components : Nat → UNetworkReplicationComponent) (Registered : List Ptr) :
    float × int32 :=
  Registered.foldl (latencyStep Components) (0, 0)

/-- `UNetworkReplicationSubsystem::GetAverageLatency`
(NetworkReplicationSubsystem.cpp:184). In `TotalLatency / Count` the `int32` count is converted
to `float` and the quotient is a `float` division. -/
def GetAverageLatency (P : Process) : float :=
  let r := sumLatency P.Components P.Subsystem.RegisteredComponents
  if r.2 > 0 then roundToFloat (r.1 / roundToFloat (r.2 : ℚ)) else 0

/-- `UNetworkReplicationSubsystem::OptimizeForBandwidth`
(NetworkReplicationSubsystem.cpp:201). -/
def OptimizeForBandwidth (P : Process) (MaxBandwidthKB : float) : Process :=
  let CurrentBandwidth := GetReplicationBandwidth P
  if CurrentBandwidth > MaxBandwidthKB then
    let Interval := max (1 / 10) (P.Subsystem.CurrentSettings.ReplicationInterval * (3 / 2))
    { P with
      Subsystem :=
        { P.Subsystem with
          CurrentSettings :=
            { P.Subsystem.CurrentSettings with ReplicationInterval := Interval } } }.UE_LOG
      .Log "Bandwidth optimization: Reduced replication interval to %.2f" [.flt Interval]
  else P

/-- `UNetworkReplicationSubsystem::SetReplicationDistance`
(NetworkReplicationSubsystem.cpp:217). -/
def SetReplicationDistance (P : Process) (Distance : float) : Process :=
  { P with
    Subsystem :=
      { P.Subsystem with
        CurrentSettings :=
          { P.Subsystem.CurrentSettings with MaxReplicationDistance := Distance } } }.UE_LOG
    .Log "Replication distance set to: %.2f" [.flt Distance]

/-- `UNetworkReplicationSubsystem::EnableRelevancyCulling`
(NetworkReplicationSubsystem.cpp:223). -/
def EnableRelevancyCulling (P : Process) (bEnabled : Bool) : Process :=
  { P with
    Subsystem :=
      { P.Subsystem with
        CurrentSettings :=
          { P.Subsystem.CurrentSettings with bEnableRelevancy := bEnabled } } }.UE_LOG
    .Log "Relevancy culling %s" [selectText bEnabled "enabled" "disabled"]

/-- `UNetworkReplicationSubsystem::IsActorRelevantToPlayer`
(NetworkReplicationSubsystem.cpp:229). `float Distance = FVector::Dist(...)` converts the
`double` distance to `float` before the comparison. -/
def IsActorRelevantToPlayer (P : Process) (Actor Player : Ptr) : Bool :=
  match Actor, Player with
  | some a, some p =>
    if !P.Subsystem.CurrentSettings.bEnableRelevancy then true
    else
      let Distance : float := roundToFloat (FVector.Dist (P.ActorLocation a) (P.ActorLocation p))
      decide (Distance ≤ P.Subsystem.CurrentSettings.MaxReplicationDistance)
  | _, _ => false

/-- `UNetworkReplicationSubsystem::StartNetworkProfiling`
(NetworkReplicationSubsystem.cpp:247). -/
def StartNetworkProfiling (P : Process) : Process :=
  { P with Subsystem := { P.Subsystem with bNetworkProfilingActive := true } }.UE_LOG
    .Log "Network profiling started" []

/-- `UNetworkReplicationSubsystem::StopNetworkProfiling`
(NetworkReplicationSubsystem.cpp:253). -/
def StopNetworkProfiling (P : Process) : Process :=
  { P with Subsystem := { P.Subsystem with bNetworkProfilingActive := false } }.UE_LOG
    .Log "Network profiling stopped" []

/-- `UNetworkReplicationSubsystem::GetNetworkInsights` (NetworkReplicationSubsystem.cpp:259):
the pieces of the returned string, in order. -/
def GetNetworkInsights (P : Process) : List Formatted :=
  [⟨"Network Insights:\n", []⟩,
   ⟨"Active Components: %d\n", [.int (TArray.Num P.Subsystem.RegisteredComponents)]⟩,
   ⟨"Total Replications: %d\n", [.int (GetTotalReplications P)]⟩,
   ⟨"Average Latency: %.2f\n", [.flt (GetAverageLatency P)]⟩,
   ⟨"Bandwidth Usage: %.2f KB\n", [.flt (GetReplicationBandwidth P)]⟩,
   ⟨"Profiling Active: %s\n", [selectText P.Subsystem.bNetworkProfilingActive "Yes" "No"]⟩,
   ⟨"Simulation Active: %s\n", [selectText P.Subsystem.bNetworkSimulationActive "Yes" "No"]⟩]

/-- `UNetworkReplicationSubsystem::SimulateNetworkConditions`
(NetworkReplicationSubsystem.cpp:272). -/
def SimulateNetworkConditions (P : Process) (Latency PacketLoss BandwidthLimit : float) :
    Process :=
  { P with
    Subsystem :=
      { P.Subsystem with
        bNetworkSimulationActive := true
        SimulatedLatency := Latency
        SimulatedPacketLoss := PacketLoss
        SimulatedBandwidthLimit := BandwidthLimit } }.UE_LOG
    .Log "Network simulation: Latency=%.2f, Loss=%.2f%%, Bandwidth=%.2f KB"
    [.flt Latency, .flt PacketLoss, .flt BandwidthLimit]

/-- `UNetworkReplicationSubsystem::ResetNetworkSimulation`
(NetworkReplicationSubsystem.cpp:283). -/
def ResetNetworkSimulation (P : Process) : Process :=
  { P with
    Subsystem :=
      { P.Subsystem with
        bNetworkSimulationActive := false
        SimulatedLatency := 0
        SimulatedPacketLoss := 0
        SimulatedBandwidthLimit := 0 } }.UE_LOG
    .Log "Network simulation reset" []

/-- The names of the three console commands of the subsystem. -/
def consoleCommandNames : List String :=
  ["NetworkReplication.ShowStats", "NetworkReplication.ExportData",
   "NetworkReplication.ResetStats"]

/-- `UNetworkReplicationSubsystem::RegisterConsoleCommands`
(NetworkReplicationSubsystem.cpp:295): the three names are entered in the console manager. -/
def RegisterConsoleCommands (P : Process) : Process :=
  { P with
    ConsoleCommands := consoleCommandNames.foldl TArray.AddUnique P.ConsoleCommands }.UE_LOG
    .Log "Basic NetworkReplication console commands registered" []

/-- `UNetworkReplicationSubsystem::UnregisterConsoleCommands`
(NetworkReplicationSubsystem.cpp:322). -/
def UnregisterConsoleCommands (P : Process) : Process :=
  { P with
    ConsoleCommands := consoleCommandNames.foldl TArray.Remove P.ConsoleCommands }.UE_LOG
    .Log "Basic NetworkReplication console commands unregistered" []

/-- `UNetworkReplicationSubsystem::EnableClientPrediction`
(NetworkReplicationSubsystem.cpp:334). -/
def EnableClientPrediction (P : Process) (bEnabled : Bool) : Process :=
  { P with
    Subsystem :=
      { P.Subsystem with
        CurrentSettings :=
          { P.Subsystem.CurrentSettings with bEnableClientPrediction := bEnabled } } }.UE_LOG
    .Log "Client prediction %s" [selectText bEnabled "enabled" "disabled"]

/-- `UNetworkReplicationSubsystem::SetPredictionTolerance`
(NetworkReplicationSubsystem.cpp:340). -/
def SetPredictionTolerance (P : Process) (Tolerance : float) : Process :=
  { P with
    Subsystem :=
      { P.Subsystem with
        CurrentSettings :=
          { P.Subsystem.CurrentSettings with PredictionTolerance := Tolerance } } }.UE_LOG
    .Log "Prediction tolerance set to: %.2f" [.flt Tolerance]

/-- `UNetworkReplicationSubsystem::IsPredictionEnabled`
(NetworkReplicationSubsystem.cpp:346). -/
def IsPredictionEnabled (P : Process) : Bool :=
  P.Subsystem.CurrentSettings.bEnableClientPrediction

/-- `UNetworkReplicationSubsystem::SetInterestRadius` (NetworkReplicationSubsystem.cpp:353). -/
def SetInterestRadius (P : Process) (Radius : float) : Process :=
  { P with
    Subsystem :=
      { P.Subsystem with
        CurrentSettings :=
          { P.Subsystem.CurrentSettings with MaxReplicationDistance := Radius } } }.UE_LOG
    .Log "Interest radius set to: %.2f" [.flt Radius]

/-- `UNetworkReplicationSubsystem::AddInterestActor` (NetworkReplicationSubsystem.cpp:359). -/
def AddInterestActor (P : Process) (Actor : Ptr) : Process :=
  if Actor ≠ none ∧ !TArray.Contains P.Subsystem.InterestActors Actor then
    { P with
      Subsystem :=
        { P.Subsystem with
          InterestActors := TArray.Add P.Subsystem.InterestActors Actor } }.UE_LOG
      .Log "Added interest actor: %s" [nameOf Actor]
  else P

/-- `UNetworkReplicationSubsystem::RemoveInterestActor`
(NetworkReplicationSubsystem.cpp:368). -/
def RemoveInterestActor (P : Process) (Actor : Ptr) : Process :=
  if Actor ≠ none ∧ TArray.Contains P.Subsystem.InterestActors Actor then
    { P with
      Subsystem :=
        { P.Subsystem with
          InterestActors := TArray.Remove P.Subsystem.InterestActors Actor } }.UE_LOG
      .Log "Removed interest actor: %s" [nameOf Actor]
  else P

/-- `UNetworkReplicationSubsystem::StartPerformanceMonitoring`
(NetworkReplicationSubsystem.cpp:381); `Now` is `GetWorld()->GetTimeSeconds()`. -/
def StartPerformanceMonitoring (P : Process) (Now : double) : Process :=
  { P with
    Subsystem :=
      { P.Subsystem with
        bPerformanceMonitoringActive := true
        PerformanceMeasurementStartTime := roundToFloat Now
        PerformanceData := TArray.Empty P.Subsystem.PerformanceData } }.UE_LOG
    .Log "Performance monitoring started" []

/-- `UNetworkReplicationSubsystem::StopPerformanceMonitoring`
(NetworkReplicationSubsystem.cpp:390). -/
def StopPerformanceMonitoring (P : Process) : Process :=
  { P with Subsystem := { P.Subsystem with bPerformanceMonitoringActive := false } }.UE_LOG
    .Log "Performance monitoring stopped" []

/-- `UNetworkReplicationSubsystem::SetPerformanceThresholds`
(NetworkReplicationSubsystem.cpp:423). -/
def SetPerformanceThresholds (P : Process) (MaxLatency MaxBandwidth : float)
    (MaxReplications : int32) : Process :=
  { P with
    Subsystem :=
      { P.Subsystem with
        MaxLatencyThreshold := MaxLatency
        MaxBandwidthThreshold := MaxBandwidth
        MaxReplicationsThreshold := MaxReplications } }.UE_LOG
    .Log "Performance thresholds set - Latency: %.2f, Bandwidth: %.2f, Replications: %d"
    [.flt MaxLatency, .flt MaxBandwidth, .int MaxReplications]

/-- `UNetworkReplicationSubsystem::IsPerformanceWithinThresholds`
(NetworkReplicationSubsystem.cpp:433). -/
def IsPerformanceWithinThresholds (P : Process) : Bool :=
  let AvgLatency := GetAverageLatency P
  let CurrentBandwidth := GetReplicationBandwidth P
  let CurrentReplications := GetTotalReplications P
  decide (AvgLatency ≤ P.Subsystem.MaxLatencyThreshold) &&
    decide (CurrentBandwidth ≤ P.Subsystem.MaxBandwidthThreshold) &&
    decide (CurrentReplications ≤ P.Subsystem.MaxReplicationsThreshold)

/-- `UNetworkReplicationSubsystem::GetDetailedPerformanceReport`
(NetworkReplicationSubsystem.cpp:396): the pieces of the returned string, in order. -/
def GetDetailedPerformanceReport (P : Process) : List Formatted :=
  let bWithinThresholds := IsPerformanceWithinThresholds P
  [⟨"=== DETAILED PERFORMANCE REPORT ===\n", []⟩,
   ⟨"Active Components: %d\n", [.int (TArray.Num P.Subsystem.RegisteredComponents)]⟩,
   ⟨"Total Replications: %d\n", [.int (GetTotalReplications P)]⟩,
   ⟨"Average Latency: %.2f ms\n", [.flt (GetAverageLatency P)]⟩,
   ⟨"Current Bandwidth: %.2f KB/s\n", [.flt (GetReplicationBandwidth P)]⟩,
   ⟨"Max Latency Threshold: %.2f ms\n", [.flt P.Subsystem.MaxLatencyThreshold]⟩,
   ⟨"Max Bandwidth Threshold: %.2f KB/s\n", [.flt P.Subsystem.MaxBandwidthThreshold]⟩,
   ⟨"Max Replications Threshold: %d\n", [.int P.Subsystem.MaxReplicationsThreshold]⟩,
   ⟨"Performance Status: %s\n", [selectText bWithinThresholds "GOOD" "WARNING"]⟩,
   ⟨"Performance Monitoring: %s\n",
     [selectText P.Subsystem.bPerformanceMonitoringActive "ACTIVE" "INACTIVE"]⟩,
   ⟨"Latency Measurement: %s\n",
     [selectText P.Subsystem.bLatencyMeasurementActive "ACTIVE" "INACTIVE"]⟩,
   ⟨"Bandwidth Monitoring: %s\n",
     [selectText P.Subsystem.bBandwidthMonitoringActive "ACTIVE" "INACTIVE"]⟩]

/-- `UNetworkReplicationSubsystem::StartLatencyMeasurement`
(NetworkReplicationSubsystem.cpp:446); `Now` is `GetWorld()->GetTimeSeconds()`. -/
def StartLatencyMeasurement (P : Process) (Now : double) : Process :=
  { P with
    Subsystem :=
      { P.Subsystem with
        bLatencyMeasurementActive := true
        LatencyMeasurementStartTime := roundToFloat Now
        LatencyHistory := TArray.Empty P.Subsystem.LatencyHistory
        CurrentLatency := 0 } }.UE_LOG
    .Log "Latency measurement started" []

/-- `UNetworkReplicationSubsystem::StopLatencyMeasurement`
(NetworkReplicationSubsystem.cpp:456). -/
def StopLatencyMeasurement (P : Process) : Process :=
  { P with Subsystem := { P.Subsystem with bLatencyMeasurementActive := false } }.UE_LOG
    .Log "Latency measurement stopped" []

/-- `UNetworkReplicationSubsystem::GetCurrentLatency` (NetworkReplicationSubsystem.cpp:462). -/
def GetCurrentLatency (P : Process) : float :=
  P.Subsystem.CurrentLatency

/-- The loop body `Total += Sample; Count++;` of the two history averages. -/
def historyStep (acc : float × int32) (Sample : float) : float × int32 :=
  (acc.1 + Sample, wrapInt32 (acc.2 + 1))

/-- The loop shared by the two history averages: the pair `(Total, Count)` after it. -/
def sumHistory (History : List float) : float × int32 :=
  History.foldl historyStep (0, 0)

/-- `UNetworkReplicationSubsystem::GetAverageLatencyOverTime`
(NetworkReplicationSubsystem.cpp:467). -/
def GetAverageLatencyOverTime (P : Process) (_TimeWindow : float) : float :=
  if TArray.Num P.Subsystem.LatencyHistory = 0 then 0
  else
    let r := sumHistory P.Subsystem.LatencyHistory
    if r.2 > 0 then r.1 / (r.2 : ℚ) else 0

/-- `UNetworkReplicationSubsystem::StartBandwidthMonitoring`
(NetworkReplicationSubsystem.cpp:489); `Now` is `GetWorld()->GetTimeSeconds()`. -/
def StartBandwidthMonitoring (P : Process) (Now : double) : Process :=
  { P with
    Subsystem :=
      { P.Subsystem with
        bBandwidthMonitoringActive := true
        BandwidthMeasurementStartTime := roundToFloat Now
        BandwidthHistory := TArray.Empty P.Subsystem.BandwidthHistory
        CurrentBandwidthUsage := 0 } }.UE_LOG
    .Log "Bandwidth monitoring started" []

/-- `UNetworkReplicationSubsystem::StopBandwidthMonitoring`
(NetworkReplicationSubsystem.cpp:499). -/
def StopBandwidthMonitoring (P : Process) : Process :=
  { P with Subsystem := { P.Subsystem with bBandwidthMonitoringActive := false } }.UE_LOG
    .Log "Bandwidth monitoring stopped" []

/-- `UNetworkReplicationSubsystem::GetCurrentBandwidthUsage`
(NetworkReplicationSubsystem.cpp:505). -/
def GetCurrentBandwidthUsage (P : Process) : float :=
  P.Subsystem.CurrentBandwidthUsage

/-- `UNetworkReplicationSubsystem::GetBandwidthUsageOverTime`
(NetworkReplicationSubsystem.cpp:510). -/
def GetBandwidthUsageOverTime (P : Process) (_TimeWindow : float) : float :=
  if TArray.Num P.Subsystem.BandwidthHistory = 0 then 0
  else
    let r := sumHistory P.Subsystem.BandwidthHistory
    if r.2 > 0 then r.1 / (r.2 : ℚ) else 0

/-- `UNetworkReplicationSubsystem::SimulatePacketLoss` (NetworkReplicationSubsystem.cpp:531);
`FMath::Clamp(X, Min, Max)` is `max(min(X, Max), Min)`. -/
def SimulatePacketLoss (P : Process) (LossPercentage : float) : Process :=
  let Loss := max (min LossPercentage 100) 0
  { P with Subsystem := { P.Subsystem with SimulatedPacketLoss := Loss } }.UE_LOG
    .Log "Packet loss simulation: %.2f%%" [.flt Loss]

/-- `UNetworkReplicationSubsystem::SimulateLatency` (NetworkReplicationSubsystem.cpp:537). -/
def SimulateLatency (P : Process) (LatencyMs : float) : Process :=
  let Latency := max 0 LatencyMs
  { P with Subsystem := { P.Subsystem with SimulatedLatency := Latency } }.UE_LOG
    .Log "Latency simulation: %.2f ms" [.flt Latency]

/-- `UNetworkReplicationSubsystem::SimulateBandwidthLimit`
(NetworkReplicationSubsystem.cpp:543). -/
def SimulateBandwidthLimit (P : Process) (BandwidthKB : float) : Process :=
  let Limit := max 0 BandwidthKB
  { P with Subsystem := { P.Subsystem with SimulatedBandwidthLimit := Limit } }.UE_LOG
    .Log "Bandwidth limit simulation: %.2f KB/s" [.flt Limit]

/-- `UNetworkReplicationSubsystem::ResetAllSimulations`
(NetworkReplicationSubsystem.cpp:549). -/
def ResetAllSimulations (P : Process) : Process :=
  { P with
    Subsystem :=
      { P.Subsystem with
        SimulatedLatency := 0
        SimulatedPacketLoss := 0
        SimulatedBandwidthLimit := 0 } }.UE_LOG
    .Log "All network simulations reset" []

end UNetworkReplicationSubsystem

/-! ## Component calls inside a process -/

/-- Run a component call on the component object `this` of the process and collect its
outputs. -/
def Process.apply (P : Process) (this : Nat) (e : Effects) : Process :=
  { P with
    Components := Function.update P.Components this e.self
    Log := P.Log ++ e.log
    Sent := P.Sent ++ e.rpcs.map (fun r => (this, r))
    Events := P.Events ++ e.events.map (fun d => (this, d)) }

/-- A `Replicate*` call on the component object `this`. -/
def Process.Replicate (P : Process) (this : Nat) (env : Env) (call : ReplicateCall) : Process :=
  P.apply this (call.run env (P.Components this))

/-- `UNetworkReplicationComponent::BeginPlay` (NetworkReplicationComponent.cpp:31) on the
component object `this`; `bSubsystemFound` tells whether
`GetWorld()->GetGameInstance()->GetSubsystem<UNetworkReplicationSubsystem>()` is non-null. -/
def UNetworkReplicationComponent.BeginPlay (P : Process) (this : Nat)
    (bSubsystemFound : Bool) : Process :=
  if bSubsystemFound then
    UNetworkReplicationSubsystem.RegisterReplicationComponent P (some this)
  else P

/-- `UNetworkReplicationComponent::EndPlay` (NetworkReplicationComponent.cpp:350) on the
component object `this`: `OnComponentDestroyed.Broadcast(this)` and the engine's
`Super::EndPlay`. No function of the repository is bound to the delegate
(`UNetworkReplicationSubsystem::OnComponentDestroyed` is a private method that is not a
`UFUNCTION`, and nothing calls `AddDynamic`), so the broadcast reaches no code of the
repository. -/
def UNetworkReplicationComponent.EndPlay (P : Process) (this : Nat) : Process :=
  { P with Events := P.Events ++ [(this, .OnComponentDestroyed (some this))] }

/-- A state-changing call on the subsystem, with its arguments; `Now` is the world time read by
the call. The `const` getters and `GetNetworkInsights` only read the state and are functions
of it. -/
inductive SubsystemOp where
  | Initialize
  | Deinitialize
  | RegisterReplicationComponent (Component : Ptr)
  | UnregisterReplicationComponent (Component : Ptr)
  | SetReplicationSettings (Settings : FNetworkReplicationSettings)
  | OptimizeReplication
  | OnComponentDestroyed (Component : Ptr)
  | ShowNetworkStats
  | ExportReplicationData
  | ResetReplicationStats
  | OptimizeForBandwidth (MaxBandwidthKB : float)
  | SetReplicationDistance (Distance : float)
  | EnableRelevancyCulling (bEnabled : Bool)
  | StartNetworkProfiling
  | StopNetworkProfiling
  | SimulateNetworkConditions (Latency PacketLoss BandwidthLimit : float)
  | ResetNetworkSimulation
  | RegisterConsoleCommands
  | UnregisterConsoleCommands
  | EnableClientPrediction (bEnabled : Bool)
  | SetPredictionTolerance (Tolerance : float)
  | SetInterestRadius (Radius : float)
  | AddInterestActor (Actor : Ptr)
  | RemoveInterestActor (Actor : Ptr)
  | StartPerformanceMonitoring (Now : double)
  | StopPerformanceMonitoring
  | SetPerformanceThresholds (MaxLatency MaxBandwidth : float) (MaxReplications : int32)
  | StartLatencyMeasurement (Now : double)
  | StopLatencyMeasurement
  | StartBandwidthMonitoring (Now : double)
  | StopBandwidthMonitoring
  | SimulatePacketLoss (LossPercentage : float)
  | SimulateLatency (LatencyMs : float)
  | SimulateBandwidthLimit (BandwidthKB : float)
  | ResetAllSimulations
deriving DecidableEq

/-- Run one subsystem call. -/
def SubsystemOp.run (P : Process) : SubsystemOp → Process
  | SubsystemOp.Initialize => UNetworkReplicationSubsystem.Initialize P
  | SubsystemOp.Deinitialize => UNetworkReplicationSubsystem.Deinitialize P
  | .RegisterReplicationComponent Component =>
    UNetworkReplicationSubsystem.RegisterReplicationComponent P Component
  | .UnregisterReplicationComponent Component =>
    UNetworkReplicationSubsystem.UnregisterReplicationComponent P Component
  | .SetReplicationSettings Settings =>
    UNetworkReplicationSubsystem.SetReplicationSettings P Settings
  | .OptimizeReplication => UNetworkReplicationSubsystem.OptimizeReplication P
  | .OnComponentDestroyed Component => UNetworkReplicationSubsystem.OnComponentDestroyed P Component
  | .ShowNetworkStats => UNetworkReplicationSubsystem.ShowNetworkStats P
  | .ExportReplicationData => UNetworkReplicationSubsystem.ExportReplicationData P
  | .ResetReplicationStats => UNetworkReplicationSubsystem.ResetReplicationStats P
  | .OptimizeForBandwidth MaxBandwidthKB =>
    UNetworkReplicationSubsystem.OptimizeForBandwidth P MaxBandwidthKB
  | .SetReplicationDistance Distance =>
    UNetworkReplicationSubsystem.SetReplicationDistance P Distance
  | .EnableRelevancyCulling bEnabled =>
    UNetworkReplicationSubsystem.EnableRelevancyCulling P bEnabled
  | .StartNetworkProfiling => UNetworkReplicationSubsystem.StartNetworkProfiling P
  | .StopNetworkProfiling => UNetworkReplicationSubsystem.StopNetworkProfiling P
  | .SimulateNetworkConditions Latency PacketLoss BandwidthLimit =>
    UNetworkReplicationSubsystem.SimulateNetworkConditions P Latency PacketLoss BandwidthLimit
  | .ResetNetworkSimulation => UNetworkReplicationSubsystem.ResetNetworkSimulation P
  | .RegisterConsoleCommands => UNetworkReplicationSubsystem.RegisterConsoleCommands P
  | .UnregisterConsoleCommands => UNetworkReplicationSubsystem.UnregisterConsoleCommands P
  | .EnableClientPrediction bEnabled =>
    UNetworkReplicationSubsystem.EnableClientPrediction P bEnabled
  | .SetPredictionTolerance Tolerance =>
    UNetworkReplicationSubsystem.SetPredictionTolerance P Tolerance
  | .SetInterestRadius Radius => UNetworkReplicationSubsystem.SetInterestRadius P Radius
  | .AddInterestActor Actor => UNetworkReplicationSubsystem.AddInterestActor P Actor
  | .RemoveInterestActor Actor => UNetworkReplicationSubsystem.RemoveInterestActor P Actor
  | .StartPerformanceMonitoring Now => UNetworkReplicationSubsystem.StartPerformanceMonitoring P Now
  | .StopPerformanceMonitoring => UNetworkReplicationSubsystem.StopPerformanceMonitoring P
  | .SetPerformanceThresholds MaxLatency MaxBandwidth MaxReplications =>
    UNetworkReplicationSubsystem.SetPerformanceThresholds P MaxLatency MaxBandwidth MaxReplications
  | .StartLatencyMeasurement Now => UNetworkReplicationSubsystem.StartLatencyMeasurement P Now
  | .StopLatencyMeasurement => UNetworkReplicationSubsystem.StopLatencyMeasurement P
  | .StartBandwidthMonitoring Now => UNetworkReplicationSubsystem.StartBandwidthMonitoring P Now
  | .StopBandwidthMonitoring => UNetworkReplicationSubsystem.StopBandwidthMonitoring P
  | .SimulatePacketLoss LossPercentage =>
    UNetworkReplicationSubsystem.SimulatePacketLoss P LossPercentage
  | .SimulateLatency LatencyMs => UNetworkReplicationSubsystem.SimulateLatency P LatencyMs
  | .SimulateBandwidthLimit BandwidthKB =>
    UNetworkReplicationSubsystem.SimulateBandwidthLimit P BandwidthKB
  | .ResetAllSimulations => UNetworkReplicationSubsystem.ResetAllSimulations P

/-- A state-changing call on the subsystem or on a component object of the process. -/
inductive Op where
  | Subsystem (op : SubsystemOp)
  | BeginPlay (this : Nat) (bSubsystemFound : Bool)
  | EndPlay (this : Nat)
  | Replicate (this : Nat) (env : Env) (call : ReplicateCall)
  | EnableDebugLogging (this : Nat) (bEnabled : Bool)
  | LogReplicationEvent (this : Nat) (EventName : FString)
deriving DecidableEq

/-- Run one call. -/
def Op.run (P : Process) : Op → Process
  | .Subsystem op => op.run P
  | .BeginPlay this bSubsystemFound =>
    UNetworkReplicationComponent.BeginPlay P this bSubsystemFound
  | .EndPlay this => UNetworkReplicationComponent.EndPlay P this
  | .Replicate this env call => P.Replicate this env call
  | .EnableDebugLogging this bEnabled =>
    P.apply this ((P.Components this).EnableDebugLogging bEnabled)
  | .LogReplicationEvent this EventName =>
    P.apply this ((P.Components this).LogReplicationEvent EventName)

/-- Run a sequence of calls, first to last. -/
def Process.runOps (P : Process) (ops : List Op) : Process :=
  ops.foldl Op.run P

/-- The process right after the engine has created the subsystem and called `Initialize`. -/
def Process.initial : Process :=
  UNetworkReplicationSubsystem.Initialize Process.fresh

/-- A process with the thresholds of `Initialize` and 500 registered components, of which
component 0 has replicated ten times, last at world time `Latency`; the other components are
as constructed. -/
def thresholdScenario (Latency : float) : Process :=
  { Process.initial with
    Subsystem :=
      { Process.initial.Subsystem with RegisteredComponents := (List.range 500).map some }
    Components := Function.update Process.initial.Components 0 ⟨false, 10, Latency⟩ }

/-- The registry invariant: no null entry and no component twice. -/
def RegistryWellFormed (P : Process) : Prop :=
  none ∉ P.Subsystem.RegisteredComponents ∧ P.Subsystem.RegisteredComponents.Nodup

/-- The counter read through a registered pointer; a null entry contributes nothing. -/
def counterOf (Components : Nat → UNetworkReplicationComponent) (Component : Ptr) : Int :=
  match Component with
  | some c => (Components c).TotalReplications
  | none => 0

/-- The sum of `TotalReplications` over the registered components, as an exact integer. -/
def registeredTotal (P : Process) : Int :=
  (P.Subsystem.RegisteredComponents.map (counterOf P.Components)).sum

/-- The calls that register the components `cs`, in order. -/
def registerOps (cs : List Nat) : List Op :=
  cs.map (fun c => Op.Subsystem (.RegisterReplicationComponent (some c)))

/-- The `Replicate*` calls `(component, world time, call)` made with authority, in order. -/
def authorityOps (calls : List (Nat × float × ReplicateCall)) : List Op :=
  calls.map (fun x => Op.Replicate x.1 ⟨true, x.2.1⟩ x.2.2)

/-- Whether the subsystem call assigns to `CurrentSettings` or to one of its fields. -/
def SubsystemOp.writesSettings : SubsystemOp → Bool
  | .SetReplicationSettings _ => true
  | .OptimizeForBandwidth _ => true
  | .SetReplicationDistance _ => true
  | .EnableRelevancyCulling _ => true
  | .EnableClientPrediction _ => true
  | .SetPredictionTolerance _ => true
  | .SetInterestRadius _ => true
  | _ => false

/-- The process with the three simulated-impairment fields of its subsystem replaced and
everything else kept. -/
def Process.withSimulation (P : Process) (Latency PacketLoss BandwidthLimit : float) :
    Process :=
  { P with
    Subsystem :=
      { P.Subsystem with
        SimulatedLatency := Latency
        SimulatedPacketLoss := PacketLoss
        SimulatedBandwidthLimit := BandwidthLimit } }

/-- The arithmetic mean of a list of samples, 0 for the empty list. -/
def arithmeticMean (Samples : List float) : float :=
  if Samples = [] then 0 else Samples.sum / (Samples.length : ℚ)

/-- The `LastReplicationTime` values of the registered non-null components whose value is
greater than 0, in registration order. -/
def positiveTimes (Components : Nat → UNetworkReplicationComponent) (Registered : List Ptr) :
    List float :=
  Registered.filterMap
    (fun Component =>
      match Component with
      | some c =>
        if (Components c).LastReplicationTime > 0 then
          some (Components c).LastReplicationTime
        else none
      | none => none)

/-- The freshly initialised process with `MaxReplicationDistance` set to 5, actor 0 at the
origin and actor 1 at (3, 4, 0), which is at distance 5, and actor 2 at (3, 4, 1). -/
def relevancyScenario : Process :=
  { UNetworkReplicationSubsystem.SetReplicationDistance Process.initial 5 with
    ActorLocation := fun a =>
      if a = 1 then ⟨3, 4, 0⟩ else if a = 2 then ⟨3, 4, 1⟩ else ⟨0, 0, 0⟩ }

/-- The latency fields have never received a sample: `CurrentLatency` is 0 and
`LatencyHistory` is empty. -/
def NeverSampled (P : Process) : Prop :=
  P.Subsystem.CurrentLatency = 0 ∧ P.Subsystem.LatencyHistory = []

/-- A process reached from the freshly initialised one: components 0 and 1 are registered,
component 0 replicates a custom event at world time 0 and component 1 at world time 8. -/
def latencyScenario : Process :=
  Process.initial.runOps
    [Op.Subsystem (.RegisterReplicationComponent (some 0)),
     Op.Subsystem (.RegisterReplicationComponent (some 1)),
     Op.Replicate 0 ⟨true, 0⟩ (.ReplicateCustomEvent "Spawn" ""),
     Op.Replicate 1 ⟨true, 8⟩ (.ReplicateCustomEvent "Jump" "")]

/-- The finite values of the `float` format: `m * 2 ^ e` with `|m| < 2 ^ 24` and
`-149 <= e <= 104`. -/
def IsFloat (q : ℚ) : Prop :=
  ∃ m e : Int, |m| < 2 ^ 24 ∧ -149 ≤ e ∧ e ≤ 104 ∧ q = m * 2 ^ e

/-- The value of `float Total = 0.0f; for (float t : Samples) Total += t;`: a left-to-right
sum that is rounded to `float` after every addition. -/
def floatSum (Samples : List float) : float :=
  Samples.foldl (fun Total t => roundToFloat (Total + t)) 0

/-- The freshly initialised process with `MaxReplicationDistance` set to 15000, actor 0 at the
origin and actor 1 at (15000 + 1/4096, 0, 0), whose coordinates are `double` values. -/
def boundaryScenario : Process :=
  { UNetworkReplicationSubsystem.SetReplicationDistance Process.initial 15000 with
    ActorLocation := fun a => if a = 1 then ⟨15000 + 1 / 4096, 0, 0⟩ else ⟨0, 0, 0⟩ }

/-- A process reached from the freshly initialised one: components 0, 1 and 2 are registered
and each replicates one custom event, at the world times that are the `double` values written
`0.1`, `0.2` and `0.3`. -/
def roundingScenario : Process :=
  Process.initial.runOps
    [Op.Subsystem (.RegisterReplicationComponent (some 0)),
     Op.Subsystem (.RegisterReplicationComponent (some 1)),
     Op.Subsystem (.RegisterReplicationComponent (some 2)),
     Op.Replicate 0 ⟨true, 3602879701896397 / 36028797018963968⟩
       (.ReplicateCustomEvent "Jump" ""),
     Op.Replicate 1 ⟨true, 3602879701896397 / 18014398509481984⟩
       (.ReplicateCustomEvent "Jump" ""),
     Op.Replicate 2 ⟨true, 5404319552844595 / 18014398509481984⟩
       (.ReplicateCustomEvent "Jump" "")]

/-! ## Facts about binary rounding -/

theorem roundHalfEven_eq (x : ℚ) (n : Int) (h1 : (n : ℚ) - 1 / 2 < x) (h2 : x < n + 1 / 2) :
    roundHalfEven x = n := by
  unfold roundHalfEven
  simp only
  by_cases hx : (n : ℚ) ≤ x
  · have hf : Int.floor x = n := Int.floor_eq_iff.2 ⟨hx, by linarith⟩
    rw [hf, if_pos (by linarith)]
  · have hx2 : x < n := lt_of_not_le hx
    have hf : Int.floor x = n - 1 :=
      Int.floor_eq_iff.2 ⟨by push_cast; linarith, by push_cast; linarith⟩
    rw [hf]
    have h3 : ¬ (x - ((n - 1 : Int) : ℚ) < 1 / 2) := by push_cast; linarith
    have h4 : 1 / 2 < x - ((n - 1 : Int) : ℚ) := by push_cast; linarith
    rw [if_neg h3, if_pos h4]
    ring

theorem roundHalfEven_intCast (n : Int) : roundHalfEven (n : ℚ) = n :=
  roundHalfEven_eq _ n (by linarith) (by linarith)

theorem abs_roundHalfEven_sub_le (x : ℚ) : |(roundHalfEven x : ℚ) - x| ≤ 1 / 2 := by
  unfold roundHalfEven
  simp only
  have h1 := Int.floor_le x
  have h2 := Int.lt_floor_add_one x
  rw [abs_le]
  split_ifs with a b c
  · constructor <;> linarith
  · push_cast; constructor <;> linarith
  · constructor <;> linarith
  · push_cast; constructor <;> linarith

theorem log_eq_of_bounds (q : ℚ) (e : Int) (h1 : (2 : ℚ) ^ e ≤ q) (h2 : q < (2 : ℚ) ^ (e + 1)) :
    Int.log 2 q = e := by
  have hq : 0 < q := lt_of_lt_of_le (by positivity) h1
  have a := (Int.zpow_le_iff_le_log (b := 2) (by norm_num) hq).1 (by exact_mod_cast h1)
  have b := (Int.lt_zpow_iff_log_lt (b := 2) (by norm_num) hq).1 (by exact_mod_cast h2)
  omega

theorem roundBinary_of_exponent (p : Nat) (emin : Int) (q : ℚ) (e : Int) (he : emin ≤ e)
    (h1 : (2 : ℚ) ^ e ≤ |q|) (h2 : |q| < (2 : ℚ) ^ (e + 1)) :
    roundBinary p emin q = roundHalfEven (q / 2 ^ (e - (p - 1))) * 2 ^ (e - (p - 1)) := by
  unfold roundBinary
  simp only
  rw [log_eq_of_bounds _ e h1 h2, max_eq_left he]

theorem roundBinary_zero (p : Nat) (emin : Int) : roundBinary p emin 0 = 0 := by
  simp [roundBinary, roundHalfEven]

theorem roundHalfEven_tie_even (x : ℚ) (n : Int) (h : x = n + 1 / 2) (hn : n % 2 = 0) :
    roundHalfEven x = n := by
  unfold roundHalfEven
  simp only
  have hf : Int.floor x = n := Int.floor_eq_iff.2 ⟨by linarith, by linarith⟩
  rw [hf, if_neg (by linarith), if_neg (by linarith), if_pos hn]

theorem roundHalfEven_tie_odd (x : ℚ) (n : Int) (h : x = n + 1 / 2) (hn : n % 2 = 1) :
    roundHalfEven x = n + 1 := by
  unfold roundHalfEven
  simp only
  have hf : Int.floor x = n := Int.floor_eq_iff.2 ⟨by linarith, by linarith⟩
  rw [hf, if_neg (by linarith), if_neg (by linarith), if_neg (by omega)]

theorem roundSqrt_sq (n : Nat) : roundSqrt ((n : ℚ) ^ 2) = n := by
  unfold roundSqrt
  have hf : Int.floor ((n : ℚ) ^ 2) = ((n ^ 2 : Nat) : Int) := by
    rw [Int.floor_eq_iff]; push_cast; constructor <;> linarith
  have hs : Nat.sqrt (Int.toNat (Int.floor ((n : ℚ) ^ 2))) = n := by
    rw [hf, Int.toNat_ofNat, pow_two, Nat.sqrt_eq]
  simp only [hs]
  rw [if_pos]
  have : (0 : ℚ) ≤ n := Nat.cast_nonneg n
  push_cast
  nlinarith

theorem sqrtBinary_of_exponent (p : Nat) (emin : Int) (s : ℚ) (e : Int) (he : emin ≤ e)
    (h1 : (2 : ℚ) ^ (2 * e) ≤ s) (h2 : s < (2 : ℚ) ^ (2 * e + 2)) :
    sqrtBinary p emin s = roundSqrt (s / (2 ^ (e - (p - 1))) ^ 2) * 2 ^ (e - (p - 1)) := by
  have hs : 0 < s := lt_of_lt_of_le (by positivity) h1
  have a := (Int.zpow_le_iff_le_log (b := 2) (by norm_num) hs).1 (by exact_mod_cast h1)
  have b := (Int.lt_zpow_iff_log_lt (b := 2) (by norm_num) hs).1 (by exact_mod_cast h2)
  have hl : Int.log 2 s / 2 = e := by omega
  unfold sqrtBinary
  simp only
  rw [hl, max_eq_left he]

theorem sqrtBinary_zero (p : Nat) (emin : Int) : sqrtBinary p emin 0 = 0 := by
  simp [sqrtBinary, roundSqrt]

theorem roundBinary_of_representable (p : Nat) (emin : Int) (q : ℚ) (m e : Int)
    (hm : |m| < 2 ^ p) (he : emin - (p - 1) ≤ e) (hq : q = m * 2 ^ e) :
    roundBinary p emin q = q := by
  by_cases hm0 : m = 0
  · subst hm0
    simp only [Int.cast_zero, zero_mul] at hq
    rw [hq, roundBinary_zero]
  have hq0 : 0 < |q| := by
    rw [hq]
    have : (0 : ℚ) < 2 ^ e := by positivity
    have : (m : ℚ) ≠ 0 := by exact_mod_cast hm0
    positivity
  have hlt : |q| < (2 : ℚ) ^ ((p : Int) + e) := by
    rw [hq, abs_mul, abs_of_pos (by positivity : (0 : ℚ) < 2 ^ e), zpow_add₀ (by norm_num)]
    have : |(m : ℚ)| < 2 ^ (p : Int) := by
      rw [zpow_natCast]
      exact_mod_cast hm
    exact mul_lt_mul_of_pos_right this (by positivity)
  have hL := (Int.lt_zpow_iff_log_lt (b := 2) (by norm_num) hq0).1 (by exact_mod_cast hlt)
  unfold roundBinary
  simp only
  generalize Int.log 2 |q| = L at hL
  obtain ⟨k, hk⟩ : ∃ k : Nat, (k : Int) = e - (max L emin - (p - 1)) := by
    refine ⟨(e - (max L emin - (p - 1))).toNat, Int.toNat_of_nonneg ?_⟩
    rcases le_total L emin with h | h
    · rw [max_eq_right h]; omega
    · rw [max_eq_left h]; omega
  have hdiv : q / 2 ^ (max L emin - ((p : Int) - 1)) = ((m * 2 ^ k : Int) : ℚ) := by
    rw [hq, mul_div_assoc, ← zpow_sub₀ (by norm_num), ← hk]
    push_cast
    rw [zpow_natCast]
  rw [hdiv, roundHalfEven_intCast, ← hdiv]
  exact div_mul_cancel₀ _ (by positivity)

theorem abs_roundBinary_sub_le (p : Nat) (emin : Int) (q : ℚ)
    (h : (2 : ℚ) ^ emin ≤ |q|) :
    |roundBinary p emin q - q| ≤ |q| / 2 ^ p := by
  have hq0 : 0 < |q| := lt_of_lt_of_le (by positivity) h
  have hle := (Int.zpow_le_iff_le_log (b := 2) (by norm_num) hq0).1 (by exact_mod_cast h)
  have hlog := Int.zpow_log_le_self (b := 2) (by norm_num) hq0
  unfold roundBinary
  simp only
  rw [max_eq_left hle]
  set u : ℚ := 2 ^ (Int.log 2 |q| - ((p : Int) - 1)) with hu
  have hu0 : 0 < u := by positivity
  have h1 := abs_roundHalfEven_sub_le (q / u)
  have h2 : (roundHalfEven (q / u) : ℚ) * u - q = ((roundHalfEven (q / u) : ℚ) - q / u) * u := by
    field_simp
  rw [h2, abs_mul, abs_of_pos hu0]
  have h3 : u = 2 ^ (Int.log 2 |q|) * 2 / 2 ^ p := by
    rw [hu, zpow_sub₀ (by norm_num), zpow_sub₀ (by norm_num), zpow_natCast]
    field_simp
  have h4 : u ≤ |q| * 2 / 2 ^ p := by
    rw [h3]
    have : (2 : ℚ) ^ (Int.log 2 |q|) ≤ |q| := by exact_mod_cast hlog
    gcongr
  calc |(roundHalfEven (q / u) : ℚ) - q / u| * u ≤ 1 / 2 * u := by gcongr
    _ ≤ 1 / 2 * (|q| * 2 / 2 ^ p) := by gcongr
    _ = |q| / 2 ^ p := by ring

theorem roundToFloat_of_isFloat (q : ℚ) (h : IsFloat q) : roundToFloat q = q := by
  obtain ⟨m, e, hm, he, -, hq⟩ := h
  exact roundBinary_of_representable 24 (-126) q m e hm (by norm_num; omega) hq

theorem roundToFloat_intCast (n : Int) (h : |n| < 2 ^ 24) : roundToFloat (n : ℚ) = n :=
  roundBinary_of_representable 24 (-126) n n 0 h (by norm_num) (by simp)

theorem roundToDouble_of_representable (q : ℚ) (m e : Int) (hm : |m| < 2 ^ 53)
    (he : -1074 ≤ e) (hq : q = m * 2 ^ e) : roundToDouble q = q :=
  roundBinary_of_representable 53 (-1022) q m e hm (by norm_num; omega) hq

theorem roundToDouble_intCast (n : Int) (h : |n| < 2 ^ 53) : roundToDouble (n : ℚ) = n :=
  roundBinary_of_representable 53 (-1022) n n 0 h (by norm_num) (by simp)

/-! ## Facts about `TArray` -/

theorem TArray.mem_AddUnique_self {α : Type} [DecidableEq α] (A : List α) (x : α) :
    x ∈ TArray.AddUnique A x := by
  unfold TArray.AddUnique
  split <;> simp_all

theorem TArray.AddUnique_of_mem {α : Type} [DecidableEq α] {A : List α} {x : α} (h : x ∈ A) :
    TArray.AddUnique A x = A := by
  simp [TArray.AddUnique, h]

theorem TArray.mem_AddUnique {α : Type} [DecidableEq α] (A : List α) (x y : α) :
    y ∈ TArray.AddUnique A x ↔ y ∈ A ∨ y = x := by
  unfold TArray.AddUnique
  split
  · constructor
    · exact Or.inl
    · rintro (h | rfl) <;> assumption
  · simp

theorem TArray.nodup_AddUnique {α : Type} [DecidableEq α] {A : List α} (x : α) (h : A.Nodup) :
    (TArray.AddUnique A x).Nodup := by
  unfold TArray.AddUnique
  split
  · exact h
  · rename_i hx
    rw [List.nodup_append]
    refine ⟨h, List.nodup_singleton x, ?_⟩
    intro a ha hb
    simp at hb
    subst hb
    exact hx ha

theorem TArray.Remove_of_not_mem {α : Type} [DecidableEq α] {A : List α} {x : α} (h : x ∉ A) :
    TArray.Remove A x = A := by
  unfold TArray.Remove
  rw [List.filter_eq_self]
  intro a ha
  simp
  rintro rfl
  exact h ha

theorem TArray.mem_Remove {α : Type} [DecidableEq α] (A : List α) (x y : α) :
    y ∈ TArray.Remove A x ↔ y ∈ A ∧ y ≠ x := by
  simp [TArray.Remove]

theorem TArray.nodup_Remove {α : Type} [DecidableEq α] {A : List α} (x : α) (h : A.Nodup) :
    (TArray.Remove A x).Nodup := h.filter _

/-! ## The dispatch of the component -/

open UNetworkReplicationComponent UNetworkReplicationSubsystem

/-- C1: for every authority flag, component state and `Replicate*` call whose validation guard
does not fire, the call issues exactly one RPC: with authority it is a `Multicast*` call and no
`Server*` call, without authority it is a `Server*` call and no `Multicast*` call. -/
theorem C1_accepted_call_issues_exactly_one_rpc (env : Env)
    (self : UNetworkReplicationComponent) (call : ReplicateCall)
    (h : call.rejected = false) :
    (call.run env self).rpcs.length = 1 ∧
    (env.HasAuthority = true →
      (call.run env self).rpcs.countP RpcCall.isMulticast = 1 ∧
      (call.run env self).rpcs.countP RpcCall.isServer = 0) ∧
    (env.HasAuthority = false →
      (call.run env self).rpcs.countP RpcCall.isServer = 1 ∧
      (call.run env self).rpcs.countP RpcCall.isMulticast = 0) := by
  cases hA : env.HasAuthority <;> cases call <;>
    simp_all [Option.isSome_iff_ne_none, Option.isNone_iff_eq_none, ReplicateCall.run,
      ReplicateCall.rejected, ReplicateAnimation,
      ReplicateAnimationStop, ReplicateSound, ReplicateSoundAtLocation, ReplicateActorSpawn,
      ReplicateActorSpawnAttached, ReplicateNiagaraEffect, ReplicateStringVariable,
      ReplicateFloatVariable, ReplicateIntVariable, ReplicateBoolVariable,
      ReplicateVectorVariable, ReplicateCustomEvent, ReplicateMotionMatchingDatabase,
      ReplicatePoseSearchSchema, ReplicateTrajectoryData, RpcCall.isServer,
      RpcCall.isMulticast]

/-- Witness for C1: `ReplicateAnimation` with a non-null montage on the authority. -/
theorem C1_accepted_call_issues_exactly_one_rpc_witness :
    (ReplicateCall.ReplicateAnimation (some 1) 1 0).rejected = false ∧
    ((ReplicateCall.ReplicateAnimation (some 1) 1 0).run ⟨true, 0⟩ construct).rpcs.length = 1 :=
  ⟨by decide,
   (C1_accepted_call_issues_exactly_one_rpc ⟨true, 0⟩ construct
      (ReplicateCall.ReplicateAnimation (some 1) 1 0) (by decide)).1⟩

/-- C2 (what the code does): for every authority flag, component state and non-null asset, each
of the seven entry points `ReplicateAnimation`, `ReplicateAnimationStop`, `ReplicateSound`,
`ReplicateSoundAtLocation`, `ReplicateActorSpawn`, `ReplicateActorSpawnAttached` and
`ReplicateNiagaraEffect` accepts the request and issues one RPC, yet returns the component
unchanged: `TotalReplications` is not incremented and `LastReplicationTime` is not written. -/
theorem C2_asset_entry_points_skip_the_counter (env : Env) (self : UNetworkReplicationComponent)
    (o : Nat) (x y z : float) (v : FVector) (r : FRotator) (b : Bool) (n : FName) :
    ((ReplicateAnimation env self (some o) x y).rpcs.length = 1 ∧
      (ReplicateAnimation env self (some o) x y).self = self) ∧
    ((ReplicateAnimationStop env self (some o)).rpcs.length = 1 ∧
      (ReplicateAnimationStop env self (some o)).self = self) ∧
    ((ReplicateSound env self (some o) x y z).rpcs.length = 1 ∧
      (ReplicateSound env self (some o) x y z).self = self) ∧
    ((ReplicateSoundAtLocation env self (some o) v x y z).rpcs.length = 1 ∧
      (ReplicateSoundAtLocation env self (some o) v x y z).self = self) ∧
    ((ReplicateActorSpawn env self (some o) v r b).2.rpcs.length = 1 ∧
      (ReplicateActorSpawn env self (some o) v r b).2.self = self) ∧
    ((ReplicateActorSpawnAttached env self (some o) n v r).2.rpcs.length = 1 ∧
      (ReplicateActorSpawnAttached env self (some o) n v r).2.self = self) ∧
    ((ReplicateNiagaraEffect env self (some o) v r b n).2.rpcs.length = 1 ∧
      (ReplicateNiagaraEffect env self (some o) v r b n).2.self = self) := by
  cases hA : env.HasAuthority <;>
    simp [ReplicateAnimation, ReplicateAnimationStop, ReplicateSound, ReplicateSoundAtLocation,
      ReplicateActorSpawn, ReplicateActorSpawnAttached, ReplicateNiagaraEffect, hA]

/-- C3: for every authority flag, component state and `Replicate*` call whose validation guard
fires (null montage, sound, actor class, Niagara effect, motion-matching database or
pose-search schema), the component is returned unchanged, so `TotalReplications` and
`LastReplicationTime` keep their values, and no RPC is issued. -/
theorem C3_rejected_call_changes_nothing (env : Env) (self : UNetworkReplicationComponent)
    (call : ReplicateCall) (h : call.rejected = true) :
    (call.run env self).self = self ∧
    (call.run env self).self.TotalReplications = self.TotalReplications ∧
    (call.run env self).self.LastReplicationTime = self.LastReplicationTime ∧
    (call.run env self).rpcs = [] := by
  cases call <;>
    simp_all [Option.isSome_iff_ne_none, Option.isNone_iff_eq_none, ReplicateCall.run,
      ReplicateCall.rejected, ReplicateAnimation,
      ReplicateAnimationStop, ReplicateSound, ReplicateSoundAtLocation, ReplicateActorSpawn,
      ReplicateActorSpawnAttached, ReplicateNiagaraEffect, ReplicateMotionMatchingDatabase,
      ReplicatePoseSearchSchema]

/-- Witness for C3: `ReplicateActorSpawn` with a null class on a component that has counted
four replications. -/
theorem C3_rejected_call_changes_nothing_witness :
    (ReplicateCall.ReplicateActorSpawn none ⟨0, 0, 0⟩ ⟨0, 0, 0⟩ false).rejected = true ∧
    ((ReplicateCall.ReplicateActorSpawn none ⟨0, 0, 0⟩ ⟨0, 0, 0⟩ false).run ⟨true, 2⟩
      ⟨false, 4, 1⟩).rpcs = [] :=
  ⟨by decide,
   (C3_rejected_call_changes_nothing ⟨true, 2⟩ ⟨false, 4, 1⟩
      (ReplicateCall.ReplicateActorSpawn none ⟨0, 0, 0⟩ ⟨0, 0, 0⟩ false) (by decide)).2.2.2⟩

/-- C4 as stated fails: `ReplicateCustomEvent(NAME_None, "")` on the authority, on a component
as constructed at world time 5, carries the empty name as its primary payload, yet it issues a
multicast and changes the counter from 0 to 1 and the timestamp from 0 to 5. -/
theorem C4_empty_name_is_dispatched :
    (ReplicateCall.ReplicateCustomEvent NAME_None "").payloadName = some NAME_None ∧
    ((ReplicateCall.ReplicateCustomEvent NAME_None "").run ⟨true, 5⟩ construct).rpcs =
      [RpcCall.MulticastReplicateCustomEvent NAME_None ""] ∧
    construct.TotalReplications = 0 ∧
    ((ReplicateCall.ReplicateCustomEvent NAME_None "").run ⟨true, 5⟩
      construct).self.TotalReplications = 1 ∧
    ((ReplicateCall.ReplicateCustomEvent NAME_None "").run ⟨true, 5⟩
      construct).self.LastReplicationTime = 5 := by
  refine ⟨by decide, by decide, by decide, by decide, ?_⟩
  show roundToFloat 5 = 5
  simpa using roundToFloat_intCast 5 (by norm_num)

/-- C4 (amended): validation guards the object and class payloads only. A call of an entry
point with a guard whose payload is null returns the component unchanged and issues no RPC; a
call of an entry point without a guard (the five variable entry points, the custom-event and the
trajectory entry point) is never rejected, whatever its name or value: it issues exactly one RPC
and runs the counting statements. -/
theorem C4_only_pointer_payloads_are_validated (env : Env)
    (self : UNetworkReplicationComponent) (call : ReplicateCall) :
    (call.rejected = true →
      call.hasGuard = true ∧ (call.run env self).self = self ∧ (call.run env self).rpcs = []) ∧
    (call.hasGuard = false →
      call.rejected = false ∧ (call.run env self).rpcs.length = 1 ∧
      (call.run env self).self = recordReplication env self) := by
  cases hA : env.HasAuthority <;> cases call <;>
    simp_all [Option.isSome_iff_ne_none, Option.isNone_iff_eq_none, ReplicateCall.run,
      ReplicateCall.rejected, ReplicateCall.hasGuard, ReplicateAnimation,
      ReplicateAnimationStop, ReplicateSound, ReplicateSoundAtLocation, ReplicateActorSpawn,
      ReplicateActorSpawnAttached, ReplicateNiagaraEffect, ReplicateStringVariable,
      ReplicateFloatVariable, ReplicateIntVariable, ReplicateBoolVariable,
      ReplicateVectorVariable, ReplicateCustomEvent, ReplicateMotionMatchingDatabase,
      ReplicatePoseSearchSchema, ReplicateTrajectoryData]

/-- Witness for C4 (amended): a null sound is rejected, a string variable named `NAME_None`
is dispatched. -/
theorem C4_only_pointer_payloads_are_validated_witness :
    ((ReplicateCall.ReplicateSound none 1 1 0).rejected = true ∧
      ((ReplicateCall.ReplicateSound none 1 1 0).run ⟨false, 3⟩ construct).rpcs = []) ∧
    ((ReplicateCall.ReplicateStringVariable NAME_None "").hasGuard = false ∧
      ((ReplicateCall.ReplicateStringVariable NAME_None "").run ⟨false, 3⟩
        construct).rpcs.length = 1) :=
  ⟨⟨by decide,
    ((C4_only_pointer_payloads_are_validated ⟨false, 3⟩ construct
      (ReplicateCall.ReplicateSound none 1 1 0)).1 (by decide)).2.2⟩,
   ⟨by decide,
    ((C4_only_pointer_payloads_are_validated ⟨false, 3⟩ construct
      (ReplicateCall.ReplicateStringVariable NAME_None "")).2 (by decide)).2.1⟩⟩

/-! ## The registry of the subsystem -/

/-- C5: for every process state and every component pointer (null included), registering it a
second time leaves the registered array, hence `GetActiveReplicationCount()`, as the first
registration left it. -/
theorem C5_register_is_idempotent (P : Process) (Component : Ptr) :
    (RegisterReplicationComponent (RegisterReplicationComponent P Component)
        Component).Subsystem.RegisteredComponents =
      (RegisterReplicationComponent P Component).Subsystem.RegisteredComponents ∧
    GetActiveReplicationCount
        (RegisterReplicationComponent (RegisterReplicationComponent P Component) Component) =
      GetActiveReplicationCount (RegisterReplicationComponent P Component) := by
  have h : (RegisterReplicationComponent (RegisterReplicationComponent P Component)
        Component).Subsystem.RegisteredComponents =
      (RegisterReplicationComponent P Component).Subsystem.RegisteredComponents := by
    cases Component with
    | none => simp [RegisterReplicationComponent, Process.UE_LOG]
    | some c =>
      simp [RegisterReplicationComponent, Process.UE_LOG,
        TArray.AddUnique_of_mem (TArray.mem_AddUnique_self _ _)]
  exact ⟨h, by simp [GetActiveReplicationCount, h]⟩

/-- C6: for every process state and every component pointer that is not in the registered
array, `UnregisterReplicationComponent` returns (the function is total) and leaves the whole
subsystem object, the component objects and `GetActiveReplicationCount()` unchanged. -/
theorem C6_unregister_of_absent_is_a_no_op (P : Process) (Component : Ptr)
    (h : Component ∉ P.Subsystem.RegisteredComponents) :
    (UnregisterReplicationComponent P Component).Subsystem = P.Subsystem ∧
    (UnregisterReplicationComponent P Component).Components = P.Components ∧
    GetActiveReplicationCount (UnregisterReplicationComponent P Component) =
      GetActiveReplicationCount P := by
  have hs : (UnregisterReplicationComponent P Component).Subsystem = P.Subsystem := by
    cases Component with
    | none => simp [UnregisterReplicationComponent]
    | some c =>
      simp [UnregisterReplicationComponent, Process.UE_LOG, TArray.Remove_of_not_mem h]
  refine ⟨hs, ?_, by simp [GetActiveReplicationCount, hs]⟩
  cases Component <;> simp [UnregisterReplicationComponent, Process.UE_LOG]

/-- Witness for C6: component 2 is unregistered while only component 1 is registered. -/
theorem C6_unregister_of_absent_is_a_no_op_witness :
    some 2 ∉
      (RegisterReplicationComponent Process.initial (some 1)).Subsystem.RegisteredComponents ∧
    GetActiveReplicationCount
        (UnregisterReplicationComponent (RegisterReplicationComponent Process.initial (some 1))
          (some 2)) =
      GetActiveReplicationCount (RegisterReplicationComponent Process.initial (some 1)) :=
  ⟨by decide,
   (C6_unregister_of_absent_is_a_no_op (RegisterReplicationComponent Process.initial (some 1))
      (some 2) (by decide)).2.2⟩

/-- C7: for every process state, `RegisterReplicationComponent(nullptr)` returns (the function
is total), leaves the whole subsystem object, the component objects and
`GetActiveReplicationCount()` unchanged, and logs one warning. -/
theorem C7_register_null_is_rejected_softly (P : Process) :
    (RegisterReplicationComponent P none).Subsystem = P.Subsystem ∧
    (RegisterReplicationComponent P none).Components = P.Components ∧
    GetActiveReplicationCount (RegisterReplicationComponent P none) =
      GetActiveReplicationCount P ∧
    (RegisterReplicationComponent P none).Log =
      P.Log ++ [⟨.Warning, "Attempted to register null replication component", []⟩] := by
  simp [RegisterReplicationComponent, Process.UE_LOG, GetActiveReplicationCount]

theorem RegistryWellFormed.register (P : Process) (c : Ptr) (h : RegistryWellFormed P) :
    RegistryWellFormed (RegisterReplicationComponent P c) := by
  cases c with
  | none => simpa [RegisterReplicationComponent, Process.UE_LOG, RegistryWellFormed] using h
  | some c =>
    obtain ⟨h1, h2⟩ := h
    refine ⟨?_, ?_⟩
    · simp [RegisterReplicationComponent, Process.UE_LOG, TArray.mem_AddUnique, h1]
    · simpa [RegisterReplicationComponent, Process.UE_LOG] using TArray.nodup_AddUnique _ h2

theorem RegistryWellFormed.unregister (P : Process) (c : Ptr) (h : RegistryWellFormed P) :
    RegistryWellFormed (UnregisterReplicationComponent P c) := by
  cases c with
  | none => simpa [UnregisterReplicationComponent, RegistryWellFormed] using h
  | some c =>
    obtain ⟨h1, h2⟩ := h
    refine ⟨?_, ?_⟩
    · simp [UnregisterReplicationComponent, Process.UE_LOG, TArray.mem_Remove, h1]
    · simpa [UnregisterReplicationComponent, Process.UE_LOG] using TArray.nodup_Remove _ h2

theorem RegistryWellFormed.of_registered_eq {P Q : Process}
    (e : Q.Subsystem.RegisteredComponents = P.Subsystem.RegisteredComponents)
    (h : RegistryWellFormed P) : RegistryWellFormed Q := by
  unfold RegistryWellFormed at *
  rw [e]; exact h

theorem RegistryWellFormed.subsystemOp (P : Process) (op : SubsystemOp)
    (h : RegistryWellFormed P) : RegistryWellFormed (op.run P) := by
  cases op
  case Deinitialize =>
    simp [SubsystemOp.run, Deinitialize, Process.UE_LOG, RegistryWellFormed, TArray.Empty]
  case RegisterReplicationComponent c => exact h.register P c
  case UnregisterReplicationComponent c => exact h.unregister P c
  case OnComponentDestroyed c =>
    simp only [SubsystemOp.run, OnComponentDestroyed]
    split
    · exact h.unregister P c
    · exact h
  all_goals
    refine RegistryWellFormed.of_registered_eq ?_ h
    simp only [SubsystemOp.run, Initialize, SetReplicationSettings, OptimizeReplication,
      ShowNetworkStats,
      ExportReplicationData, ResetReplicationStats, OptimizeForBandwidth, SetReplicationDistance,
      EnableRelevancyCulling, StartNetworkProfiling, StopNetworkProfiling,
      SimulateNetworkConditions, ResetNetworkSimulation, RegisterConsoleCommands,
      UnregisterConsoleCommands, EnableClientPrediction, SetPredictionTolerance,
      SetInterestRadius, AddInterestActor, RemoveInterestActor, StartPerformanceMonitoring,
      StopPerformanceMonitoring, SetPerformanceThresholds, StartLatencyMeasurement,
      StopLatencyMeasurement, StartBandwidthMonitoring, StopBandwidthMonitoring,
      SimulatePacketLoss, SimulateLatency, SimulateBandwidthLimit, ResetAllSimulations,
      Process.UE_LOG]
    try split
    all_goals rfl

theorem RegistryWellFormed.op (P : Process) (op : Op) (h : RegistryWellFormed P) :
    RegistryWellFormed (op.run P) := by
  cases op with
  | Subsystem op => exact h.subsystemOp P op
  | BeginPlay this b =>
    simp only [Op.run, UNetworkReplicationComponent.BeginPlay]
    split
    · exact h.register P _
    · exact h
  | EndPlay this => exact RegistryWellFormed.of_registered_eq rfl h
  | Replicate this env call => exact RegistryWellFormed.of_registered_eq rfl h
  | EnableDebugLogging this b => exact RegistryWellFormed.of_registered_eq rfl h
  | LogReplicationEvent this n => exact RegistryWellFormed.of_registered_eq rfl h

theorem RegistryWellFormed.runOps (ops : List Op) (P : Process) (h : RegistryWellFormed P) :
    RegistryWellFormed (P.runOps ops) := by
  induction ops generalizing P with
  | nil => exact h
  | cons op ops ih => exact ih _ (h.op P op)

theorem RegistryWellFormed.initial : RegistryWellFormed Process.initial := by
  simp [RegistryWellFormed, Process.initial, Initialize, Process.UE_LOG, Process.fresh,
    UNetworkReplicationSubsystem.construct]

/-- C8: in every state reached from the freshly initialised subsystem by any sequence of calls
on the subsystem and on component objects, with any arguments, `RegisteredComponents` holds no
null entry and holds no component twice. -/
theorem C8_registry_has_no_null_and_no_duplicate (ops : List Op) :
    none ∉ (Process.initial.runOps ops).Subsystem.RegisteredComponents ∧
    (Process.initial.runOps ops).Subsystem.RegisteredComponents.Nodup :=
  RegistryWellFormed.runOps ops _ RegistryWellFormed.initial

/-- C9 (what the code does): `EndPlay` leaves the subsystem object as it was, so a component
that `BeginPlay` registered is still in `RegisteredComponents` after `EndPlay`; from the
freshly initialised subsystem, `GetActiveReplicationCount()` is 0 before `BeginPlay` of
component 1 and is 1, not 0, after its `EndPlay`. The handler
`UNetworkReplicationSubsystem::OnComponentDestroyed`, which `EndPlay` never reaches, would
bring the count back to 0. -/
theorem C9_EndPlay_leaves_the_component_registered (P : Process) (this : Nat) :
    (UNetworkReplicationComponent.EndPlay P this).Subsystem = P.Subsystem ∧
    some this ∈ (UNetworkReplicationComponent.EndPlay
      (UNetworkReplicationComponent.BeginPlay P this true) this).Subsystem.RegisteredComponents ∧
    GetActiveReplicationCount Process.initial = 0 ∧
    GetActiveReplicationCount (UNetworkReplicationComponent.EndPlay
      (UNetworkReplicationComponent.BeginPlay Process.initial 1 true) 1) = 1 ∧
    GetActiveReplicationCount (OnComponentDestroyed
      (UNetworkReplicationComponent.BeginPlay Process.initial 1 true) (some 1)) = 0 := by
  refine ⟨rfl, ?_, by decide, by decide, by decide⟩
  simp [UNetworkReplicationComponent.EndPlay, UNetworkReplicationComponent.BeginPlay,
    RegisterReplicationComponent, Process.UE_LOG, TArray.mem_AddUnique_self]

/-! ## The threshold check -/

theorem foldl_totalStep_of_zero (Components : Nat → UNetworkReplicationComponent)
    (l : List Ptr) (acc : int32) (hacc : wrapInt32 acc = acc)
    (h : ∀ c, some c ∈ l → (Components c).TotalReplications = 0) :
    l.foldl (totalStep Components) acc = acc := by
  induction l with
  | nil => rfl
  | cons a l ih =>
    have ih2 := ih (fun c hc => h c (List.mem_cons_of_mem _ hc))
    cases a with
    | none => simpa [totalStep] using ih2
    | some c =>
      have hc := h c (List.mem_cons_self _ _)
      simp only [List.foldl_cons, totalStep, hc, add_zero, hacc]
      exact ih2

theorem foldl_latencyStep_of_zero (Components : Nat → UNetworkReplicationComponent)
    (l : List Ptr) (acc : float × int32)
    (h : ∀ c, some c ∈ l → (Components c).LastReplicationTime = 0) :
    l.foldl (latencyStep Components) acc = acc := by
  induction l with
  | nil => rfl
  | cons a l ih =>
    have ih2 := ih (fun c hc => h c (List.mem_cons_of_mem _ hc))
    cases a with
    | none => simpa [latencyStep] using ih2
    | some c =>
      have hc := h c (List.mem_cons_self _ _)
      simp only [List.foldl_cons, latencyStep, hc, gt_iff_lt, lt_self_iff_false, if_false]
      exact ih2

theorem thresholdScenario_registered (t : float) :
    (thresholdScenario t).Subsystem.RegisteredComponents =
      some 0 :: ((List.range 499).map Nat.succ).map some := by
  simp only [thresholdScenario]
  rw [show (500 : Nat) = 499 + 1 from rfl, List.range_succ_eq_map]
  rfl

theorem thresholdScenario_rest (t : float) (c : Nat)
    (h : some c ∈ ((List.range 499).map Nat.succ).map some) :
    (thresholdScenario t).Components c = UNetworkReplicationComponent.construct := by
  simp only [List.mem_map] at h
  obtain ⟨d, ⟨e, _, rfl⟩, hd⟩ := h
  cases hd
  simp [thresholdScenario, Process.initial, Initialize, Process.UE_LOG, Process.fresh]

theorem thresholdScenario_total (t : float) :
    GetTotalReplications (thresholdScenario t) = 10 := by
  unfold GetTotalReplications sumTotalReplications
  rw [thresholdScenario_registered, List.foldl_cons]
  have h0 : ((thresholdScenario t).Components 0).TotalReplications = 10 := by
    simp [thresholdScenario]
  simp only [totalStep, h0]
  exact foldl_totalStep_of_zero _ _ _ (by decide) (fun c hc => by
    rw [thresholdScenario_rest t c hc]; rfl)

theorem thresholdScenario_latency (t : float) (ht : 0 < t) (hf : roundToFloat t = t) :
    GetAverageLatency (thresholdScenario t) = t := by
  unfold GetAverageLatency sumLatency
  rw [thresholdScenario_registered, List.foldl_cons]
  have h0 : ((thresholdScenario t).Components 0).LastReplicationTime = t := by
    simp [thresholdScenario]
  rw [foldl_latencyStep_of_zero (thresholdScenario t).Components _ _ (fun c hc => by
    rw [thresholdScenario_rest t c hc]; rfl)]
  simp only [latencyStep, h0, gt_iff_lt, ht, if_true]
  have h1 : roundToFloat 1 = 1 := by simpa using roundToFloat_intCast 1 (by norm_num)
  norm_num [wrapInt32, hf, h1]

theorem thresholdScenario_bandwidth (t : float) :
    GetReplicationBandwidth (thresholdScenario t) = 50 := by
  simp [GetReplicationBandwidth, TArray.Num, thresholdScenario]
  norm_num

theorem thresholdScenario_thresholds (t : float) :
    (thresholdScenario t).Subsystem.MaxLatencyThreshold = 100 ∧
    (thresholdScenario t).Subsystem.MaxBandwidthThreshold = 100 ∧
    (thresholdScenario t).Subsystem.MaxReplicationsThreshold = 1000 := by
  simp [thresholdScenario, Process.initial, Initialize, Process.UE_LOG]

/-- C10: for every process state, `IsPerformanceWithinThresholds()` (a `const` method, embedded
as a function from the state to its result) returns true exactly when the three comparisons
`GetAverageLatency() <= MaxLatencyThreshold`, `GetReplicationBandwidth() <=
MaxBandwidthThreshold` and `GetTotalReplications() <= MaxReplicationsThreshold` all hold; so
with thresholds (100, 100, 1000) measured values (50, 50, 10) give true and (150, 50, 10)
give false. -/
theorem C10_within_thresholds_iff_three_comparisons (P : Process) :
    (IsPerformanceWithinThresholds P = true ↔
      (GetAverageLatency P ≤ P.Subsystem.MaxLatencyThreshold ∧
       GetReplicationBandwidth P ≤ P.Subsystem.MaxBandwidthThreshold ∧
       GetTotalReplications P ≤ P.Subsystem.MaxReplicationsThreshold)) ∧
    (P.Subsystem.MaxLatencyThreshold = 100 ∧ P.Subsystem.MaxBandwidthThreshold = 100 ∧
      P.Subsystem.MaxReplicationsThreshold = 1000 →
      (GetAverageLatency P = 50 ∧ GetReplicationBandwidth P = 50 ∧
          GetTotalReplications P = 10 → IsPerformanceWithinThresholds P = true) ∧
      (GetAverageLatency P = 150 ∧ GetReplicationBandwidth P = 50 ∧
          GetTotalReplications P = 10 → IsPerformanceWithinThresholds P = false)) := by
  refine ⟨by simp [IsPerformanceWithinThresholds, and_assoc], ?_⟩
  rintro ⟨h1, h2, h3⟩
  constructor
  · rintro ⟨m1, m2, m3⟩
    simp only [IsPerformanceWithinThresholds, h1, h2, h3, m1, m2, m3]
    norm_num
  · rintro ⟨m1, m2, m3⟩
    simp only [IsPerformanceWithinThresholds, h1, h2, h3, m1, m2, m3]
    norm_num

theorem thresholdScenario_latency_low : GetAverageLatency (thresholdScenario 50) = 50 :=
  thresholdScenario_latency 50 (by norm_num)
    (by simpa using roundToFloat_intCast 50 (by norm_num))

theorem thresholdScenario_latency_high : GetAverageLatency (thresholdScenario 150) = 150 :=
  thresholdScenario_latency 150 (by norm_num)
    (by simpa using roundToFloat_intCast 150 (by norm_num))

/-- Witness for C10: the two examples on a process with 500 registered components, one of
which has replicated ten times, last at world time 50, respectively 150. -/
theorem C10_within_thresholds_iff_three_comparisons_witness :
    (GetAverageLatency (thresholdScenario 50) = 50 ∧
      GetReplicationBandwidth (thresholdScenario 50) = 50 ∧
      GetTotalReplications (thresholdScenario 50) = 10 ∧
      IsPerformanceWithinThresholds (thresholdScenario 50) = true) ∧
    (GetAverageLatency (thresholdScenario 150) = 150 ∧
      GetReplicationBandwidth (thresholdScenario 150) = 50 ∧
      GetTotalReplications (thresholdScenario 150) = 10 ∧
      IsPerformanceWithinThresholds (thresholdScenario 150) = false) :=
  ⟨⟨thresholdScenario_latency_low, thresholdScenario_bandwidth 50,
     thresholdScenario_total 50,
     ((C10_within_thresholds_iff_three_comparisons (thresholdScenario 50)).2
       (thresholdScenario_thresholds 50)).1
       ⟨thresholdScenario_latency_low, thresholdScenario_bandwidth 50,
         thresholdScenario_total 50⟩⟩,
   ⟨thresholdScenario_latency_high, thresholdScenario_bandwidth 150,
     thresholdScenario_total 150,
     ((C10_within_thresholds_iff_three_comparisons (thresholdScenario 150)).2
       (thresholdScenario_thresholds 150)).2
       ⟨thresholdScenario_latency_high, thresholdScenario_bandwidth 150,
         thresholdScenario_total 150⟩⟩⟩

/-! ## The RPC handlers -/

/-- C11 as stated fails: on a component as constructed, the handler
`ServerReplicateCustomEvent_Implementation("Jump", "height=2.0")` issues the same multicast as
`ReplicateCustomEvent("Jump", "height=2.0")` made with authority at world time 5, but it leaves
the counter at 0 and the timestamp at 0 where the `Replicate*` call sets them to 1 and 5; and
`ServerPlayMontage_Implementation(nullptr, 1, 0)` multicasts the null montage that
`ReplicateAnimation(nullptr, 1, 0)` rejects. -/
theorem C11_server_handler_neither_counts_nor_validates :
    (ServerReplicateCustomEvent_Implementation construct "Jump" "height=2.0").rpcs =
      (ReplicateCustomEvent ⟨true, 5⟩ construct "Jump" "height=2.0").rpcs ∧
    (ServerReplicateCustomEvent_Implementation construct "Jump"
      "height=2.0").self.TotalReplications = 0 ∧
    (ReplicateCustomEvent ⟨true, 5⟩ construct "Jump" "height=2.0").self.TotalReplications = 1 ∧
    (ServerReplicateCustomEvent_Implementation construct "Jump"
      "height=2.0").self.LastReplicationTime = 0 ∧
    (ReplicateCustomEvent ⟨true, 5⟩ construct "Jump" "height=2.0").self.LastReplicationTime = 5 ∧
    (ServerPlayMontage_Implementation construct none 1 0).rpcs =
      [RpcCall.MulticastPlayMontage none 1 0] ∧
    (ReplicateAnimation ⟨true, 5⟩ construct none 1 0).rpcs = [] := by
  refine ⟨by decide, by decide, by decide, by decide, ?_, by decide, by decide⟩
  show roundToFloat 5 = 5
  simpa using roundToFloat_intCast 5 (by norm_num)

/-- C11 (amended): the authority does not re-enter the `Replicate*` rule. Every
`Server*_Implementation` handler, whatever its arguments, returns the authority's component
unchanged (no validation, no counter or timestamp update) and issues exactly one `Multicast*`
call; and for every `Replicate*` call, the broadcasts that follow from making it without
authority (the handler run on what the client sent) are the broadcasts the same call issues
when made with authority. -/
theorem C11_server_handler_only_forwards_the_broadcast (engine : Engine) (t1 t2 : float)
    (client server : UNetworkReplicationComponent) (call : ReplicateCall) (r : RpcCall) :
    (r.isServer = true →
      (r.Implementation engine server).self = server ∧
      (r.Implementation engine server).rpcs.length = 1 ∧
      (r.Implementation engine server).rpcs.countP RpcCall.isMulticast = 1) ∧
    broadcastsOf engine server (call.run ⟨false, t1⟩ client).rpcs =
      (call.run ⟨true, t2⟩ server).rpcs := by
  constructor
  · intro h
    cases r <;> simp_all [RpcCall.isServer, RpcCall.Implementation, RpcCall.isMulticast,
      ServerPlayMontage_Implementation, ServerStopMontage_Implementation,
      ServerPlaySound_Implementation, ServerPlaySoundAtLocation_Implementation,
      ServerSpawnActor_Implementation, ServerSpawnActorAttached_Implementation,
      ServerSpawnNiagaraEffect_Implementation, ServerReplicateVariable_Implementation,
      ServerReplicateCustomEvent_Implementation,
      ServerReplicateMotionMatchingDatabase_Implementation,
      ServerReplicatePoseSearchSchema_Implementation,
      ServerReplicateTrajectoryData_Implementation]
  · cases call <;>
      simp [broadcastsOf, ReplicateCall.run, ReplicateAnimation,
        ReplicateAnimationStop, ReplicateSound, ReplicateSoundAtLocation, ReplicateActorSpawn,
        ReplicateActorSpawnAttached, ReplicateNiagaraEffect, ReplicateStringVariable,
        ReplicateFloatVariable, ReplicateIntVariable, ReplicateBoolVariable,
        ReplicateVectorVariable, ReplicateCustomEvent, ReplicateMotionMatchingDatabase,
        ReplicatePoseSearchSchema, ReplicateTrajectoryData, RpcCall.isServer,
        RpcCall.Implementation,
        ServerPlayMontage_Implementation, ServerStopMontage_Implementation,
        ServerPlaySound_Implementation, ServerPlaySoundAtLocation_Implementation,
        ServerSpawnActor_Implementation, ServerSpawnActorAttached_Implementation,
        ServerSpawnNiagaraEffect_Implementation, ServerReplicateVariable_Implementation,
        ServerReplicateCustomEvent_Implementation,
        ServerReplicateMotionMatchingDatabase_Implementation,
        ServerReplicatePoseSearchSchema_Implementation,
        ServerReplicateTrajectoryData_Implementation] <;>
      split <;> simp [RpcCall.isServer, RpcCall.Implementation,
        ServerPlayMontage_Implementation, ServerStopMontage_Implementation,
        ServerPlaySound_Implementation, ServerPlaySoundAtLocation_Implementation,
        ServerSpawnActor_Implementation, ServerSpawnActorAttached_Implementation,
        ServerSpawnNiagaraEffect_Implementation,
        ServerReplicateMotionMatchingDatabase_Implementation,
        ServerReplicatePoseSearchSchema_Implementation]

/-- Witness for C11 (amended): a float variable sent by a client and relayed by the
authority. -/
theorem C11_server_handler_only_forwards_the_broadcast_witness :
    (RpcCall.ServerReplicateVariable "Speed" "1.500000" 1).isServer = true ∧
    ((RpcCall.ServerReplicateVariable "Speed" "1.500000" 1).Implementation
      ⟨none, none, none, some 0, ⟨0, 0, 0⟩, ⟨0, 0, 0⟩, none, none⟩
      ⟨false, 7, 3⟩).self = ⟨false, 7, 3⟩ :=
  ⟨by decide,
   ((C11_server_handler_only_forwards_the_broadcast
      ⟨none, none, none, some 0, ⟨0, 0, 0⟩, ⟨0, 0, 0⟩, none, none⟩ 1 2 construct ⟨false, 7, 3⟩
      (ReplicateCall.ReplicateFloatVariable "Speed" (3 / 2))
      (RpcCall.ServerReplicateVariable "Speed" "1.500000" 1)).1 (by decide)).1⟩

/-- C12: for every event name `n` and payload `d`, `ReplicateCustomEvent(n, d)` made without
authority issues exactly the one call `ServerReplicateCustomEvent(n, d)` and no multicast; the
server handler then issues exactly `MulticastReplicateCustomEvent(n, d)`; and the multicast
handler of an observer broadcasts `OnCustomEventReplicated(n, d)`, name and payload
unchanged. -/
theorem C12_custom_event_reaches_observers_unchanged (engine : Engine) (t : float)
    (client server observer : UNetworkReplicationComponent) (n : FName) (d : FString) :
    (ReplicateCustomEvent ⟨false, t⟩ client n d).rpcs =
      [RpcCall.ServerReplicateCustomEvent n d] ∧
    (ReplicateCustomEvent ⟨false, t⟩ client n d).rpcs.countP RpcCall.isMulticast = 0 ∧
    (ServerReplicateCustomEvent_Implementation server n d).rpcs =
      [RpcCall.MulticastReplicateCustomEvent n d] ∧
    (MulticastReplicateCustomEvent_Implementation observer n d).events =
      [DelegateEvent.OnCustomEventReplicated n d] ∧
    observerEvents engine observer
        (broadcastsOf engine server (ReplicateCustomEvent ⟨false, t⟩ client n d).rpcs) =
      [DelegateEvent.OnCustomEventReplicated n d] := by
  simp [ReplicateCustomEvent, ServerReplicateCustomEvent_Implementation,
    MulticastReplicateCustomEvent_Implementation, observerEvents, broadcastsOf,
    RpcCall.isServer, RpcCall.isMulticast, RpcCall.Implementation]

/-- Witness for C12: the event "Jump" with payload "height=2.0". -/
theorem C12_custom_event_reaches_observers_unchanged_witness :
    (ReplicateCustomEvent ⟨false, 3⟩ construct "Jump" "height=2.0").rpcs =
      [RpcCall.ServerReplicateCustomEvent "Jump" "height=2.0"] ∧
    observerEvents ⟨none, none, none, some 0, ⟨0, 0, 0⟩, ⟨0, 0, 0⟩, none, none⟩ construct
        (broadcastsOf ⟨none, none, none, some 0, ⟨0, 0, 0⟩, ⟨0, 0, 0⟩, none, none⟩ construct
          (ReplicateCustomEvent ⟨false, 3⟩ construct "Jump" "height=2.0").rpcs) =
      [DelegateEvent.OnCustomEventReplicated "Jump" "height=2.0"] :=
  ⟨(C12_custom_event_reaches_observers_unchanged
      ⟨none, none, none, some 0, ⟨0, 0, 0⟩, ⟨0, 0, 0⟩, none, none⟩ 3 construct construct
      construct "Jump" "height=2.0").1,
   (C12_custom_event_reaches_observers_unchanged
      ⟨none, none, none, some 0, ⟨0, 0, 0⟩, ⟨0, 0, 0⟩, none, none⟩ 3 construct construct
      construct "Jump" "height=2.0").2.2.2.2⟩

theorem roundToFloat_two_pow_24_add_one : roundToFloat 16777217 = 16777216 := by
  unfold roundToFloat
  rw [roundBinary_of_exponent 24 (-126) _ 24 (by norm_num) (by norm_num [abs_of_pos])
    (by norm_num [abs_of_pos])]
  rw [roundHalfEven_tie_even _ 8388608 (by norm_num) (by norm_num)]
  norm_num

theorem roundToFloat_double_tenth :
    roundToFloat (3602879701896397 / 36028797018963968) = 13421773 / 134217728 := by
  unfold roundToFloat
  rw [roundBinary_of_exponent 24 (-126) _ (-4) (by norm_num) (by norm_num [abs_of_pos])
    (by norm_num [abs_of_pos])]
  rw [roundHalfEven_eq _ 13421773 (by norm_num) (by norm_num)]
  norm_num

theorem counted_call_timestamp (env : Env) (self : UNetworkReplicationComponent)
    (call : ReplicateCall) (h1 : call.counts = true) (h2 : call.rejected = false) :
    (call.run env self).self.LastReplicationTime = roundToFloat env.TimeSeconds := by
  cases call <;>
    simp_all [Option.isSome_iff_ne_none, Option.isNone_iff_eq_none, ReplicateCall.run,
      ReplicateCall.rejected, ReplicateCall.counts, ReplicateStringVariable,
      ReplicateFloatVariable, ReplicateIntVariable, ReplicateBoolVariable,
      ReplicateVectorVariable, ReplicateCustomEvent, ReplicateMotionMatchingDatabase,
      ReplicatePoseSearchSchema, ReplicateTrajectoryData, recordReplication]

/-- C14 as stated fails: `GetTimeSeconds()` returns a `double` and `LastReplicationTime` is a
`float`. `ReplicateCustomEvent("Jump", "")`, a counting entry point that rejects nothing, called
with authority at world time 16777217 (`2 ^ 24 + 1` seconds) leaves the timestamp 16777216; and
called at the `double` written `0.1` it leaves 13421773/134217728, which is not that
`double`. -/
theorem C14_timestamp_is_not_the_exact_call_time :
    (ReplicateCall.ReplicateCustomEvent "Jump" "").counts = true ∧
    (ReplicateCall.ReplicateCustomEvent "Jump" "").rejected = false ∧
    ((ReplicateCall.ReplicateCustomEvent "Jump" "").run ⟨true, 16777217⟩
      construct).self.LastReplicationTime = 16777216 ∧
    (16777216 : ℚ) ≠ 16777217 ∧
    ((ReplicateCall.ReplicateCustomEvent "Jump" "").run
      ⟨true, 3602879701896397 / 36028797018963968⟩
      construct).self.LastReplicationTime = 13421773 / 134217728 ∧
    (13421773 / 134217728 : ℚ) ≠ 3602879701896397 / 36028797018963968 :=
  ⟨by decide, by decide, roundToFloat_two_pow_24_add_one, by norm_num,
   roundToFloat_double_tenth, by norm_num⟩

/-- C14 (amended): for every accepted call of a counting entry point (variable, custom event,
motion-matching database, pose-search schema, trajectory), `LastReplicationTime` afterwards is
the world time read at the call converted from `double` to `float`, whatever the component held
before: it is the call time itself when that is a `float` value, and for a call time of
magnitude at least `2 ^ -126` and at most `FLT_MAX` it differs from the call time by at most
that magnitude divided by `2 ^ 24`. -/
theorem C14_timestamp_is_the_call_time_as_a_float (env : Env)
    (self : UNetworkReplicationComponent) (call : ReplicateCall) (h1 : call.counts = true)
    (h2 : call.rejected = false) :
    (call.run env self).self.LastReplicationTime = roundToFloat env.TimeSeconds ∧
    (IsFloat env.TimeSeconds →
      (call.run env self).self.LastReplicationTime = env.TimeSeconds) ∧
    (1 / 2 ^ 126 ≤ |env.TimeSeconds| → |env.TimeSeconds| ≤ FLT_MAX →
      |(call.run env self).self.LastReplicationTime - env.TimeSeconds| ≤
        |env.TimeSeconds| / 2 ^ 24) := by
  have h := counted_call_timestamp env self call h1 h2
  refine ⟨h, fun hf => ?_, fun hb _ => ?_⟩
  · rw [h, roundToFloat_of_isFloat _ hf]
  · rw [h]
    exact abs_roundBinary_sub_le 24 (-126) _ (by
      rw [zpow_neg, zpow_ofNat]
      simpa using hb)

/-- Witness for C14: trajectory data replicated at world time 12, which is a `float` value, by
a component whose last timestamp was 4. -/
theorem C14_timestamp_is_the_call_time_as_a_float_witness :
    (ReplicateCall.ReplicateTrajectoryData ⟨1, 2, 3⟩ ⟨0, 90, 0⟩).counts = true ∧
    (ReplicateCall.ReplicateTrajectoryData ⟨1, 2, 3⟩ ⟨0, 90, 0⟩).rejected = false ∧
    IsFloat 12 ∧
    ((ReplicateCall.ReplicateTrajectoryData ⟨1, 2, 3⟩ ⟨0, 90, 0⟩).run ⟨false, 12⟩
      ⟨false, 2, 4⟩).self.LastReplicationTime = 12 :=
  have hf : IsFloat 12 := ⟨12, 0, by norm_num, by norm_num, by norm_num, by norm_num⟩
  ⟨by decide, by decide, hf,
   (C14_timestamp_is_the_call_time_as_a_float ⟨false, 12⟩ ⟨false, 2, 4⟩
     (ReplicateCall.ReplicateTrajectoryData ⟨1, 2, 3⟩ ⟨0, 90, 0⟩) (by decide)
     (by decide)).2.1 hf⟩

theorem RpcCall.Implementation_self (engine : Engine) (self : UNetworkReplicationComponent)
    (r : RpcCall) : (r.Implementation engine self).self = self := by
  cases r <;> simp only [RpcCall.Implementation,
      ServerPlayMontage_Implementation, ServerStopMontage_Implementation,
      ServerPlaySound_Implementation, ServerPlaySoundAtLocation_Implementation,
      ServerSpawnActor_Implementation, ServerSpawnActorAttached_Implementation,
      ServerSpawnNiagaraEffect_Implementation, ServerReplicateVariable_Implementation,
      ServerReplicateCustomEvent_Implementation,
      ServerReplicateMotionMatchingDatabase_Implementation,
      ServerReplicatePoseSearchSchema_Implementation,
      ServerReplicateTrajectoryData_Implementation,
      MulticastPlayMontage_Implementation, MulticastStopMontage_Implementation,
      MulticastPlaySound_Implementation, MulticastPlaySoundAtLocation_Implementation,
      MulticastSpawnActor_Implementation, MulticastSpawnActorAttached_Implementation,
      MulticastSpawnNiagaraEffect_Implementation, MulticastReplicateVariable_Implementation,
      MulticastReplicateCustomEvent_Implementation,
      MulticastReplicateMotionMatchingDatabase_Implementation,
      MulticastReplicatePoseSearchSchema_Implementation,
      MulticastReplicateTrajectoryData_Implementation] <;>
    (repeat' split) <;> rfl

/-- C16: for every engine state, component and arguments, each of the twelve
`Multicast*_Implementation` handlers (the code run once per observer) returns the component
unchanged, so `TotalReplications` and `LastReplicationTime` keep their values, and it calls no
further RPC. -/
theorem C16_multicast_handler_leaves_the_counter (engine : Engine)
    (self : UNetworkReplicationComponent) (r : RpcCall) (h : r.isMulticast = true) :
    (r.Implementation engine self).self.TotalReplications = self.TotalReplications ∧
    (r.Implementation engine self).self.LastReplicationTime = self.LastReplicationTime ∧
    (r.Implementation engine self).rpcs = [] := by
  rw [RpcCall.Implementation_self]
  refine ⟨rfl, rfl, ?_⟩
  cases r <;> simp only [RpcCall.isMulticast] at h <;> try (exact absurd h (by decide))
  all_goals
    simp only [RpcCall.Implementation,
      MulticastPlayMontage_Implementation, MulticastStopMontage_Implementation,
      MulticastPlaySound_Implementation, MulticastPlaySoundAtLocation_Implementation,
      MulticastSpawnActor_Implementation, MulticastSpawnActorAttached_Implementation,
      MulticastSpawnNiagaraEffect_Implementation, MulticastReplicateVariable_Implementation,
      MulticastReplicateCustomEvent_Implementation,
      MulticastReplicateMotionMatchingDatabase_Implementation,
      MulticastReplicatePoseSearchSchema_Implementation,
      MulticastReplicateTrajectoryData_Implementation] <;>
    (repeat' split) <;> rfl

/-- Witness for C16: the variable multicast handled by a component in debug mode that has
counted four replications, last at world time 9. -/
theorem C16_multicast_handler_leaves_the_counter_witness :
    (RpcCall.MulticastReplicateVariable "Health" "100" 0).isMulticast = true ∧
    ((RpcCall.MulticastReplicateVariable "Health" "100" 0).Implementation
      ⟨none, none, none, some 0, ⟨0, 0, 0⟩, ⟨0, 0, 0⟩, none, none⟩
      ⟨true, 4, 9⟩).self.TotalReplications = 4 :=
  ⟨by decide,
   (C16_multicast_handler_leaves_the_counter
      ⟨none, none, none, some 0, ⟨0, 0, 0⟩, ⟨0, 0, 0⟩, none, none⟩ ⟨true, 4, 9⟩
      (RpcCall.MulticastReplicateVariable "Health" "100" 0) (by decide)).1⟩

/-! ## The replication counter across the registry -/

theorem wrapInt32_add_wrapInt32 (a b : Int) :
    wrapInt32 (wrapInt32 a + b) = wrapInt32 (a + b) := by
  unfold wrapInt32 int32; omega

theorem wrapInt32_of_range {x : Int} (h1 : -2147483648 ≤ x) (h2 : x < 2147483648) :
    wrapInt32 x = x := by
  unfold wrapInt32 int32; omega

theorem foldl_totalStep (Components : Nat → UNetworkReplicationComponent) (l : List Ptr)
    (a : Int) :
    l.foldl (totalStep Components) (wrapInt32 a) =
      wrapInt32 (a + (l.map (counterOf Components)).sum) := by
  induction l generalizing a with
  | nil => simp
  | cons x l ih =>
    cases x with
    | none =>
      simp only [List.foldl_cons, totalStep, List.map_cons, List.sum_cons, counterOf, zero_add]
      exact ih a
    | some c =>
      simp only [List.foldl_cons, totalStep, List.map_cons, List.sum_cons, counterOf]
      rw [wrapInt32_add_wrapInt32, ih, add_assoc]

theorem GetTotalReplications_eq_wrapped_total (P : Process) :
    GetTotalReplications P = wrapInt32 (registeredTotal P) := by
  have h := foldl_totalStep P.Components P.Subsystem.RegisteredComponents 0
  rw [wrapInt32_of_range (by norm_num) (by norm_num), zero_add] at h
  exact h

theorem counterOf_update_of_ne (Components : Nat → UNetworkReplicationComponent) (c : Nat)
    (v : UNetworkReplicationComponent) (x : Ptr) (h : x ≠ some c) :
    counterOf (Function.update Components c v) x = counterOf Components x := by
  cases x with
  | none => rfl
  | some d =>
    have hd : d ≠ c := fun e => h (by rw [e])
    simp [counterOf, Function.update_noteq hd]

theorem sum_counterOf_update_of_not_mem (Components : Nat → UNetworkReplicationComponent)
    (c : Nat) (v : UNetworkReplicationComponent) (l : List Ptr) (h : some c ∉ l) :
    (l.map (counterOf (Function.update Components c v))).sum =
      (l.map (counterOf Components)).sum := by
  congr 1
  apply List.map_congr_left
  intro x hx
  exact counterOf_update_of_ne Components c v x (fun e => h (e ▸ hx))

theorem sum_counterOf_update_of_mem (Components : Nat → UNetworkReplicationComponent)
    (c : Nat) (v : UNetworkReplicationComponent) (l : List Ptr) (hl : l.Nodup)
    (h : some c ∈ l) :
    (l.map (counterOf (Function.update Components c v))).sum =
      (l.map (counterOf Components)).sum +
        (v.TotalReplications - (Components c).TotalReplications) := by
  induction l with
  | nil => cases h
  | cons x l ih =>
    obtain ⟨hx, hl2⟩ := List.nodup_cons.mp hl
    simp only [List.map_cons, List.sum_cons]
    by_cases hxc : x = some c
    · subst hxc
      rw [sum_counterOf_update_of_not_mem Components c v l hx]
      simp only [counterOf, Function.update_same]
      unfold int32
      ring
    · have hmem : some c ∈ l := by
        rcases List.mem_cons.mp h with e | e
        · exact absurd e.symm hxc
        · exact e
      rw [ih hl2 hmem, counterOf_update_of_ne Components c v x hxc]
      unfold int32
      ring

theorem run_self_of_counts (env : Env) (self : UNetworkReplicationComponent)
    (call : ReplicateCall) (h1 : call.counts = true) (h2 : call.rejected = false) :
    (call.run env self).self = recordReplication env self := by
  cases call <;>
    simp_all [Option.isSome_iff_ne_none, Option.isNone_iff_eq_none, ReplicateCall.run,
      ReplicateCall.rejected, ReplicateCall.counts, ReplicateStringVariable,
      ReplicateFloatVariable, ReplicateIntVariable, ReplicateBoolVariable,
      ReplicateVectorVariable, ReplicateCustomEvent, ReplicateMotionMatchingDatabase,
      ReplicatePoseSearchSchema, ReplicateTrajectoryData]

theorem counts_of_isVariable (call : ReplicateCall) (h : call.isVariable = true) :
    call.counts = true ∧ call.rejected = false := by
  cases call <;> simp_all [ReplicateCall.isVariable, ReplicateCall.counts, ReplicateCall.rejected]

theorem run_self_cases (env : Env) (self : UNetworkReplicationComponent)
    (call : ReplicateCall) :
    (call.run env self).self = self ∨ (call.run env self).self = recordReplication env self := by
  cases call <;> simp only [ReplicateCall.run, ReplicateAnimation,
      ReplicateAnimationStop, ReplicateSound, ReplicateSoundAtLocation, ReplicateActorSpawn,
      ReplicateActorSpawnAttached, ReplicateNiagaraEffect, ReplicateStringVariable,
      ReplicateFloatVariable, ReplicateIntVariable, ReplicateBoolVariable,
      ReplicateVectorVariable, ReplicateCustomEvent, ReplicateMotionMatchingDatabase,
      ReplicatePoseSearchSchema, ReplicateTrajectoryData] <;>
    (repeat' split) <;> first | exact Or.inl rfl | exact Or.inr rfl | simp

theorem runOps_registerOps (cs : List Nat) (P : Process) (hcs : cs.Nodup)
    (hnew : ∀ c ∈ cs, some c ∉ P.Subsystem.RegisteredComponents) :
    (P.runOps (registerOps cs)).Subsystem.RegisteredComponents =
      P.Subsystem.RegisteredComponents ++ cs.map some ∧
    (P.runOps (registerOps cs)).Components = P.Components := by
  induction cs generalizing P with
  | nil => simp [registerOps, Process.runOps]
  | cons c cs ih =>
    have hc : some c ∉ P.Subsystem.RegisteredComponents := hnew c (List.mem_cons_self _ _)
    obtain ⟨hc2, hcs2⟩ := List.nodup_cons.mp hcs
    have hreg : (RegisterReplicationComponent P (some c)).Subsystem.RegisteredComponents =
        P.Subsystem.RegisteredComponents ++ [some c] := by
      simp [RegisterReplicationComponent, Process.UE_LOG, TArray.AddUnique, hc]
    have hcomp : (RegisterReplicationComponent P (some c)).Components = P.Components := by
      simp [RegisterReplicationComponent, Process.UE_LOG]
    have := ih (RegisterReplicationComponent P (some c)) hcs2 (by
      intro d hd
      rw [hreg]
      simp only [List.mem_append, List.mem_singleton, Option.some.injEq, not_or]
      exact ⟨hnew d (List.mem_cons_of_mem _ hd), fun e => hc2 (e ▸ hd)⟩)
    simp only [registerOps, List.map_cons, Process.runOps, List.foldl_cons, Op.run,
      SubsystemOp.run] at this ⊢
    rw [this.1, this.2, hreg, hcomp]
    simp

theorem runOps_authorityOps (calls : List (Nat × float × ReplicateCall)) (P : Process)
    (hnodup : P.Subsystem.RegisteredComponents.Nodup)
    (hcalls : ∀ x ∈ calls, some x.1 ∈ P.Subsystem.RegisteredComponents ∧
      x.2.2.isVariable = true) :
    (P.runOps (authorityOps calls)).Subsystem = P.Subsystem ∧
    wrapInt32 (registeredTotal (P.runOps (authorityOps calls))) =
      wrapInt32 (registeredTotal P + calls.length) := by
  induction calls generalizing P with
  | nil => simp [authorityOps, Process.runOps]
  | cons x calls ih =>
    obtain ⟨hx1, hx2⟩ := hcalls x (List.mem_cons_self _ _)
    obtain ⟨hc, hr⟩ := counts_of_isVariable _ hx2
    have hsub : (P.Replicate x.1 ⟨true, x.2.1⟩ x.2.2).Subsystem = P.Subsystem := rfl
    have htot : registeredTotal (P.Replicate x.1 ⟨true, x.2.1⟩ x.2.2) =
        registeredTotal P + (wrapInt32 ((P.Components x.1).TotalReplications + 1) -
          (P.Components x.1).TotalReplications) := by
      simp only [registeredTotal, Process.Replicate, Process.apply,
        run_self_of_counts _ _ _ hc hr]
      rw [sum_counterOf_update_of_mem _ _ _ _ hnodup hx1]
      rfl
    have := ih (P.Replicate x.1 ⟨true, x.2.1⟩ x.2.2) (by rw [hsub]; exact hnodup) (by
      intro y hy
      rw [hsub]
      exact hcalls y (List.mem_cons_of_mem _ hy))
    simp only [authorityOps, List.map_cons, Process.runOps, List.foldl_cons, Op.run] at this ⊢
    refine ⟨this.1.trans hsub, ?_⟩
    rw [this.2, htot]
    simp only [List.length_cons]
    push_cast
    generalize registeredTotal P = S
    generalize (P.Components x.1).TotalReplications = t
    generalize (calls.length : Int) = k
    unfold wrapInt32 int32
    omega

theorem initial_registered : Process.initial.Subsystem.RegisteredComponents = [] := rfl

theorem total_after_calls (cs : List Nat) (calls : List (Nat × float × ReplicateCall))
    (hcs : cs.Nodup) (hcalls : ∀ x ∈ calls, x.1 ∈ cs ∧ x.2.2.isVariable = true) :
    GetTotalReplications (Process.initial.runOps (registerOps cs ++ authorityOps calls)) =
      wrapInt32 calls.length ∧
    GetActiveReplicationCount
      (Process.initial.runOps (registerOps cs ++ authorityOps calls)) = cs.length := by
  have h1 := runOps_registerOps cs Process.initial hcs (by simp [initial_registered])
  rw [initial_registered, List.nil_append] at h1
  have h2 := runOps_authorityOps calls (Process.initial.runOps (registerOps cs))
    (by rw [h1.1]; exact hcs.map (fun a b h => Option.some.inj h))
    (by
      intro x hx
      rw [h1.1]
      exact ⟨List.mem_map_of_mem _ (hcalls x hx).1, (hcalls x hx).2⟩)
  have hsplit : Process.initial.runOps (registerOps cs ++ authorityOps calls) =
      (Process.initial.runOps (registerOps cs)).runOps (authorityOps calls) := by
    simp [Process.runOps, List.foldl_append]
  have h0 : registeredTotal (Process.initial.runOps (registerOps cs)) = 0 := by
    simp only [registeredTotal, h1.1, h1.2, List.map_map]
    apply List.sum_eq_zero
    intro y hy
    simp only [List.mem_map] at hy
    obtain ⟨c, _, rfl⟩ := hy
    rfl
  rw [hsplit]
  constructor
  · rw [GetTotalReplications_eq_wrapped_total, h2.2, h0, zero_add]
  · simp [GetActiveReplicationCount, TArray.Num, h2.1, h1.1]

/-- C13 as stated fails for large `k`: after registering the one component 0 and making
`k = 2147483648` string-variable calls on it as authority, `GetTotalReplications()` is
`-2147483648`, not `k`; no `int32` equals this `k`. -/
theorem C13_total_wraps_at_two_to_the_31 :
    GetTotalReplications
        (Process.initial.runOps (registerOps [0] ++
          authorityOps (List.replicate 2147483648
            (0, 1, ReplicateCall.ReplicateStringVariable "Health" "100")))) = -2147483648 ∧
    ((List.replicate 2147483648
      ((0 : Nat), (1 : float), ReplicateCall.ReplicateStringVariable "Health" "100")).length
        : Int) = 2147483648 := by
  have h := (total_after_calls [0]
    (List.replicate 2147483648 (0, 1, ReplicateCall.ReplicateStringVariable "Health" "100"))
    (List.nodup_singleton 0)
    (by
      intro x hx
      rw [List.eq_of_mem_replicate hx]
      exact ⟨List.mem_singleton_self 0, rfl⟩)).1
  rw [List.length_replicate] at h
  refine ⟨h.trans (by decide), ?_⟩
  rw [List.length_replicate]
  rfl

/-- C13 (amended): from the freshly initialised subsystem and components as constructed, after
registering the `n` distinct components `cs` and then making `k` variable-replication calls as
authority on registered components, with `k < 2147483648`, `GetTotalReplications()` is `k` and
`GetActiveReplicationCount()` is `n`. In every state `GetTotalReplications()` is the sum of
`TotalReplications` over the registered components wrapped into the `int32` range, hence the
sum itself whenever the sum fits in an `int32`. -/
theorem C13_total_is_the_number_of_calls (cs : List Nat)
    (calls : List (Nat × float × ReplicateCall))
    (hcs : cs.Nodup) (hcalls : ∀ x ∈ calls, x.1 ∈ cs ∧ x.2.2.isVariable = true)
    (hk : calls.length < 2147483648) :
    GetTotalReplications (Process.initial.runOps (registerOps cs ++ authorityOps calls)) =
      calls.length ∧
    GetActiveReplicationCount
      (Process.initial.runOps (registerOps cs ++ authorityOps calls)) = cs.length ∧
    (∀ P : Process, GetTotalReplications P = wrapInt32 (registeredTotal P)) ∧
    (∀ P : Process, -2147483648 ≤ registeredTotal P → registeredTotal P < 2147483648 →
      GetTotalReplications P = registeredTotal P) := by
  obtain ⟨h1, h2⟩ := total_after_calls cs calls hcs hcalls
  refine ⟨?_, h2, GetTotalReplications_eq_wrapped_total, ?_⟩
  · rw [h1]
    exact wrapInt32_of_range (by omega) (by omega)
  · intro P ha hb
    rw [GetTotalReplications_eq_wrapped_total]
    exact wrapInt32_of_range ha hb

/-- Witness for C13 (amended): three components and five variable calls, one of each kind. -/
theorem C13_total_is_the_number_of_calls_witness :
    ([0, 1, 2] : List Nat).Nodup ∧
    GetTotalReplications (Process.initial.runOps (registerOps [0, 1, 2] ++ authorityOps
      [(0, 1, .ReplicateStringVariable "Name" "Ann"), (1, 2, .ReplicateFloatVariable "Speed" 3),
       (2, 3, .ReplicateIntVariable "Ammo" 7), (0, 4, .ReplicateBoolVariable "Alive" true),
       (1, 5, .ReplicateVectorVariable "Goal" ⟨1, 2, 3⟩)])) = 5 ∧
    GetActiveReplicationCount (Process.initial.runOps (registerOps [0, 1, 2] ++ authorityOps
      [(0, 1, .ReplicateStringVariable "Name" "Ann"), (1, 2, .ReplicateFloatVariable "Speed" 3),
       (2, 3, .ReplicateIntVariable "Ammo" 7), (0, 4, .ReplicateBoolVariable "Alive" true),
       (1, 5, .ReplicateVectorVariable "Goal" ⟨1, 2, 3⟩)])) = 3 :=
  have h := C13_total_is_the_number_of_calls [0, 1, 2]
      [(0, 1, .ReplicateStringVariable "Name" "Ann"), (1, 2, .ReplicateFloatVariable "Speed" 3),
       (2, 3, .ReplicateIntVariable "Ammo" 7), (0, 4, .ReplicateBoolVariable "Alive" true),
       (1, 5, .ReplicateVectorVariable "Goal" ⟨1, 2, 3⟩)]
      (by decide) (by simp [ReplicateCall.isVariable]) (by decide)
  ⟨by decide, h.1, h.2.1⟩

theorem subsystemOp_components (P : Process) (op : SubsystemOp)
    (h : op ≠ SubsystemOp.ResetReplicationStats) : (op.run P).Components = P.Components := by
  cases op
  case ResetReplicationStats => exact absurd rfl h
  all_goals
    simp only [SubsystemOp.run, Initialize, Deinitialize,
      RegisterReplicationComponent, UnregisterReplicationComponent, OnComponentDestroyed,
      SetReplicationSettings, OptimizeReplication, ShowNetworkStats,
      ExportReplicationData, OptimizeForBandwidth, SetReplicationDistance,
      EnableRelevancyCulling, StartNetworkProfiling, StopNetworkProfiling,
      SimulateNetworkConditions, ResetNetworkSimulation, RegisterConsoleCommands,
      UnregisterConsoleCommands, EnableClientPrediction, SetPredictionTolerance,
      SetInterestRadius, AddInterestActor, RemoveInterestActor, StartPerformanceMonitoring,
      StopPerformanceMonitoring, SetPerformanceThresholds, StartLatencyMeasurement,
      StopLatencyMeasurement, StartBandwidthMonitoring, StopBandwidthMonitoring,
      SimulatePacketLoss, SimulateLatency, SimulateBandwidthLimit, ResetAllSimulations,
      Process.UE_LOG]
    repeat' split
    all_goals rfl

theorem op_components_cases (P : Process) (op : Op)
    (h : op ≠ Op.Subsystem SubsystemOp.ResetReplicationStats) :
    (op.run P).Components = P.Components ∨
    ∃ this v, (op.run P).Components = Function.update P.Components this v ∧
      (v.TotalReplications = (P.Components this).TotalReplications ∨
       v.TotalReplications = wrapInt32 ((P.Components this).TotalReplications + 1)) := by
  cases op with
  | Subsystem op =>
    exact Or.inl (subsystemOp_components P op (fun e => h (by rw [e])))
  | BeginPlay this b =>
    left
    simp only [Op.run, UNetworkReplicationComponent.BeginPlay, RegisterReplicationComponent,
      Process.UE_LOG]
    repeat' split
    all_goals rfl
  | EndPlay this => exact Or.inl rfl
  | Replicate this env call =>
    right
    refine ⟨this, (call.run env (P.Components this)).self, rfl, ?_⟩
    rcases run_self_cases env (P.Components this) call with e | e
    · exact Or.inl (by rw [e])
    · exact Or.inr (by rw [e]; rfl)
  | EnableDebugLogging this b =>
    exact Or.inr ⟨this, _, rfl, Or.inl rfl⟩
  | LogReplicationEvent this n =>
    exact Or.inr ⟨this, _, rfl, Or.inl rfl⟩

theorem counterOf_le_sum (Components : Nat → UNetworkReplicationComponent) (l : List Ptr)
    (h0 : ∀ c, 0 ≤ (Components c).TotalReplications) (c : Nat) (hc : some c ∈ l) :
    (Components c).TotalReplications ≤ (l.map (counterOf Components)).sum := by
  have hnn : ∀ x ∈ l.map (counterOf Components), (0 : Int) ≤ x := by
    intro x hx
    simp only [List.mem_map] at hx
    obtain ⟨p, _, rfl⟩ := hx
    cases p with
    | none => exact le_refl _
    | some d => exact h0 d
  exact List.single_le_sum hnn _ (List.mem_map_of_mem (counterOf Components) hc)

/-- C15 as stated fails: with component 0 registered and one custom event replicated, the
counter of component 0 and `GetTotalReplications()` are 1, and after `ResetReplicationStats()`
both are 0; and on a component whose counter is 2147483647 one more `ReplicateCustomEvent`
leaves the counter at -2147483648. -/
theorem C15_reset_and_overflow_lower_the_counter :
    ((Process.initial.runOps
        [Op.Subsystem (.RegisterReplicationComponent (some 0)),
         Op.Replicate 0 ⟨true, 1⟩ (.ReplicateCustomEvent "Jump" "")]).Components
      0).TotalReplications = 1 ∧
    ((Process.initial.runOps
        [Op.Subsystem (.RegisterReplicationComponent (some 0)),
         Op.Replicate 0 ⟨true, 1⟩ (.ReplicateCustomEvent "Jump" ""),
         Op.Subsystem .ResetReplicationStats]).Components 0).TotalReplications = 0 ∧
    GetTotalReplications (Process.initial.runOps
        [Op.Subsystem (.RegisterReplicationComponent (some 0)),
         Op.Replicate 0 ⟨true, 1⟩ (.ReplicateCustomEvent "Jump" "")]) = 1 ∧
    GetTotalReplications (Process.initial.runOps
        [Op.Subsystem (.RegisterReplicationComponent (some 0)),
         Op.Replicate 0 ⟨true, 1⟩ (.ReplicateCustomEvent "Jump" ""),
         Op.Subsystem .ResetReplicationStats]) = 0 ∧
    (ReplicateCustomEvent ⟨true, 1⟩ ⟨false, 2147483647, 0⟩ "Jump" "").self.TotalReplications =
      -2147483648 := by
  decide

/-- C15 (amended): every call on the subsystem or on a component other than
`ResetReplicationStats` leaves the `TotalReplications` of each component whose counter is below
2147483647 at least as large as it was; and when the registered array has no duplicate and is
the same before and after, all counters are non-negative and the sum over the registered
components is below 2147483647, the call leaves `GetTotalReplications()` at least as large as
it was. -/
theorem C15_counter_does_not_decrease_without_reset (P : Process) (op : Op)
    (hop : op ≠ Op.Subsystem SubsystemOp.ResetReplicationStats) :
    (∀ c, (P.Components c).TotalReplications < 2147483647 →
      (P.Components c).TotalReplications ≤ ((op.run P).Components c).TotalReplications) ∧
    (P.Subsystem.RegisteredComponents.Nodup →
      (op.run P).Subsystem.RegisteredComponents = P.Subsystem.RegisteredComponents →
      (∀ c, 0 ≤ (P.Components c).TotalReplications) →
      registeredTotal P < 2147483647 →
      GetTotalReplications P ≤ GetTotalReplications (op.run P)) := by
  constructor
  · intro c hc
    rcases op_components_cases P op hop with e | ⟨this, v, e, hv⟩
    · rw [e]
    · rw [e]
      by_cases hthis : c = this
      · subst hthis
        rw [Function.update_same]
        rcases hv with hv | hv
        · rw [hv]
        · rw [hv]
          generalize (P.Components c).TotalReplications = t at hc ⊢
          unfold wrapInt32 int32 at *
          omega
      · rw [Function.update_noteq hthis]
  · intro hnodup hreg h0 hsum
    have hsum0 : 0 ≤ registeredTotal P := by
      apply List.sum_nonneg
      intro x hx
      simp only [List.mem_map] at hx
      obtain ⟨p, _, rfl⟩ := hx
      cases p with
      | none => exact le_refl _
      | some d => exact h0 d
    rw [GetTotalReplications_eq_wrapped_total, GetTotalReplications_eq_wrapped_total,
      wrapInt32_of_range (x := registeredTotal P) (by omega) (by omega)]
    rcases op_components_cases P op hop with e | ⟨this, v, e, hv⟩
    · have : registeredTotal (op.run P) = registeredTotal P := by
        simp only [registeredTotal, hreg, e]
      rw [this, wrapInt32_of_range (by omega) (by omega)]
    · by_cases hmem : some this ∈ P.Subsystem.RegisteredComponents
      · have hle := counterOf_le_sum P.Components _ h0 this hmem
        have htot : registeredTotal (op.run P) =
            registeredTotal P + (v.TotalReplications - (P.Components this).TotalReplications)
            := by
          simp only [registeredTotal, hreg, e]
          exact sum_counterOf_update_of_mem _ _ _ _ hnodup hmem
        have h0t := h0 this
        change (P.Components this).TotalReplications ≤ registeredTotal P at hle
        rw [htot]
        rcases hv with hv | hv
        · rw [hv, sub_self, add_zero, wrapInt32_of_range (by omega) (by omega)]
        · rw [hv]
          generalize (P.Components this).TotalReplications = t at hle h0t ⊢
          generalize registeredTotal P = S at hle hsum hsum0 ⊢
          unfold wrapInt32 int32 at *
          omega
      · have : registeredTotal (op.run P) = registeredTotal P := by
          simp only [registeredTotal, hreg, e]
          exact sum_counterOf_update_of_not_mem _ _ _ _ hmem
        rw [this, wrapInt32_of_range (by omega) (by omega)]

/-- Witness for C15 (amended): a custom event replicated on the registered component 0. -/
theorem C15_counter_does_not_decrease_without_reset_witness :
    Op.Replicate 0 ⟨true, 1⟩ (.ReplicateCustomEvent "Jump" "") ≠
      Op.Subsystem SubsystemOp.ResetReplicationStats ∧
    ((RegisterReplicationComponent Process.initial (some 0)).Components 0).TotalReplications ≤
      (((Op.Replicate 0 ⟨true, 1⟩ (.ReplicateCustomEvent "Jump" "")).run
        (RegisterReplicationComponent Process.initial (some 0))).Components
          0).TotalReplications :=
  ⟨by decide,
   (C15_counter_does_not_decrease_without_reset
      (RegisterReplicationComponent Process.initial (some 0))
      (Op.Replicate 0 ⟨true, 1⟩ (.ReplicateCustomEvent "Jump" "")) (by decide)).1 0
      (by decide)⟩

/-! ## The settings object -/

/-- C17: for every process state and every settings value `s`, `GetReplicationSettings()`
after `SetReplicationSettings(s)` returns `s`, equal in every field, whatever the settings
were before. -/
theorem C17_get_after_set_returns_the_settings (P : Process)
    (Settings : FNetworkReplicationSettings) :
    GetReplicationSettings (SetReplicationSettings P Settings) = Settings := rfl

/-- C18 as stated fails: from the freshly initialised subsystem, `SetReplicationDistance(5)`
and `SetInterestRadius(7)` change `MaxReplicationDistance` from 15000, `EnableRelevancyCulling`
and `EnableClientPrediction` with `false` clear their flags, `SetPredictionTolerance(3)` changes
`PredictionTolerance` from 0.1, and `OptimizeForBandwidth(-1)` changes `ReplicationInterval`
from 0.05 to 0.1. -/
theorem C18_field_setters_change_the_settings :
    (GetReplicationSettings Process.initial).MaxReplicationDistance = 15000 ∧
    (GetReplicationSettings (SetReplicationDistance Process.initial 5)).MaxReplicationDistance
      = 5 ∧
    (GetReplicationSettings (SetInterestRadius Process.initial 7)).MaxReplicationDistance = 7 ∧
    (GetReplicationSettings Process.initial).bEnableRelevancy = true ∧
    (GetReplicationSettings (EnableRelevancyCulling Process.initial false)).bEnableRelevancy
      = false ∧
    (GetReplicationSettings Process.initial).bEnableClientPrediction = true ∧
    (GetReplicationSettings
      (EnableClientPrediction Process.initial false)).bEnableClientPrediction = false ∧
    (GetReplicationSettings Process.initial).PredictionTolerance = 1 / 10 ∧
    (GetReplicationSettings (SetPredictionTolerance Process.initial 3)).PredictionTolerance
      = 3 ∧
    (GetReplicationSettings Process.initial).ReplicationInterval = 5 / 100 ∧
    (GetReplicationSettings (OptimizeForBandwidth Process.initial (-1))).ReplicationInterval
      = 1 / 10 := by
  refine ⟨rfl, rfl, rfl, rfl, rfl, rfl, rfl, rfl, rfl, rfl, ?_⟩
  have hb : GetReplicationBandwidth Process.initial = 0 := by
    simp [GetReplicationBandwidth, TArray.Num, Process.initial, Initialize, Process.UE_LOG,
      Process.fresh, UNetworkReplicationSubsystem.construct]
  have hi : Process.initial.Subsystem.CurrentSettings.ReplicationInterval = 5 / 100 := rfl
  simp only [OptimizeForBandwidth, hb, GetReplicationSettings]
  norm_num [Process.UE_LOG, hi]

theorem settings_kept_of_not_writesSettings (P : Process) (op : SubsystemOp) (h : op.writesSettings = false) :
    GetReplicationSettings (op.run P) = GetReplicationSettings P := by
  cases op <;> simp only [SubsystemOp.writesSettings] at h <;>
    try (exact absurd h (by decide))
  all_goals
    simp only [GetReplicationSettings, SubsystemOp.run, Initialize, Deinitialize,
      RegisterReplicationComponent, UnregisterReplicationComponent, OnComponentDestroyed,
      OptimizeReplication, ShowNetworkStats,
      ExportReplicationData, ResetReplicationStats,
      StartNetworkProfiling, StopNetworkProfiling,
      SimulateNetworkConditions, ResetNetworkSimulation, RegisterConsoleCommands,
      UnregisterConsoleCommands, AddInterestActor, RemoveInterestActor,
      StartPerformanceMonitoring,
      StopPerformanceMonitoring, SetPerformanceThresholds, StartLatencyMeasurement,
      StopLatencyMeasurement, StartBandwidthMonitoring, StopBandwidthMonitoring,
      SimulatePacketLoss, SimulateLatency, SimulateBandwidthLimit, ResetAllSimulations,
      Process.UE_LOG]
    repeat' split
    all_goals rfl

/-- C18 (amended): every subsystem call other than `SetReplicationSettings`,
`SetReplicationDistance`, `SetInterestRadius`, `EnableRelevancyCulling`,
`EnableClientPrediction`, `SetPredictionTolerance` and `OptimizeForBandwidth` leaves
`GetReplicationSettings()` unchanged; of those, the five setters assign exactly one field
(`MaxReplicationDistance`, `MaxReplicationDistance`, `bEnableRelevancy`,
`bEnableClientPrediction`, `PredictionTolerance`) and `OptimizeForBandwidth` either changes
nothing or assigns `ReplicationInterval` only. -/
theorem C18_settings_change_only_through_their_setters (P : Process) (op : SubsystemOp)
    (x : float) (b : Bool) :
    (op.writesSettings = false →
      GetReplicationSettings (op.run P) = GetReplicationSettings P) ∧
    GetReplicationSettings (SetReplicationDistance P x) =
      { GetReplicationSettings P with MaxReplicationDistance := x } ∧
    GetReplicationSettings (SetInterestRadius P x) =
      { GetReplicationSettings P with MaxReplicationDistance := x } ∧
    GetReplicationSettings (EnableRelevancyCulling P b) =
      { GetReplicationSettings P with bEnableRelevancy := b } ∧
    GetReplicationSettings (EnableClientPrediction P b) =
      { GetReplicationSettings P with bEnableClientPrediction := b } ∧
    GetReplicationSettings (SetPredictionTolerance P x) =
      { GetReplicationSettings P with PredictionTolerance := x } ∧
    (GetReplicationSettings (OptimizeForBandwidth P x) = GetReplicationSettings P ∨
      GetReplicationSettings (OptimizeForBandwidth P x) =
        { GetReplicationSettings P with
          ReplicationInterval :=
            max (1 / 10) ((GetReplicationSettings P).ReplicationInterval * (3 / 2)) }) := by
  refine ⟨settings_kept_of_not_writesSettings P op, rfl, rfl, rfl, rfl, rfl, ?_⟩
  simp only [OptimizeForBandwidth]
  split
  · exact Or.inr rfl
  · exact Or.inl rfl

/-- Witness for C18 (amended): `SimulateLatency(5)` leaves the settings of the freshly
initialised subsystem as they are. -/
theorem C18_settings_change_only_through_their_setters_witness :
    (SubsystemOp.SimulateLatency 5).writesSettings = false ∧
    GetReplicationSettings ((SubsystemOp.SimulateLatency 5).run Process.initial) =
      GetReplicationSettings Process.initial :=
  ⟨by decide,
   (C18_settings_change_only_through_their_setters Process.initial
      (SubsystemOp.SimulateLatency 5) 0 false).1 (by decide)⟩

/-! ## The history averages -/

/-- C20: for any two process states that differ only in `SimulatedLatency`,
`SimulatedPacketLoss` and `SimulatedBandwidthLimit`, every query of the subsystem (settings,
counts, bandwidth, the latency and bandwidth getters and averages, prediction flag, threshold
check, relevancy, insights and performance report) returns the same result in both, every
`Replicate*` call on a component has the same effects in both, and the states after such a
call again differ only in those three fields. -/
theorem C20_simulation_fields_are_inert (P Q : Process)
    (Latency PacketLoss BandwidthLimit : float)
    (h : Q = P.withSimulation Latency PacketLoss BandwidthLimit) :
    GetReplicationSettings Q = GetReplicationSettings P ∧
    GetActiveReplicationCount Q = GetActiveReplicationCount P ∧
    GetReplicationBandwidth Q = GetReplicationBandwidth P ∧
    GetTotalReplications Q = GetTotalReplications P ∧
    GetAverageLatency Q = GetAverageLatency P ∧
    IsPredictionEnabled Q = IsPredictionEnabled P ∧
    IsPerformanceWithinThresholds Q = IsPerformanceWithinThresholds P ∧
    GetCurrentLatency Q = GetCurrentLatency P ∧
    GetCurrentBandwidthUsage Q = GetCurrentBandwidthUsage P ∧
    GetNetworkInsights Q = GetNetworkInsights P ∧
    GetDetailedPerformanceReport Q = GetDetailedPerformanceReport P ∧
    (∀ w, GetAverageLatencyOverTime Q w = GetAverageLatencyOverTime P w) ∧
    (∀ w, GetBandwidthUsageOverTime Q w = GetBandwidthUsageOverTime P w) ∧
    (∀ Actor Player, IsActorRelevantToPlayer Q Actor Player =
      IsActorRelevantToPlayer P Actor Player) ∧
    (∀ (this : Nat) (env : Env) (call : ReplicateCall),
      call.run env (Q.Components this) = call.run env (P.Components this)) ∧
    (∀ (this : Nat) (env : Env) (call : ReplicateCall), Q.Replicate this env call =
      (P.Replicate this env call).withSimulation Latency PacketLoss BandwidthLimit) := by
  subst h
  refine ⟨rfl, rfl, rfl, rfl, rfl, rfl, rfl, rfl, rfl, rfl, rfl, fun _ => rfl, fun _ => rfl,
    fun _ _ => rfl, fun _ _ _ => rfl, fun _ _ _ => rfl⟩

/-- Witness for C20: the freshly initialised process against the same process with simulated
latency 50, packet loss 10 and bandwidth limit 100. -/
theorem C20_simulation_fields_are_inert_witness :
    Process.initial.withSimulation 50 10 100 = Process.initial.withSimulation 50 10 100 ∧
    GetNetworkInsights (Process.initial.withSimulation 50 10 100) =
      GetNetworkInsights Process.initial :=
  ⟨rfl,
   (C20_simulation_fields_are_inert Process.initial (Process.initial.withSimulation 50 10 100)
      50 10 100 rfl).2.2.2.2.2.2.2.2.2.1⟩

/-! ## The latency fields -/

theorem neverSampled_subsystemOp (P : Process) (op : SubsystemOp) (h : NeverSampled P) :
    NeverSampled (op.run P) := by
  obtain ⟨h1, h2⟩ := h
  cases op
  all_goals
    simp only [NeverSampled, SubsystemOp.run, Initialize, Deinitialize,
      RegisterReplicationComponent, UnregisterReplicationComponent, OnComponentDestroyed,
      SetReplicationSettings, OptimizeReplication, ShowNetworkStats,
      ExportReplicationData, ResetReplicationStats, OptimizeForBandwidth,
      SetReplicationDistance,
      EnableRelevancyCulling, StartNetworkProfiling, StopNetworkProfiling,
      SimulateNetworkConditions, ResetNetworkSimulation, RegisterConsoleCommands,
      UnregisterConsoleCommands, EnableClientPrediction, SetPredictionTolerance,
      SetInterestRadius, AddInterestActor, RemoveInterestActor, StartPerformanceMonitoring,
      StopPerformanceMonitoring, SetPerformanceThresholds, StartLatencyMeasurement,
      StopLatencyMeasurement, StartBandwidthMonitoring, StopBandwidthMonitoring,
      SimulatePacketLoss, SimulateLatency, SimulateBandwidthLimit, ResetAllSimulations,
      Process.UE_LOG, TArray.Empty]
    repeat' split
    all_goals first | exact ⟨h1, h2⟩ | exact ⟨rfl, h2⟩ | exact ⟨rfl, rfl⟩ | simp [h1, h2]

theorem neverSampled_op (P : Process) (op : Op) (h : NeverSampled P) :
    NeverSampled (op.run P) := by
  cases op with
  | Subsystem op => exact neverSampled_subsystemOp P op h
  | BeginPlay this b =>
    simp only [Op.run, UNetworkReplicationComponent.BeginPlay, RegisterReplicationComponent,
      Process.UE_LOG, NeverSampled]
    repeat' split
    all_goals exact h
  | EndPlay this => exact h
  | Replicate this env call => exact h
  | EnableDebugLogging this b => exact h
  | LogReplicationEvent this n => exact h

theorem neverSampled_runOps (ops : List Op) (P : Process) (h : NeverSampled P) :
    NeverSampled (P.runOps ops) := by
  induction ops generalizing P with
  | nil => exact h
  | cons op ops ih => exact ih _ (neverSampled_op P op h)

theorem neverSampled_initial : NeverSampled Process.initial := ⟨rfl, rfl⟩

/-- C21: in every state reached from the freshly initialised subsystem by any sequence of
calls on the subsystem and on component objects (the simulation setters, the measurement
switches and the `Replicate*` calls included, with any arguments), `GetCurrentLatency()`
returns 0, `LatencyHistory` is empty and `GetAverageLatencyOverTime` returns 0 for every
window. -/
theorem C21_latency_is_never_sampled (ops : List Op) (w : float) :
    GetCurrentLatency (Process.initial.runOps ops) = 0 ∧
    (Process.initial.runOps ops).Subsystem.LatencyHistory = [] ∧
    GetAverageLatencyOverTime (Process.initial.runOps ops) w = 0 := by
  obtain ⟨h1, h2⟩ := neverSampled_runOps ops _ neverSampled_initial
  exact ⟨h1, h2, by simp [GetAverageLatencyOverTime, h2, TArray.Num]⟩

/-! ## Relevancy -/

theorem Dist_three_four : FVector.Dist ⟨0, 0, 0⟩ ⟨3, 4, 0⟩ = 5 := by
  have h0 : roundToDouble 0 = 0 := roundBinary_zero _ _
  have h3 : roundToDouble 3 = 3 := by simpa using roundToDouble_intCast 3 (by norm_num)
  have h4 : roundToDouble 4 = 4 := by simpa using roundToDouble_intCast 4 (by norm_num)
  have h9 : roundToDouble 9 = 9 := by simpa using roundToDouble_intCast 9 (by norm_num)
  have h16 : roundToDouble 16 = 16 := by simpa using roundToDouble_intCast 16 (by norm_num)
  have h25 : roundToDouble 25 = 25 := by simpa using roundToDouble_intCast 25 (by norm_num)
  have hd : FVector.DistSquared ⟨0, 0, 0⟩ ⟨3, 4, 0⟩ = 25 := by
    norm_num [FVector.DistSquared, FMath.Square, h0, h3, h4, h9, h16, h25]
  rw [FVector.Dist, hd, FMath.Sqrt,
    sqrtBinary_of_exponent 53 (-1022) _ 2 (by norm_num) (by norm_num) (by norm_num)]
  have h : (25 : ℚ) / (2 ^ ((2 : Int) - ((53 : Nat) - 1))) ^ 2 =
      ((5629499534213120 : Nat) : ℚ) ^ 2 := by norm_num
  rw [h, roundSqrt_sq]
  norm_num

theorem Dist_boundary : FVector.Dist ⟨15000 + 1 / 4096, 0, 0⟩ ⟨0, 0, 0⟩ = 15000 + 1 / 4096 := by
  have h0 : roundToDouble 0 = 0 := roundBinary_zero _ _
  have hx : roundToDouble (-(15000 + 1 / 4096)) = -(15000 + 1 / 4096) :=
    roundToDouble_of_representable _ (-61440001) (-12) (by norm_num) (by norm_num) (by norm_num)
  have hsq : roundToDouble ((15000 + 1 / 4096) * (15000 + 1 / 4096)) =
      (15000 + 1 / 4096) * (15000 + 1 / 4096) :=
    roundToDouble_of_representable _ 3774873722880001 (-24) (by norm_num) (by norm_num)
      (by norm_num)
  have hd : FVector.DistSquared ⟨15000 + 1 / 4096, 0, 0⟩ ⟨0, 0, 0⟩ =
      (15000 + 1 / 4096) * (15000 + 1 / 4096) := by
    simp only [FVector.DistSquared, FMath.Square, sub_self, zero_sub, h0, hx, mul_zero,
      add_zero, neg_mul_neg, hsq]
  rw [FVector.Dist, hd, FMath.Sqrt,
    sqrtBinary_of_exponent 53 (-1022) _ 13 (by norm_num) (by norm_num) (by norm_num)]
  have h : ((15000 + 1 / 4096 : ℚ) * (15000 + 1 / 4096)) /
      (2 ^ ((13 : Int) - ((53 : Nat) - 1))) ^ 2 = ((8246337342537728 : Nat) : ℚ) ^ 2 := by
    norm_num
  rw [h, roundSqrt_sq]
  norm_num

theorem roundToFloat_boundary : roundToFloat (15000 + 1 / 4096) = 15000 := by
  unfold roundToFloat
  rw [roundBinary_of_exponent 24 (-126) _ 13 (by norm_num) (by norm_num [abs_of_pos])
    (by norm_num [abs_of_pos])]
  rw [roundHalfEven_eq _ 15360000 (by norm_num) (by norm_num)]
  norm_num

/-- C22 as stated fails: the distance is converted to `float` before the comparison. With
relevancy culling on and `MaxReplicationDistance` 15000, the actor at (15000 + 1/4096, 0, 0) is
farther than 15000 from the player at the origin, yet `IsActorRelevantToPlayer` returns true:
the `double` distance 15000 + 1/4096 becomes the `float` 15000. -/
theorem C22_actor_beyond_the_maximum_is_relevant :
    boundaryScenario.Subsystem.CurrentSettings.bEnableRelevancy = true ∧
    boundaryScenario.Subsystem.CurrentSettings.MaxReplicationDistance = 15000 ∧
    boundaryScenario.ActorLocation 1 = ⟨15000 + 1 / 4096, 0, 0⟩ ∧
    boundaryScenario.ActorLocation 0 = ⟨0, 0, 0⟩ ∧
    ¬ (Real.sqrt ((((15000 + 1 / 4096 - 0) ^ 2 + (0 - 0) ^ 2 + (0 - 0) ^ 2 : ℚ)) : ℝ) ≤
      ((15000 : ℚ) : ℝ)) ∧
    IsActorRelevantToPlayer boundaryScenario (some 1) (some 0) = true := by
  refine ⟨rfl, rfl, rfl, rfl, ?_, ?_⟩
  · rw [Real.sqrt_le_iff]
    push_cast
    norm_num
  · have hl1 : boundaryScenario.ActorLocation 1 = ⟨15000 + 1 / 4096, 0, 0⟩ := rfl
    have hl0 : boundaryScenario.ActorLocation 0 = ⟨0, 0, 0⟩ := rfl
    have hm : boundaryScenario.Subsystem.CurrentSettings.MaxReplicationDistance = 15000 := rfl
    have he : boundaryScenario.Subsystem.CurrentSettings.bEnableRelevancy = true := rfl
    simp only [IsActorRelevantToPlayer, he, hl1, hl0, hm, Dist_boundary, roundToFloat_boundary]
    simp

/-- C22 (amended): `IsActorRelevantToPlayer` returns false when the actor or the player is
null, whatever the relevancy flag; it returns true for two non-null actors when
`bEnableRelevancy` is false; and otherwise it returns true exactly when the value of
`FVector::Dist` on the two actor locations, converted from `double` to `float`, is at most
`MaxReplicationDistance`, the boundary included. -/
theorem C22_relevancy_is_one_float_distance_comparison (P : Process) (Actor Player : Ptr) (a p : Nat) :
    (Actor = none ∨ Player = none → IsActorRelevantToPlayer P Actor Player = false) ∧
    (P.Subsystem.CurrentSettings.bEnableRelevancy = false →
      IsActorRelevantToPlayer P (some a) (some p) = true) ∧
    (P.Subsystem.CurrentSettings.bEnableRelevancy = true →
      (IsActorRelevantToPlayer P (some a) (some p) = true ↔
        roundToFloat (FVector.Dist (P.ActorLocation a) (P.ActorLocation p)) ≤
          P.Subsystem.CurrentSettings.MaxReplicationDistance)) := by
  refine ⟨?_, ?_, ?_⟩
  · rintro (h | h)
    · subst h; cases Player <;> rfl
    · subst h; cases Actor <;> rfl
  · intro h
    simp [IsActorRelevantToPlayer, h]
  · intro h
    simp [IsActorRelevantToPlayer, h]

/-- Witness for C22: with `MaxReplicationDistance` 5, the actor at (3, 4, 0) is at distance
exactly 5 from the actor at the origin and is relevant; a null actor is not. -/
theorem C22_relevancy_is_one_float_distance_comparison_witness :
    relevancyScenario.Subsystem.CurrentSettings.bEnableRelevancy = true ∧
    roundToFloat (FVector.Dist (relevancyScenario.ActorLocation 0)
      (relevancyScenario.ActorLocation 1)) = 5 ∧
    IsActorRelevantToPlayer relevancyScenario (some 0) (some 1) = true ∧
    IsActorRelevantToPlayer relevancyScenario none (some 1) = false :=
  have hd : roundToFloat (FVector.Dist (relevancyScenario.ActorLocation 0)
      (relevancyScenario.ActorLocation 1)) = 5 := by
    have h0 : relevancyScenario.ActorLocation 0 = ⟨0, 0, 0⟩ := rfl
    have h1 : relevancyScenario.ActorLocation 1 = ⟨3, 4, 0⟩ := rfl
    rw [h0, h1, Dist_three_four]
    simpa using roundToFloat_intCast 5 (by norm_num)
  ⟨rfl, hd,
   ((C22_relevancy_is_one_float_distance_comparison relevancyScenario none none 0 1).2.2
      rfl).mpr (by rw [hd]; exact le_refl (5 : ℚ)),
   (C22_relevancy_is_one_float_distance_comparison relevancyScenario none (some 1) 0 1).1
     (Or.inl rfl)⟩

/-! ## Dispatch as a function of the authority flag and the request -/

theorem run_rpcs_eq (env1 env2 : Env) (self1 self2 : UNetworkReplicationComponent)
    (call : ReplicateCall) (h : env1.HasAuthority = env2.HasAuthority) :
    (call.run env1 self1).rpcs = (call.run env2 self2).rpcs := by
  cases call <;>
    simp only [ReplicateCall.run, ReplicateAnimation,
      ReplicateAnimationStop, ReplicateSound, ReplicateSoundAtLocation, ReplicateActorSpawn,
      ReplicateActorSpawnAttached, ReplicateNiagaraEffect, ReplicateStringVariable,
      ReplicateFloatVariable, ReplicateIntVariable, ReplicateBoolVariable,
      ReplicateVectorVariable, ReplicateCustomEvent, ReplicateMotionMatchingDatabase,
      ReplicatePoseSearchSchema, ReplicateTrajectoryData, h] <;>
    (repeat' split) <;> rfl

/-- C23: the RPC issued by a `Replicate*` call is a function of the authority flag and the
request only. For every call and any two component states and world times with the same
authority flag the recorded RPC list is the same, it holds at most one call, and in any two
processes (whatever their debug flags, counters, timestamps and subsystem settings) the call
appends to the RPCs sent exactly what a component as constructed would issue: nothing is held
back, merged or delayed. -/
theorem C23_dispatch_depends_on_authority_and_request_only (env1 env2 : Env) (self1 self2 : UNetworkReplicationComponent)
    (P Q : Process) (this : Nat) (call : ReplicateCall)
    (h : env1.HasAuthority = env2.HasAuthority) :
    (call.run env1 self1).rpcs = (call.run env2 self2).rpcs ∧
    (call.run env1 self1).rpcs.length ≤ 1 ∧
    (P.Replicate this env1 call).Sent =
      P.Sent ++ ((call.run ⟨env1.HasAuthority, 0⟩ construct).rpcs.map (fun r => (this, r))) ∧
    (Q.Replicate this env2 call).Sent =
      Q.Sent ++ ((call.run ⟨env1.HasAuthority, 0⟩ construct).rpcs.map (fun r => (this, r))) := by
  refine ⟨run_rpcs_eq _ _ _ _ _ h, ?_, ?_, ?_⟩
  · cases call <;>
      simp only [ReplicateCall.run, ReplicateAnimation,
        ReplicateAnimationStop, ReplicateSound, ReplicateSoundAtLocation, ReplicateActorSpawn,
        ReplicateActorSpawnAttached, ReplicateNiagaraEffect, ReplicateStringVariable,
        ReplicateFloatVariable, ReplicateIntVariable, ReplicateBoolVariable,
        ReplicateVectorVariable, ReplicateCustomEvent, ReplicateMotionMatchingDatabase,
        ReplicatePoseSearchSchema, ReplicateTrajectoryData] <;>
      (repeat' split) <;> simp
  · simp only [Process.Replicate, Process.apply]
    rw [run_rpcs_eq env1 ⟨env1.HasAuthority, 0⟩ (P.Components this) construct call rfl]
  · simp only [Process.Replicate, Process.apply]
    rw [run_rpcs_eq env2 ⟨env1.HasAuthority, 0⟩ (Q.Components this) construct call h.symm]

/-- Witness for C23: a sound replicated with authority by a component as constructed and by
one in debug mode with seven replications counted, at different world times. -/
theorem C23_dispatch_depends_on_authority_and_request_only_witness :
    (⟨true, 1⟩ : Env).HasAuthority = (⟨true, 99⟩ : Env).HasAuthority ∧
    ((ReplicateCall.ReplicateSound (some 3) 1 1 0).run ⟨true, 1⟩ construct).rpcs =
      ((ReplicateCall.ReplicateSound (some 3) 1 1 0).run ⟨true, 99⟩ ⟨true, 7, 3⟩).rpcs :=
  ⟨rfl,
   (C23_dispatch_depends_on_authority_and_request_only ⟨true, 1⟩ ⟨true, 99⟩ construct
      ⟨true, 7, 3⟩ Process.initial (SetReplicationDistance Process.initial 5) 0
      (ReplicateCall.ReplicateSound (some 3) 1 1 0) rfl).1⟩

/-! ## Register followed by unregister -/

/-- C24: for every process state and every non-null component that is not in the registered
array, `RegisterReplicationComponent` followed by `UnregisterReplicationComponent` of it
restores the registered array, hence `GetActiveReplicationCount()`; and after
`UnregisterReplicationComponent` of a component, in any state, the component is not in the
registered array. -/
theorem C24_register_then_unregister_restores_the_registry (P : Process) (c : Nat) (h : some c ∉ P.Subsystem.RegisteredComponents) :
    (UnregisterReplicationComponent (RegisterReplicationComponent P (some c))
      (some c)).Subsystem.RegisteredComponents = P.Subsystem.RegisteredComponents ∧
    GetActiveReplicationCount
      (UnregisterReplicationComponent (RegisterReplicationComponent P (some c)) (some c)) =
      GetActiveReplicationCount P ∧
    (∀ Q : Process,
      some c ∉ (UnregisterReplicationComponent Q (some c)).Subsystem.RegisteredComponents) := by
  have h1 : (UnregisterReplicationComponent (RegisterReplicationComponent P (some c))
      (some c)).Subsystem.RegisteredComponents = P.Subsystem.RegisteredComponents := by
    simp only [UnregisterReplicationComponent, RegisterReplicationComponent, Process.UE_LOG,
      TArray.AddUnique, TArray.Remove, h]
    simp only [reduceCtorEq, if_false, List.filter_append]
    have := TArray.Remove_of_not_mem h
    simp only [TArray.Remove] at this
    rw [this]
    simp
  refine ⟨h1, by simp [GetActiveReplicationCount, h1], ?_⟩
  intro Q
  simp [UnregisterReplicationComponent, Process.UE_LOG, TArray.mem_Remove]

/-- Witness for C24: component 4 on the freshly initialised subsystem. -/
theorem C24_register_then_unregister_restores_the_registry_witness :
    some 4 ∉ Process.initial.Subsystem.RegisteredComponents ∧
    GetActiveReplicationCount
      (UnregisterReplicationComponent (RegisterReplicationComponent Process.initial (some 4))
        (some 4)) = GetActiveReplicationCount Process.initial :=
  ⟨by decide,
   (C24_register_then_unregister_restores_the_registry Process.initial 4 (by decide)).2.1⟩

/-! ## The average latency -/

theorem foldl_latencyStep (Components : Nat → UNetworkReplicationComponent) (l : List Ptr)
    (a : float) (n : Int) :
    l.foldl (latencyStep Components) (a, wrapInt32 n) =
      ((positiveTimes Components l).foldl (fun Total t => roundToFloat (Total + t)) a,
        wrapInt32 (n + (positiveTimes Components l).length)) := by
  induction l generalizing a n with
  | nil => simp [positiveTimes]
  | cons x l ih =>
    cases x with
    | none =>
      simp only [List.foldl_cons, latencyStep, positiveTimes, List.filterMap_cons]
      exact ih a n
    | some c =>
      by_cases hc : (Components c).LastReplicationTime > 0
      · simp only [List.foldl_cons, latencyStep, positiveTimes, List.filterMap_cons, hc,
          if_true, List.length_cons]
        rw [wrapInt32_add_wrapInt32]
        have := ih (roundToFloat (a + (Components c).LastReplicationTime)) (n + 1)
        simp only [positiveTimes] at this
        rw [this]
        congr 2
        push_cast
        ring
      · simp only [List.foldl_cons, latencyStep, positiveTimes, List.filterMap_cons, hc,
          if_false]
        exact ih a n

theorem length_positiveTimes_le (Components : Nat → UNetworkReplicationComponent)
    (l : List Ptr) : (positiveTimes Components l).length ≤ l.length :=
  List.length_filterMap_le _ _

theorem sumLatency_eq (P : Process) (h : P.Subsystem.RegisteredComponents.length < 2147483648) :
    sumLatency P.Components P.Subsystem.RegisteredComponents =
      (floatSum (positiveTimes P.Components P.Subsystem.RegisteredComponents),
        ((positiveTimes P.Components P.Subsystem.RegisteredComponents).length : Int)) := by
  have hs := foldl_latencyStep P.Components P.Subsystem.RegisteredComponents 0 0
  rw [wrapInt32_of_range (x := 0) (by norm_num) (by norm_num), zero_add] at hs
  have hle := length_positiveTimes_le P.Components P.Subsystem.RegisteredComponents
  rw [wrapInt32_of_range (by omega) (by omega)] at hs
  simp only [sumLatency, hs, floatSum]

theorem averageLatency_eq (P : Process)
    (h : P.Subsystem.RegisteredComponents.length < 2147483648) :
    GetAverageLatency P =
      if positiveTimes P.Components P.Subsystem.RegisteredComponents = [] then 0
      else roundToFloat
        (floatSum (positiveTimes P.Components P.Subsystem.RegisteredComponents) /
          roundToFloat ((positiveTimes P.Components P.Subsystem.RegisteredComponents).length : ℚ)) := by
  simp only [GetAverageLatency, sumLatency_eq P h]
  cases hp : positiveTimes P.Components P.Subsystem.RegisteredComponents with
  | nil => simp
  | cons t ts =>
    simp only [List.length_cons, reduceCtorEq, if_false]
    rw [if_pos]
    · push_cast; rfl
    · show (0 : Int) < _
      push_cast
      omega

theorem roundToFloat_double_fifth :
    roundToFloat (3602879701896397 / 18014398509481984) = 13421773 / 67108864 := by
  unfold roundToFloat
  rw [roundBinary_of_exponent 24 (-126) _ (-3) (by norm_num) (by norm_num [abs_of_pos])
    (by norm_num [abs_of_pos])]
  rw [roundHalfEven_eq _ 13421773 (by norm_num) (by norm_num)]
  norm_num

theorem roundToFloat_double_three_tenths :
    roundToFloat (5404319552844595 / 18014398509481984) = 5033165 / 16777216 := by
  unfold roundToFloat
  rw [roundBinary_of_exponent 24 (-126) _ (-2) (by norm_num) (by norm_num [abs_of_pos])
    (by norm_num [abs_of_pos])]
  rw [roundHalfEven_eq _ 10066330 (by norm_num) (by norm_num)]
  norm_num

theorem roundingScenario_registered :
    roundingScenario.Subsystem.RegisteredComponents = [some 0, some 1, some 2] := by
  decide

theorem roundingScenario_times :
    positiveTimes roundingScenario.Components roundingScenario.Subsystem.RegisteredComponents =
      [13421773 / 134217728, 13421773 / 67108864, 5033165 / 16777216] := by
  have h0 : (roundingScenario.Components 0).LastReplicationTime =
      roundToFloat (3602879701896397 / 36028797018963968) := rfl
  have h1 : (roundingScenario.Components 1).LastReplicationTime =
      roundToFloat (3602879701896397 / 18014398509481984) := rfl
  have h2 : (roundingScenario.Components 2).LastReplicationTime =
      roundToFloat (5404319552844595 / 18014398509481984) := rfl
  rw [roundToFloat_double_tenth] at h0
  rw [roundToFloat_double_fifth] at h1
  rw [roundToFloat_double_three_tenths] at h2
  rw [roundingScenario_registered]
  simp only [positiveTimes, List.filterMap_cons, List.filterMap_nil, h0, h1, h2]
  norm_num

theorem floatSum_rounding :
    floatSum [13421773 / 134217728, 13421773 / 67108864, 5033165 / 16777216] =
      5033165 / 8388608 := by
  have a : roundToFloat (13421773 / 134217728) = 13421773 / 134217728 :=
    roundToFloat_of_isFloat _ ⟨13421773, -27, by norm_num, by norm_num, by norm_num, by norm_num⟩
  have b : roundToFloat (13421773 / 134217728 + 13421773 / 67108864) = 5033165 / 16777216 := by
    unfold roundToFloat
    rw [roundBinary_of_exponent 24 (-126) _ (-2) (by norm_num) (by norm_num [abs_of_pos])
      (by norm_num [abs_of_pos])]
    rw [roundHalfEven_eq _ 10066330 (by norm_num) (by norm_num)]
    norm_num
  have c : roundToFloat (5033165 / 16777216 + 5033165 / 16777216) = 5033165 / 8388608 := by
    rw [roundToFloat_of_isFloat _
      ⟨5033165, -23, by norm_num, by norm_num, by norm_num, by norm_num⟩]
    norm_num
  simp only [floatSum, List.foldl_cons, List.foldl_nil, zero_add, a, b, c]

theorem roundToFloat_quotient :
    roundToFloat (5033165 / 8388608 / roundToFloat ((3 : Nat) : ℚ)) = 13421773 / 67108864 := by
  have h3 : roundToFloat ((3 : Nat) : ℚ) = 3 := by
    simpa using roundToFloat_intCast 3 (by norm_num)
  rw [h3]
  unfold roundToFloat
  rw [roundBinary_of_exponent 24 (-126) _ (-3) (by norm_num) (by norm_num [abs_of_pos])
    (by norm_num [abs_of_pos])]
  rw [roundHalfEven_eq _ 13421773 (by norm_num) (by norm_num)]
  norm_num

theorem latencyScenario_times :
    positiveTimes latencyScenario.Components latencyScenario.Subsystem.RegisteredComponents =
      [8] := by
  have hreg : latencyScenario.Subsystem.RegisteredComponents = [some 0, some 1] := by decide
  have h0 : (latencyScenario.Components 0).LastReplicationTime = roundToFloat 0 := rfl
  have h1 : (latencyScenario.Components 1).LastReplicationTime = roundToFloat 8 := rfl
  have r0 : roundToFloat 0 = 0 := roundBinary_zero _ _
  have r8 : roundToFloat 8 = 8 := by simpa using roundToFloat_intCast 8 (by norm_num)
  rw [r0] at h0
  rw [r8] at h1
  rw [hreg]
  simp only [positiveTimes, List.filterMap_cons, List.filterMap_nil, h0, h1]
  norm_num

/-- C25 as stated fails: the sum and the quotient are `float` operations. Three registered
components that replicated once each, at the world times `0.1`, `0.2` and `0.3`, hold the
timestamps 13421773/134217728, 13421773/67108864 and 5033165/16777216; their arithmetic mean
is 80530639/402653184, and `GetAverageLatency()` returns 13421773/67108864. -/
theorem C25_average_latency_is_not_the_exact_mean :
    positiveTimes roundingScenario.Components roundingScenario.Subsystem.RegisteredComponents =
      [13421773 / 134217728, 13421773 / 67108864, 5033165 / 16777216] ∧
    arithmeticMean [13421773 / 134217728, 13421773 / 67108864, 5033165 / 16777216] =
      80530639 / 402653184 ∧
    GetAverageLatency roundingScenario = 13421773 / 67108864 ∧
    (13421773 / 67108864 : ℚ) ≠ 80530639 / 402653184 := by
  refine ⟨roundingScenario_times, ?_, ?_, by norm_num⟩
  · rw [arithmeticMean, if_neg (List.cons_ne_nil _ _)]
    norm_num
  · rw [averageLatency_eq roundingScenario (by rw [roundingScenario_registered]; decide),
      roundingScenario_times, if_neg (List.cons_ne_nil _ _), floatSum_rounding]
    exact roundToFloat_quotient

/-- C25 (amended): for every process state whose registered array holds fewer than `2 ^ 31`
entries (the capacity of a `TArray`), `GetAverageLatency()` never divides by zero: with `ts`
the `LastReplicationTime` values of exactly the registered non-null components whose value is
greater than 0, in registration order, it returns 0 when `ts` is empty and otherwise the
`float` quotient of the `float` sum of `ts`, rounded after every addition, by the number of
elements of `ts` converted to `float`; the loop counter is that number. The result is the
arithmetic mean of `ts` when the sum incurs no rounding, `ts` has fewer than `2 ^ 24` elements
and the mean is a `float` value; in particular it is `t` when `ts` is the single `float` value
`t`. -/
theorem C25_average_latency_is_the_float_mean_of_positive_timestamps (P : Process) (h : P.Subsystem.RegisteredComponents.length < 2147483648) :
    (GetAverageLatency P =
      if positiveTimes P.Components P.Subsystem.RegisteredComponents = [] then 0
      else roundToFloat
        (floatSum (positiveTimes P.Components P.Subsystem.RegisteredComponents) /
          roundToFloat ((positiveTimes P.Components P.Subsystem.RegisteredComponents).length : ℚ))) ∧
    (sumLatency P.Components P.Subsystem.RegisteredComponents).2 =
      (positiveTimes P.Components P.Subsystem.RegisteredComponents).length ∧
    (positiveTimes P.Components P.Subsystem.RegisteredComponents = [] →
      GetAverageLatency P = 0) ∧
    (floatSum (positiveTimes P.Components P.Subsystem.RegisteredComponents) =
        (positiveTimes P.Components P.Subsystem.RegisteredComponents).sum →
      (positiveTimes P.Components P.Subsystem.RegisteredComponents).length < 2 ^ 24 →
      IsFloat (arithmeticMean (positiveTimes P.Components P.Subsystem.RegisteredComponents)) →
      GetAverageLatency P =
        arithmeticMean (positiveTimes P.Components P.Subsystem.RegisteredComponents)) ∧
    (∀ t, positiveTimes P.Components P.Subsystem.RegisteredComponents = [t] → IsFloat t →
      GetAverageLatency P = t) := by
  have hm := averageLatency_eq P h
  have h1 : roundToFloat 1 = 1 := by simpa using roundToFloat_intCast 1 (by norm_num)
  refine ⟨hm, ?_, ?_, ?_, ?_⟩
  · rw [sumLatency_eq P h]
  · intro he
    rw [hm, if_pos he]
  · intro hsum hlen hfl
    rw [hm]
    generalize positiveTimes P.Components P.Subsystem.RegisteredComponents = ts at *
    have hn : roundToFloat ((ts.length : ℚ)) = ts.length := by
      have := roundToFloat_intCast (ts.length : Int) (by
        rw [abs_of_nonneg (by positivity)]
        exact_mod_cast hlen)
      simpa using this
    unfold arithmeticMean at *
    by_cases he : ts = []
    · simp [he]
    · rw [if_neg he] at hfl ⊢
      rw [if_neg he, hsum, hn, roundToFloat_of_isFloat _ hfl]
  · intro t ht hf
    rw [hm, ht]
    simp [floatSum, h1, roundToFloat_of_isFloat _ hf]

/-- Witness for C25: component 0 replicated once at world time 0 and component 1 once at
world time 8; only component 1 is counted and the average is 8. -/
theorem C25_average_latency_is_the_float_mean_of_positive_timestamps_witness :
    latencyScenario.Subsystem.RegisteredComponents.length < 2147483648 ∧
    (latencyScenario.Components 0).TotalReplications = 1 ∧
    (latencyScenario.Components 0).LastReplicationTime = 0 ∧
    positiveTimes latencyScenario.Components latencyScenario.Subsystem.RegisteredComponents
      = [8] ∧
    IsFloat 8 ∧
    GetAverageLatency latencyScenario = 8 :=
  have hf : IsFloat 8 := ⟨8, 0, by norm_num, by norm_num, by norm_num, by norm_num⟩
  ⟨by decide, by decide, roundBinary_zero _ _, latencyScenario_times, hf,
   (C25_average_latency_is_the_float_mean_of_positive_timestamps latencyScenario
      (by decide)).2.2.2.2 8 latencyScenario_times hf⟩

/-! ## Bandwidth optimisation -/

theorem interval_le_optimize (P : Process) (m : float) :
    (GetReplicationSettings P).ReplicationInterval ≤
      (GetReplicationSettings (OptimizeForBandwidth P m)).ReplicationInterval := by
  simp only [OptimizeForBandwidth, GetReplicationSettings]
  split
  · show P.Subsystem.CurrentSettings.ReplicationInterval ≤
      max (1 / 10) (P.Subsystem.CurrentSettings.ReplicationInterval * (3 / 2))
    rcases le_total 0 P.Subsystem.CurrentSettings.ReplicationInterval with h | h
    · exact le_trans (by linarith) (le_max_right _ _)
    · exact le_trans (by linarith) (le_max_left _ _)
  · exact le_refl _

theorem interval_le_foldl_optimize (ms : List float) (P : Process) :
    (GetReplicationSettings P).ReplicationInterval ≤
      (GetReplicationSettings (ms.foldl OptimizeForBandwidth P)).ReplicationInterval := by
  induction ms generalizing P with
  | nil => exact le_refl _
  | cons m ms ih => exact le_trans (interval_le_optimize P m) (ih _)

/-- C26: `OptimizeForBandwidth(m)` leaves the settings unchanged when
`GetReplicationBandwidth() <= m`; when `GetReplicationBandwidth() > m` it assigns
`max(0.1, 1.5 * old interval)` to `ReplicationInterval` and changes no other field, so the new
interval is at least the old one and at least 0.1; and after any sequence of calls, with any
arguments, the interval is at least what it was. -/
theorem C26_optimize_for_bandwidth_never_lowers_the_interval (P : Process) (m : float) (ms : List float) :
    (GetReplicationBandwidth P ≤ m →
      GetReplicationSettings (OptimizeForBandwidth P m) = GetReplicationSettings P) ∧
    (m < GetReplicationBandwidth P →
      GetReplicationSettings (OptimizeForBandwidth P m) =
        { GetReplicationSettings P with
          ReplicationInterval :=
            max (1 / 10) ((GetReplicationSettings P).ReplicationInterval * (3 / 2)) } ∧
      (GetReplicationSettings P).ReplicationInterval ≤
        (GetReplicationSettings (OptimizeForBandwidth P m)).ReplicationInterval ∧
      1 / 10 ≤ (GetReplicationSettings (OptimizeForBandwidth P m)).ReplicationInterval) ∧
    (GetReplicationSettings P).ReplicationInterval ≤
      (GetReplicationSettings (ms.foldl OptimizeForBandwidth P)).ReplicationInterval := by
  refine ⟨?_, ?_, interval_le_foldl_optimize ms P⟩
  · intro h
    simp only [OptimizeForBandwidth, gt_iff_lt, not_lt.mpr h, if_false]
  · intro h
    have e : GetReplicationSettings (OptimizeForBandwidth P m) =
        { GetReplicationSettings P with
          ReplicationInterval :=
            max (1 / 10) ((GetReplicationSettings P).ReplicationInterval * (3 / 2)) } := by
      simp only [OptimizeForBandwidth, gt_iff_lt, h, if_true]
      rfl
    refine ⟨e, interval_le_optimize P m, ?_⟩
    rw [e]
    exact le_max_left _ _

/-- Witness for C26: one registered component (bandwidth 0.1) and `m = 0`; the interval goes
from 0.05 to 0.1. -/
theorem C26_optimize_for_bandwidth_never_lowers_the_interval_witness :
    (0 : float) <
      GetReplicationBandwidth (RegisterReplicationComponent Process.initial (some 0)) ∧
    (GetReplicationSettings
      (RegisterReplicationComponent Process.initial (some 0))).ReplicationInterval = 5 / 100 ∧
    (GetReplicationSettings (OptimizeForBandwidth
      (RegisterReplicationComponent Process.initial (some 0)) 0)).ReplicationInterval
        = 1 / 10 := by
  have hb : (0 : float) <
      GetReplicationBandwidth (RegisterReplicationComponent Process.initial (some 0)) := by
    have : GetReplicationBandwidth (RegisterReplicationComponent Process.initial (some 0)) =
        1 / 10 := by
      simp [GetReplicationBandwidth, TArray.Num, RegisterReplicationComponent, Process.UE_LOG,
        TArray.AddUnique, Process.initial, Initialize, Process.fresh,
        UNetworkReplicationSubsystem.construct]
    rw [this]; norm_num
  have h := ((C26_optimize_for_bandwidth_never_lowers_the_interval (RegisterReplicationComponent Process.initial (some 0)) 0 []).2.1 hb).1
  refine ⟨hb, rfl, ?_⟩
  rw [h]
  have hi : (GetReplicationSettings
      (RegisterReplicationComponent Process.initial (some 0))).ReplicationInterval = 5 / 100 :=
    rfl
  show max (1 / 10) ((GetReplicationSettings
      (RegisterReplicationComponent Process.initial (some 0))).ReplicationInterval * (3 / 2)) =
        1 / 10
  rw [hi]
  norm_num

/-! ## Resetting the statistics -/

theorem foldl_resetStep (l : List Ptr) (Components : Nat → UNetworkReplicationComponent)
    (c : Nat) :
    (l.foldl resetStep Components) c =
      if some c ∈ l then
        { Components c with TotalReplications := 0, LastReplicationTime := 0 }
      else Components c := by
  induction l generalizing Components with
  | nil => simp
  | cons x l ih =>
    rw [List.foldl_cons, ih]
    cases x with
    | none => simp [resetStep]
    | some d =>
      by_cases hd : c = d
      · subst hd
        simp [resetStep]
      · have hne : ¬ (some c = some d) := fun e => hd (Option.some.inj e)
        have hne2 : ¬ (d = c) := fun e => hd e.symm
        simp [resetStep, Function.update_noteq hd, hne, hd]

/-- C27: for every process state, after `ResetReplicationStats()` both
`GetTotalReplications()` and `GetAverageLatency()` are 0; the subsystem object (registered
array, settings, thresholds) and `GetActiveReplicationCount()` are unchanged; a component that
is not registered is untouched, and a registered one has only its counter and timestamp set
to 0. -/
theorem C27_reset_zeroes_the_registered_counters (P : Process) :
    GetTotalReplications (ResetReplicationStats P) = 0 ∧
    GetAverageLatency (ResetReplicationStats P) = 0 ∧
    (ResetReplicationStats P).Subsystem = P.Subsystem ∧
    GetActiveReplicationCount (ResetReplicationStats P) = GetActiveReplicationCount P ∧
    GetReplicationSettings (ResetReplicationStats P) = GetReplicationSettings P ∧
    (∀ c, some c ∉ P.Subsystem.RegisteredComponents →
      (ResetReplicationStats P).Components c = P.Components c) ∧
    (∀ c, some c ∈ P.Subsystem.RegisteredComponents →
      (ResetReplicationStats P).Components c =
        { P.Components c with TotalReplications := 0, LastReplicationTime := 0 }) := by
  have hc : ∀ c, (ResetReplicationStats P).Components c =
      if some c ∈ P.Subsystem.RegisteredComponents then
        { P.Components c with TotalReplications := 0, LastReplicationTime := 0 }
      else P.Components c := fun c => foldl_resetStep _ _ c
  refine ⟨?_, ?_, rfl, rfl, rfl, ?_, ?_⟩
  · exact foldl_totalStep_of_zero _ _ _ (by decide) (fun c hmem => by
      have hmem2 : some c ∈ P.Subsystem.RegisteredComponents := hmem
      rw [hc c, if_pos hmem2])
  · have : sumLatency (ResetReplicationStats P).Components
        (ResetReplicationStats P).Subsystem.RegisteredComponents = (0, 0) :=
      foldl_latencyStep_of_zero _ _ _ (fun c hmem => by
        have hmem2 : some c ∈ P.Subsystem.RegisteredComponents := hmem
        rw [hc c, if_pos hmem2])
    simp [GetAverageLatency, this]
  · intro c hmem
    rw [hc c, if_neg hmem]
  · intro c hmem
    rw [hc c, if_pos hmem]

/-! ## What observers see of a variable -/

/-- C28: the multicast handler broadcasts `OnVariableReplicated(name, value)` whatever the
type tag; so for every name `n`, authority flag and components, the events an observer sees for
`ReplicateBoolVariable(n, true)` are those for `ReplicateStringVariable(n, "true")`, and the
events for `ReplicateIntVariable(n, k)` are those for `ReplicateStringVariable(n, s)` with `s`
the decimal text of `k`; the tags sent are 0 for String, 1 for Float, 2 for Int, 3 for Bool and
4 for Vector. -/
theorem C28_variable_type_tag_does_not_reach_observers (engine : Engine) (env : Env)
    (origin server observer : UNetworkReplicationComponent) (n : FName) (k : int32)
    (v : FString) (tag : int32) (f : float) (vec : FVector) :
    (MulticastReplicateVariable_Implementation observer n v tag).events =
      [DelegateEvent.OnVariableReplicated n v] ∧
    observerEvents engine observer (broadcastsOf engine server
        ((ReplicateCall.ReplicateBoolVariable n true).run env origin).rpcs) =
      observerEvents engine observer (broadcastsOf engine server
        ((ReplicateCall.ReplicateStringVariable n "true").run env origin).rpcs) ∧
    observerEvents engine observer (broadcastsOf engine server
        ((ReplicateCall.ReplicateIntVariable n k).run env origin).rpcs) =
      observerEvents engine observer (broadcastsOf engine server
        ((ReplicateCall.ReplicateStringVariable n (toString k)).run env origin).rpcs) ∧
    observerEvents engine observer (broadcastsOf engine server
        ((ReplicateCall.ReplicateIntVariable n k).run env origin).rpcs) =
      [DelegateEvent.OnVariableReplicated n (toString k)] ∧
    (ReplicateStringVariable ⟨true, 0⟩ origin n v).rpcs =
      [RpcCall.MulticastReplicateVariable n v 0] ∧
    (ReplicateFloatVariable ⟨true, 0⟩ origin n f).rpcs =
      [RpcCall.MulticastReplicateVariable n (printfFixed 6 f) 1] ∧
    (ReplicateIntVariable ⟨true, 0⟩ origin n k).rpcs =
      [RpcCall.MulticastReplicateVariable n (toString k) 2] ∧
    (ReplicateBoolVariable ⟨true, 0⟩ origin n true).rpcs =
      [RpcCall.MulticastReplicateVariable n "true" 3] ∧
    (ReplicateVectorVariable ⟨true, 0⟩ origin n vec).rpcs =
      [RpcCall.MulticastReplicateVariable n vec.ToString 4] := by
  refine ⟨rfl, ?_, ?_, ?_, rfl, rfl, rfl, rfl, rfl⟩
  · cases hA : env.HasAuthority <;>
      simp [observerEvents, broadcastsOf, ReplicateCall.run, ReplicateBoolVariable,
        ReplicateStringVariable, RpcCall.isServer, RpcCall.Implementation, hA,
        ServerReplicateVariable_Implementation, MulticastReplicateVariable_Implementation]
  · cases hA : env.HasAuthority <;>
      simp [observerEvents, broadcastsOf, ReplicateCall.run, ReplicateIntVariable,
        ReplicateStringVariable, RpcCall.isServer, RpcCall.Implementation, hA, printfInt,
        ServerReplicateVariable_Implementation, MulticastReplicateVariable_Implementation]
  · cases hA : env.HasAuthority <;>
      simp [observerEvents, broadcastsOf, ReplicateCall.run, ReplicateIntVariable,
        RpcCall.isServer, RpcCall.Implementation, hA, printfInt,
        ServerReplicateVariable_Implementation, MulticastReplicateVariable_Implementation]

/-! ## Return values of the spawn entry points -/

/-- C29: for every authority flag, component state and arguments (null or not),
`ReplicateActorSpawn`, `ReplicateActorSpawnAttached` and `ReplicateNiagaraEffect` return
`nullptr`. -/
theorem C29_spawn_entry_points_return_null (env : Env) (self : UNetworkReplicationComponent) (ActorClass Effect : Ptr)
    (Location : FVector) (Rotation : FRotator) (bAttachToOwner : Bool)
    (AttachSocketName : FName) :
    (ReplicateActorSpawn env self ActorClass Location Rotation bAttachToOwner).1 = none ∧
    (ReplicateActorSpawnAttached env self ActorClass AttachSocketName Location Rotation).1
      = none ∧
    (ReplicateNiagaraEffect env self Effect Location Rotation bAttachToOwner
      AttachSocketName).1 = none := by
  refine ⟨?_, ?_, ?_⟩
  · simp only [ReplicateActorSpawn]; repeat' split
    all_goals rfl
  · simp only [ReplicateActorSpawnAttached]; repeat' split
    all_goals rfl
  · simp only [ReplicateNiagaraEffect]; repeat' split
    all_goals rfl

/-! ## The simulation setters -/

/-- C30: for every process state and input, the value stored by `SimulatePacketLoss(p)` lies
in [0, 100] and is `p` whenever `0 <= p <= 100`; the values stored by `SimulateLatency(x)` and
`SimulateBandwidthLimit(x)` are `max(0, x)`, hence not negative; and each of the three setters
changes its own field of the subsystem only and no component. -/
theorem C30_simulation_setters_clamp_their_own_field (P : Process) (p x : float) :
    (0 ≤ (SimulatePacketLoss P p).Subsystem.SimulatedPacketLoss ∧
      (SimulatePacketLoss P p).Subsystem.SimulatedPacketLoss ≤ 100) ∧
    (0 ≤ p ∧ p ≤ 100 → (SimulatePacketLoss P p).Subsystem.SimulatedPacketLoss = p) ∧
    ((SimulateLatency P x).Subsystem.SimulatedLatency = max 0 x ∧
      0 ≤ (SimulateLatency P x).Subsystem.SimulatedLatency) ∧
    ((SimulateBandwidthLimit P x).Subsystem.SimulatedBandwidthLimit = max 0 x ∧
      0 ≤ (SimulateBandwidthLimit P x).Subsystem.SimulatedBandwidthLimit) ∧
    (SimulatePacketLoss P p).Subsystem =
      { P.Subsystem with SimulatedPacketLoss := max (min p 100) 0 } ∧
    (SimulateLatency P x).Subsystem = { P.Subsystem with SimulatedLatency := max 0 x } ∧
    (SimulateBandwidthLimit P x).Subsystem =
      { P.Subsystem with SimulatedBandwidthLimit := max 0 x } ∧
    (SimulatePacketLoss P p).Components = P.Components ∧
    (SimulateLatency P x).Components = P.Components ∧
    (SimulateBandwidthLimit P x).Components = P.Components := by
  refine ⟨⟨?_, ?_⟩, ?_, ⟨rfl, ?_⟩, ⟨rfl, ?_⟩, rfl, rfl, rfl, rfl, rfl, rfl⟩
  · exact le_max_right _ _
  · show max (min p 100) 0 ≤ 100
    exact max_le (min_le_right _ _) (by norm_num)
  · rintro ⟨h0, h1⟩
    show max (min p 100) 0 = p
    rw [min_eq_left h1, max_eq_left h0]
  · exact le_max_left _ _
  · exact le_max_left _ _

/-- Witness for C30: a loss of 250 percent is stored as 100, a loss of 40 as 40, and a latency
of -3 as 0. -/
theorem C30_simulation_setters_clamp_their_own_field_witness :
    (SimulatePacketLoss Process.initial 250).Subsystem.SimulatedPacketLoss ≤ 100 ∧
    ((0 : float) ≤ 40 ∧ (40 : float) ≤ 100) ∧
    (SimulatePacketLoss Process.initial 40).Subsystem.SimulatedPacketLoss = 40 ∧
    0 ≤ (SimulateLatency Process.initial (-3)).Subsystem.SimulatedLatency :=
  ⟨(C30_simulation_setters_clamp_their_own_field Process.initial 250 0).1.2,
   ⟨by norm_num, by norm_num⟩,
   (C30_simulation_setters_clamp_their_own_field Process.initial 40 0).2.1
     ⟨by norm_num, by norm_num⟩,
   (C30_simulation_setters_clamp_their_own_field Process.initial 0 (-3)).2.2.1.2⟩

end NetworkReplication
